import Mathlib

deriving instance DecidableEq for Except

/-!
Shallow embedding of `converter.py` (class `EthiopianDateConverter`) from the
calendar_bot repository, together with theorems checking the specification's
claims about the bidirectional Ethiopian/Gregorian date conversion.

Conventions of the embedding:
* Python integers become `Int`.  Every `//` and `%` in the source has a
  positive literal divisor (4, 100, 400), and for a positive divisor Python's
  floor division and modulo coincide with Lean's `Int` `/` (`Int.ediv`) and
  `%` (`Int.emod`) on all dividends, including negative ones.
* Python lists of month lengths become `List Int`; in-place element updates
  (`xs[i] = v`) become `List.set`, and indexing becomes `List.getD`.
* The `for ... in range ...` scan that both conversion routines use to locate
  a month slot is modelled by `scanSlots`, which returns `some (index,
  remainder)` when the Python loop exits through `break`, and `none` when the
  loop runs to completion (in which case the Python code keeps the loop
  variable at the last index and the pre-loop day value).
* Raising `ValueError` becomes returning `Except.error` with the exact
  message string the Python code builds.
-/

/-- Embeds `EthiopianDateConverter._start_day_of_ethiopian`. -/
def start_day_of_ethiopian (year : Int) : Int :=
  let new_year_day := year / 100 - year / 400 - 4
  if (year - 1) % 4 = 3 then new_year_day + 1 else new_year_day

/-- Embeds `EthiopianDateConverter._is_ethiopian_leap_year`. -/
def is_ethiopian_leap_year (year : Int) : Bool :=
  (year - 1) % 4 = 3

/-- Embeds `EthiopianDateConverter._is_gregorian_leap_year`. -/
def is_gregorian_leap_year (year : Int) : Bool :=
  (year % 4 = 0 && year % 100 ≠ 0) || year % 400 = 0

/-- Embeds `EthiopianDateConverter._validate_ethiopian_date`.  The
`isinstance(x, int)` check of the source is vacuous here because the
embedding is typed over `Int`. -/
def validate_ethiopian_date (year month date : Int) : Option String :=
  if year ≤ 0 then
    some ("Invalid Ethiopian year: " ++ toString year ++ ". Year must be a positive integer.")
  else if month ≤ 0 then
    some ("Invalid Ethiopian month: " ++ toString month ++ ". Month must be between 1 and 13.")
  else if date ≤ 0 then
    some ("Invalid Ethiopian day: " ++ toString date ++ ". Day must be a positive integer.")
  else if month > 13 then
    some ("Invalid Ethiopian month: " ++ toString month ++ ". Ethiopian calendar has only 13 months (1-13).")
  else if month ≤ 12 then
    if date > 30 then
      some ("Invalid Ethiopian date: Month " ++ toString month ++ " has only 30 days, but day " ++ toString date ++ " was provided.")
    else none
  else
    let is_leap := is_ethiopian_leap_year year
    let max_days : Int := if is_leap then 6 else 5
    if date > max_days then
      let leap_status := if is_leap then "leap year" else "non-leap year"
      some ("Invalid Ethiopian date: Pagume (month 13) has only " ++ toString max_days ++ " days in " ++ leap_status ++ " " ++ toString year ++ ", but day " ++ toString date ++ " was provided.")
    else none

/-- Embeds `EthiopianDateConverter._validate_gregorian_date`. -/
def validate_gregorian_date (year month date : Int) : Option String :=
  if year ≤ 0 then
    some ("Invalid Gregorian year: " ++ toString year ++ ". Year must be a positive integer.")
  else if month ≤ 0 then
    some ("Invalid Gregorian month: " ++ toString month ++ ". Month must be between 1 and 12.")
  else if date ≤ 0 then
    some ("Invalid Gregorian day: " ++ toString date ++ ". Day must be a positive integer.")
  else if month > 12 then
    some ("Invalid Gregorian month: " ++ toString month ++ ". Gregorian calendar has only 12 months (1-12).")
  else
    let days_in_month : List Int := [0, 31, 28, 31, 30, 31, 30, 31, 31, 30, 31, 30, 31]
    let month_names : List String :=
      ["", "January", "February", "March", "April", "May", "June",
       "July", "August", "September", "October", "November", "December"]
    let days_in_month := if is_gregorian_leap_year year then days_in_month.set 2 29 else days_in_month
    if year = 1582 ∧ month = 10 ∧ 5 ≤ date ∧ date ≤ 14 then
      some ("Invalid Gregorian date: October 5-14, 1582 do not exist. These dates were skipped during the adoption of the Gregorian calendar.")
    else
      let max_days := days_in_month.getD month.toNat 0
      if date > max_days then
        let leap_info :=
          if month = 2 then
            if is_gregorian_leap_year year then " (leap year)" else " (non-leap year)"
          else ""
        some ("Invalid Gregorian date: " ++ month_names.getD month.toNat ("") ++ " has only " ++ toString max_days ++ " days in " ++ toString year ++ leap_info ++ ", but day " ++ toString date ++ " was provided.")
      else none

/-- Day count of a Gregorian month as Python's `datetime` module computes it
(proleptic Gregorian calendar, February 29 in leap years). -/
def datetime_days_in_month (year month : Int) : Int :=
  let dim : List Int := [0, 31, 28, 31, 30, 31, 30, 31, 31, 30, 31, 30, 31]
  let dim := if is_gregorian_leap_year year then dim.set 2 29 else dim
  dim.getD month.toNat 0

/-- Models Python's `datetime.date(year, month, day)` constructor, which
`to_gregorian` calls on its result: it succeeds exactly when
`MINYEAR = 1 ≤ year ≤ MAXYEAR = 9999`, `1 ≤ month ≤ 12` and
`1 ≤ day ≤` the proleptic-Gregorian month length, and otherwise raises.
(The constructor is Python standard library behaviour, not repository code;
it contains no October-1582 gap.) -/
def datetime_date (year month day : Int) : Except String (Int × Int × Int) :=
  if 1 ≤ year ∧ year ≤ 9999 ∧ 1 ≤ month ∧ month ≤ 12 ∧
      1 ≤ day ∧ day ≤ datetime_days_in_month year month then
    .ok (year, month, day)
  else
    .error ("datetime.date: argument out of range")

/-- The month-slot scan shared by both conversion loops: walk the list,
subtracting each slot length from `u`, and stop at the first slot whose
length is at least the remainder.  `some (i, v)` models exiting the Python
loop through `break` at index `i` with remainder `v`; `none` models the loop
running off the end of the list. -/
def scanSlots : List Int → Nat → Int → Option (Nat × Int)
  | [], _, _ => none
  | l :: ls, i, u => if u ≤ l then some (i, u) else scanSlots ls (i + 1) (u - l)

/-- The rotated month-length table `gregorian_months` that `to_gregorian`
builds: the literal table, with slot 6 widened to 29 when the Gregorian year
following `year + 7` is a leap year, and slot 0 widened to 31 on the
pre-1575 historical branch. -/
def ethToGreg_months (year month date : Int) : List Int :=
  let gregorian_months : List Int := [0, 30, 31, 30, 31, 31, 28, 31, 30, 31, 30, 31, 31, 30]
  let gregorian_months :=
    if is_gregorian_leap_year (year + 7 + 1) then gregorian_months.set 6 29 else gregorian_months
  if (month - 1) * 30 + date ≤ 37 ∧ year ≤ 1575 then gregorian_months.set 0 31 else gregorian_months

/-- The day counter `until` of `to_gregorian` at the point where the month
scan starts: elapsed Ethiopian days, plus the historical or new-year-offset
correction, plus one more day in an Ethiopian leap year. -/
def ethToGreg_until (year month date : Int) : Int :=
  let u := (month - 1) * 30 + date
  let u := if u ≤ 37 ∧ year ≤ 1575 then u + 28 else u + start_day_of_ethiopian year - 1
  if (year - 1) % 4 = 3 then u + 1 else u

/-- The month scan of `to_gregorian`: resolved slot index `m` and day
remainder.  When the Python loop runs to completion without `break`, `m` is
the last index of the table and the day keeps the pre-loop value. -/
def ethToGreg_walk (year month date : Int) : Nat × Int :=
  match scanSlots (ethToGreg_months year month date) 0 (ethToGreg_until year month date) with
  | some r => r
  | none => ((ethToGreg_months year month date).length - 1, ethToGreg_until year month date)

/-- The rotation table `order` of `to_gregorian`, mapping a resolved slot
index to a Gregorian calendar month number. -/
def gregorian_order : List Int := [8, 9, 10, 11, 12, 1, 2, 3, 4, 5, 6, 7, 8, 9]

/-- Embeds `EthiopianDateConverter.to_gregorian`: validate, convert, and
build the result through `datetime.date`. -/
def to_gregorian (year month date : Int) : Except String (Int × Int × Int) :=
  match validate_ethiopian_date year month date with
  | some msg => .error msg
  | none =>
    let md := ethToGreg_walk year month date
    let gregorian_year := if md.1 > 4 then year + 7 + 1 else year + 7
    datetime_date gregorian_year (gregorian_order.getD md.1 0) md.2

/-- The rotation table `order` of `to_ethiopian`, mapping a resolved slot
index to an Ethiopian month number. -/
def ethiopian_order : List Int := [0, 4, 5, 6, 7, 8, 9, 10, 11, 12, 13, 1, 2, 3, 4]

/-- The Gregorian month-length table `gregorian_months` of `to_ethiopian`
(February widened in a leap year). -/
def gregToEth_gm (year : Int) : List Int :=
  let gregorian_months : List Int := [0, 31, 28, 31, 30, 31, 30, 31, 31, 30, 31, 30, 31]
  if is_gregorian_leap_year year then gregorian_months.set 2 29 else gregorian_months

/-- The day counter `until` of `to_ethiopian`: the sum of the Gregorian
month lengths before `month`, plus `date`. -/
def gregToEth_until (year month date : Int) : Int :=
  (((gregToEth_gm year).take month.toNat).drop 1).sum + date

/-- The pre-reform `tahissas` constant of `to_ethiopian`. -/
def gregToEth_tah0 (year : Int) : Int :=
  if (year - 8) % 4 = 0 then 26 else 25

/-- The final `tahissas` value of `to_ethiopian`.  The source updates
`tahissas` and the month table inside one three-way conditional; here the
same conditional appears once for each of the two values, with identical,
side-effect-free conditions. -/
def gregToEth_tahissas (year month date : Int) : Int :=
  if year < 1582 then gregToEth_tah0 year
  else if gregToEth_until year month date ≤ 277 ∧ year = 1582 then gregToEth_tah0 year
  else start_day_of_ethiopian (year - 8) - 3

/-- The final `ethiopian_months` table of `to_ethiopian`: Pagume (slot 10)
set from the Ethiopian leap rule, then slots 1 and 2 adjusted by the same
three-way conditional as `tahissas`. -/
def gregToEth_months (year month date : Int) : List Int :=
  let ethiopian_months : List Int := [0, 30, 30, 30, 30, 30, 30, 30, 30, 30, 5, 30, 30, 30, 30]
  let ethiopian_months :=
    if is_ethiopian_leap_year (year - 8) then ethiopian_months.set 10 6
    else ethiopian_months.set 10 5
  if year < 1582 then (ethiopian_months.set 1 0).set 2 (gregToEth_tah0 year)
  else if gregToEth_until year month date ≤ 277 ∧ year = 1582 then
    (ethiopian_months.set 1 0).set 2 (gregToEth_tah0 year)
  else ethiopian_months.set 1 (start_day_of_ethiopian (year - 8) - 3)

/-- The month scan of `to_ethiopian` over slots 1..14, with the special
day formula `until + (30 - tahissas)` when the walk stops at slot 1 or at
a zero-length slot; when the Python loop runs to completion, the slot is
the last index and the day keeps the pre-loop counter value. -/
def gregToEth_walk (year month date : Int) : Nat × Int :=
  match scanSlots ((gregToEth_months year month date).drop 1) 1 (gregToEth_until year month date) with
  | some (j, v) =>
    if j = 1 ∨ (gregToEth_months year month date).getD j 0 = 0 then
      (j, v + (30 - gregToEth_tahissas year month date))
    else (j, v)
  | none => ((gregToEth_months year month date).length - 1, gregToEth_until year month date)

/-- The conversion arithmetic of `EthiopianDateConverter.to_ethiopian`
after validation has passed. -/
def gregToEth_core (year month date : Int) : Int × Int × Int :=
  let md := gregToEth_walk year month date
  let ethiopian_year := if md.1 > 10 then year - 8 + 1 else year - 8
  (ethiopian_year, ethiopian_order.getD md.1 0, md.2)

/-- Embeds `EthiopianDateConverter.to_ethiopian`: validate then convert.
The source returns a plain tuple, with no `datetime` construction. -/
def to_ethiopian (year month date : Int) : Except String (Int × Int × Int) :=
  match validate_gregorian_date year month date with
  | some msg => .error msg
  | none => .ok (gregToEth_core year month date)

/-- The New Year offset exactly as the specification words it in §3:
`floor(Y/100) − floor(Y/400) − 4`, incremented by 1 when the Ethiopian year
is leap under the spec's rule `(Y − 1) mod 4 == 3`. -/
def spec_new_year_offset (year : Int) : Int :=
  year / 100 - year / 400 - 4 + (if (year - 1) % 4 = 3 then 1 else 0)

def gdim (y m : Int) : Int :=
  if m = 2 then (if is_gregorian_leap_year y then 29 else 28)
  else if m = 4 ∨ m = 6 ∨ m = 9 ∨ m = 11 then 30 else 31

/-- The three Gregorian dates reachable on the pre-1575 historical branch of
`to_gregorian`, as a function of the corrected day counter. -/
def fwdHist (y t : Int) : Int × Int × Int :=
  if t ≤ 31 then (y + 7, 8, t)
  else if t ≤ 61 then (y + 7, 9, t - 31)
  else (y + 7, 10, t - 61)

/-- The Gregorian date resolved by the month walk of `to_gregorian` on the
general branch, as a function of the day counter `t` and the length `F` of
the February slot. -/
def fwdSlots (y t F : Int) : Int × Int × Int :=
  if t ≤ 30 then (y + 7, 9, t)
  else if t ≤ 61 then (y + 7, 10, t - 30)
  else if t ≤ 91 then (y + 7, 11, t - 61)
  else if t ≤ 122 then (y + 7, 12, t - 91)
  else if t ≤ 153 then (y + 8, 1, t - 122)
  else if t ≤ 153 + F then (y + 8, 2, t - 153)
  else if t ≤ 184 + F then (y + 8, 3, t - 153 - F)
  else if t ≤ 214 + F then (y + 8, 4, t - 184 - F)
  else if t ≤ 245 + F then (y + 8, 5, t - 214 - F)
  else if t ≤ 275 + F then (y + 8, 6, t - 245 - F)
  else if t ≤ 306 + F then (y + 8, 7, t - 275 - F)
  else if t ≤ 337 + F then (y + 8, 8, t - 306 - F)
  else (y + 8, 9, t - 337 - F)

/-- Closed form of the Ethiopian-to-Gregorian conversion result, derived
from the source arithmetic. -/
def fwdF (y m d : Int) : Int × Int × Int :=
  if (m - 1) * 30 + d ≤ 37 ∧ y ≤ 1575 then
    fwdHist y ((m - 1) * 30 + d + 28 + (if (y - 1) % 4 = 3 then 1 else 0))
  else
    fwdSlots y ((m - 1) * 30 + d + (y / 100 - y / 400) - 5 +
        2 * (if (y - 1) % 4 = 3 then 1 else 0))
      (if is_gregorian_leap_year (y + 7 + 1) then 29 else 28)

/-- The Ethiopian date resolved by the month walk of `to_ethiopian` on the
post-reform branch, as a function of the provisional Ethiopian year `ey`,
the Tahsas boundary `tah`, the Pagume length `P` and the day counter `u`. -/
def bwdSlots (ey tah P u : Int) : Int × Int × Int :=
  if u ≤ tah then (ey, 4, u + (30 - tah))
  else if u ≤ tah + 30 then (ey, 5, u - (tah))
  else if u ≤ tah + 60 then (ey, 6, u - (tah + 30))
  else if u ≤ tah + 90 then (ey, 7, u - (tah + 60))
  else if u ≤ tah + 120 then (ey, 8, u - (tah + 90))
  else if u ≤ tah + 150 then (ey, 9, u - (tah + 120))
  else if u ≤ tah + 180 then (ey, 10, u - (tah + 150))
  else if u ≤ tah + 210 then (ey, 11, u - (tah + 180))
  else if u ≤ tah + 240 then (ey, 12, u - (tah + 210))
  else if u ≤ tah + 240 + P then (ey, 13, u - (tah + 240))
  else if u ≤ tah + 270 + P then (ey + 1, 1, u - (tah + 240 + P))
  else if u ≤ tah + 300 + P then (ey + 1, 2, u - (tah + 270 + P))
  else if u ≤ tah + 330 + P then (ey + 1, 3, u - (tah + 300 + P))
  else (ey + 1, 4, u - (tah + 330 + P))

/-- Closed form of the Gregorian-to-Ethiopian conversion result on the
post-reform branch, derived from the source arithmetic. -/
def bwdF (y m d : Int) : Int × Int × Int :=
  bwdSlots (y - 8) (gregToEth_tahissas y m d)
    (5 + (if (y - 8 - 1) % 4 = 3 then 1 else 0))
    (gregToEth_until y m d)

/-- Boolean success-and-validity check on a conversion outcome. -/
def ethOutcomeValid : Except String (Int × Int × Int) → Bool
  | .ok e => decide (validate_ethiopian_date e.1 e.2.1 e.2.2 = none)
  | .error _ => false

theorem validate_greg_none_iff (y m d : Int) :
    validate_gregorian_date y m d = none ↔
      1 ≤ y ∧ 1 ≤ m ∧ m ≤ 12 ∧ 1 ≤ d ∧
      ¬(y = 1582 ∧ m = 10 ∧ 5 ≤ d ∧ d ≤ 14) ∧ d ≤ gdim y m := by
  by_cases hy : y ≤ 0
  · simp only [validate_gregorian_date, if_pos hy]
    simp only [reduceCtorEq, false_iff]
    exact fun h => absurd h.1 (by omega)
  by_cases hm0 : m ≤ 0
  · simp only [validate_gregorian_date, if_neg hy, if_pos hm0]
    simp only [reduceCtorEq, false_iff]
    exact fun h => absurd h.2.1 (by omega)
  by_cases hd0 : d ≤ 0
  · simp only [validate_gregorian_date, if_neg hy, if_neg hm0, if_pos hd0]
    simp only [reduceCtorEq, false_iff]
    exact fun h => absurd h.2.2.2.1 (by omega)
  by_cases hm13 : m > 12
  · simp only [validate_gregorian_date, if_neg hy, if_neg hm0, if_neg hd0, if_pos hm13]
    simp only [reduceCtorEq, false_iff]
    exact fun h => absurd h.2.2.1 (by omega)
  · have h1 : 1 ≤ m := by omega
    have h2 : m ≤ 12 := by omega
    interval_cases m <;>
      (simp only [validate_gregorian_date, gdim]; norm_num; split_ifs <;> simp_all <;> omega)

theorem scanSlots_index_bound {l : List Int} {i : Nat} {u : Int} {j : Nat} {v : Int}
    (h : scanSlots l i u = some (j, v)) : i ≤ j ∧ j < i + l.length := by
  induction l generalizing i u with
  | nil => simp [scanSlots] at h
  | cons x xs ih =>
    simp only [scanSlots] at h
    split_ifs at h with hc
    · obtain ⟨h1, h2⟩ : i = j ∧ u = v := by simpa using h
      subst h1
      simp only [List.length_cons]
      omega
    · obtain ⟨ha, hb⟩ := ih h
      simp only [List.length_cons]
      omega

theorem validate_eth_none_iff (y m d : Int) :
    validate_ethiopian_date y m d = none ↔
      1 ≤ y ∧ 1 ≤ m ∧ m ≤ 13 ∧ 1 ≤ d ∧ (m ≤ 12 → d ≤ 30) ∧
      (m = 13 → d ≤ if (y - 1) % 4 = 3 then 6 else 5) := by
  simp only [validate_ethiopian_date, is_ethiopian_leap_year]
  split_ifs <;> simp_all <;> omega

/-- `Option.getD` view of the Python loop exit. -/
theorem ethToGreg_walk_eq (y m d : Int) :
    ethToGreg_walk y m d =
      (scanSlots (ethToGreg_months y m d) 0 (ethToGreg_until y m d)).getD
        ((ethToGreg_months y m d).length - 1, ethToGreg_until y m d) := by
  unfold ethToGreg_walk
  cases scanSlots (ethToGreg_months y m d) 0 (ethToGreg_until y m d) <;> rfl

theorem getD_ite {α : Type} (c : Prop) [Decidable c] (a b : Option α) (z : α) :
    (if c then a else b).getD z = if c then a.getD z else b.getD z := by
  split_ifs <;> rfl

theorem scanSlots_some_spec {l : List Int} {i j : Nat} {u v : Int}
    (h : scanSlots l i u = some (j, v)) :
    ∃ k, k < l.length ∧ j = i + k ∧ v = u - (l.take k).sum ∧ v ≤ l.getD k 0 ∧
      (∀ k', k' < k → l.getD k' 0 < u - (l.take k').sum) := by
  induction l generalizing i u with
  | nil => simp [scanSlots] at h
  | cons x xs ih =>
    rw [scanSlots] at h
    split_ifs at h with hc
    · obtain ⟨h1, h2⟩ : i = j ∧ u = v := by simpa using h
      refine ⟨0, by simp, by omega, by simp [h2], by simpa [h2.symm] using hc, ?_⟩
      intro k' hk'
      omega
    · obtain ⟨k, hk, hj, hv, hle, hmin⟩ := ih h
      refine ⟨k + 1, by simpa using hk, by omega, ?_, by simpa using hle, ?_⟩
      · simp only [List.take_succ_cons, List.sum_cons]
        omega
      · intro k' hk'
        cases k' with
        | zero => simpa using hc
        | succ k'' =>
          have h2 := hmin k'' (by omega)
          have e1 : (x :: xs).getD (k'' + 1) 0 = xs.getD k'' 0 := rfl
          have e2 : ((x :: xs).take (k'' + 1)).sum = x + (xs.take k'').sum := by
            simp
          omega

theorem scanSlots_none_sum {l : List Int} {i : Nat} {u : Int}
    (h : scanSlots l i u = none) (hne : l ≠ []) : l.sum < u := by
  induction l generalizing i u with
  | nil => exact absurd rfl hne
  | cons x xs ih =>
    by_cases hc : u ≤ x
    · rw [scanSlots, if_pos hc] at h
      exact absurd h (by simp)
    · rw [scanSlots, if_neg hc] at h
      cases xs with
      | nil =>
        have hs : (x :: ([] : List Int)).sum = x := by simp
        omega
      | cons z zs =>
        have := ih h (by simp)
        simp only [List.sum_cons] at *
        omega

theorem greg_leap_iff (x : Int) :
    is_gregorian_leap_year x = true ↔ (x % 4 = 0 ∧ x % 100 ≠ 0) ∨ x % 400 = 0 := by
  simp [is_gregorian_leap_year, Bool.or_eq_true, Bool.and_eq_true, decide_eq_true_eq]

theorem datetime_date_ok (year month day : Int)
    (h : 1 ≤ year ∧ year ≤ 9999 ∧ 1 ≤ month ∧ month ≤ 12 ∧ 1 ≤ day ∧
      day ≤ datetime_days_in_month year month) :
    datetime_date year month day = .ok (year, month, day) := by
  unfold datetime_date
  rw [if_pos h]

theorem ddim_eq_gdim (yr mo : Int) (h1 : 1 ≤ mo) (h12 : mo ≤ 12) :
    datetime_days_in_month yr mo = gdim yr mo := by
  interval_cases mo <;>
    · unfold datetime_days_in_month gdim
      split_ifs <;> first | omega | decide

theorem fwdSlots_k0 (y t F : Int) (hhi : t ≤ 30) :
    fwdSlots y t F = (y + 7, 9, t) := by
  unfold fwdSlots
  rw [if_pos hhi]

theorem fwdSlots_k1 (y t F : Int) (hlo : ¬(t ≤ 30)) (hhi : t ≤ 61) :
    fwdSlots y t F = (y + 7, 10, t - 30) := by
  unfold fwdSlots
  rw [if_neg (by intro hcon; omega), if_pos hhi]

theorem fwdSlots_k2 (y t F : Int) (hlo : ¬(t ≤ 61)) (hhi : t ≤ 91) :
    fwdSlots y t F = (y + 7, 11, t - 61) := by
  unfold fwdSlots
  rw [if_neg (by intro hcon; omega), if_neg (by intro hcon; omega), if_pos hhi]

theorem fwdSlots_k3 (y t F : Int) (hlo : ¬(t ≤ 91)) (hhi : t ≤ 122) :
    fwdSlots y t F = (y + 7, 12, t - 91) := by
  unfold fwdSlots
  rw [if_neg (by intro hcon; omega), if_neg (by intro hcon; omega), if_neg (by intro hcon; omega), if_pos hhi]

theorem fwdSlots_k4 (y t F : Int) (hlo : ¬(t ≤ 122)) (hhi : t ≤ 153) :
    fwdSlots y t F = (y + 8, 1, t - 122) := by
  unfold fwdSlots
  rw [if_neg (by intro hcon; omega), if_neg (by intro hcon; omega), if_neg (by intro hcon; omega), if_neg (by intro hcon; omega), if_pos hhi]

theorem fwdSlots_k5 (y t F : Int) (hlo : ¬(t ≤ 153)) (hhi : t ≤ 153 + F) :
    fwdSlots y t F = (y + 8, 2, t - 153) := by
  unfold fwdSlots
  rw [if_neg (by intro hcon; omega), if_neg (by intro hcon; omega), if_neg (by intro hcon; omega), if_neg (by intro hcon; omega), if_neg (by intro hcon; omega), if_pos hhi]

theorem fwdSlots_k6 (y t F : Int) (hF0 : 28 ≤ F) (hlo : ¬(t ≤ 153 + F)) (hhi : t ≤ 184 + F) :
    fwdSlots y t F = (y + 8, 3, t - 153 - F) := by
  unfold fwdSlots
  rw [if_neg (by intro hcon; omega), if_neg (by intro hcon; omega), if_neg (by intro hcon; omega), if_neg (by intro hcon; omega), if_neg (by intro hcon; omega), if_neg (by intro hcon; omega), if_pos hhi]

theorem fwdSlots_k7 (y t F : Int) (hF0 : 28 ≤ F) (hlo : ¬(t ≤ 184 + F)) (hhi : t ≤ 214 + F) :
    fwdSlots y t F = (y + 8, 4, t - 184 - F) := by
  unfold fwdSlots
  rw [if_neg (by intro hcon; omega), if_neg (by intro hcon; omega), if_neg (by intro hcon; omega), if_neg (by intro hcon; omega), if_neg (by intro hcon; omega), if_neg (by intro hcon; omega), if_neg (by intro hcon; omega), if_pos hhi]

theorem fwdSlots_k8 (y t F : Int) (hF0 : 28 ≤ F) (hlo : ¬(t ≤ 214 + F)) (hhi : t ≤ 245 + F) :
    fwdSlots y t F = (y + 8, 5, t - 214 - F) := by
  unfold fwdSlots
  rw [if_neg (by intro hcon; omega), if_neg (by intro hcon; omega), if_neg (by intro hcon; omega), if_neg (by intro hcon; omega), if_neg (by intro hcon; omega), if_neg (by intro hcon; omega), if_neg (by intro hcon; omega), if_neg (by intro hcon; omega), if_pos hhi]

theorem fwdSlots_k9 (y t F : Int) (hF0 : 28 ≤ F) (hlo : ¬(t ≤ 245 + F)) (hhi : t ≤ 275 + F) :
    fwdSlots y t F = (y + 8, 6, t - 245 - F) := by
  unfold fwdSlots
  rw [if_neg (by intro hcon; omega), if_neg (by intro hcon; omega), if_neg (by intro hcon; omega), if_neg (by intro hcon; omega), if_neg (by intro hcon; omega), if_neg (by intro hcon; omega), if_neg (by intro hcon; omega), if_neg (by intro hcon; omega), if_neg (by intro hcon; omega), if_pos hhi]

theorem fwdSlots_k10 (y t F : Int) (hF0 : 28 ≤ F) (hlo : ¬(t ≤ 275 + F)) (hhi : t ≤ 306 + F) :
    fwdSlots y t F = (y + 8, 7, t - 275 - F) := by
  unfold fwdSlots
  rw [if_neg (by intro hcon; omega), if_neg (by intro hcon; omega), if_neg (by intro hcon; omega), if_neg (by intro hcon; omega), if_neg (by intro hcon; omega), if_neg (by intro hcon; omega), if_neg (by intro hcon; omega), if_neg (by intro hcon; omega), if_neg (by intro hcon; omega), if_neg (by intro hcon; omega), if_pos hhi]

theorem fwdSlots_k11 (y t F : Int) (hF0 : 28 ≤ F) (hlo : ¬(t ≤ 306 + F)) (hhi : t ≤ 337 + F) :
    fwdSlots y t F = (y + 8, 8, t - 306 - F) := by
  unfold fwdSlots
  rw [if_neg (by intro hcon; omega), if_neg (by intro hcon; omega), if_neg (by intro hcon; omega), if_neg (by intro hcon; omega), if_neg (by intro hcon; omega), if_neg (by intro hcon; omega), if_neg (by intro hcon; omega), if_neg (by intro hcon; omega), if_neg (by intro hcon; omega), if_neg (by intro hcon; omega), if_neg (by intro hcon; omega), if_pos hhi]

theorem fwdSlots_k12 (y t F : Int) (hF0 : 28 ≤ F) (hlo : ¬(t ≤ 337 + F)) :
    fwdSlots y t F = (y + 8, 9, t - 337 - F) := by
  unfold fwdSlots
  rw [if_neg (by intro hcon; omega), if_neg (by intro hcon; omega), if_neg (by intro hcon; omega), if_neg (by intro hcon; omega), if_neg (by intro hcon; omega), if_neg (by intro hcon; omega), if_neg (by intro hcon; omega), if_neg (by intro hcon; omega), if_neg (by intro hcon; omega), if_neg (by intro hcon; omega), if_neg (by intro hcon; omega), if_neg hlo]

theorem fwdHist_k0 (y t : Int) (hhi : t ≤ 31) : fwdHist y t = (y + 7, 8, t) := by
  unfold fwdHist
  rw [if_pos hhi]

theorem fwdHist_k1 (y t : Int) (hlo : ¬(t ≤ 31)) (hhi : t ≤ 61) :
    fwdHist y t = (y + 7, 9, t - 31) := by
  unfold fwdHist
  rw [if_neg hlo, if_pos hhi]

theorem fwdHist_k2 (y t : Int) (hlo : ¬(t ≤ 61)) : fwdHist y t = (y + 7, 10, t - 61) := by
  unfold fwdHist
  rw [if_neg (by intro hcon; omega), if_neg hlo]

set_option maxHeartbeats 4000000 in
theorem fwd_char (y m d : Int) (hy2 : y ≤ 4491)
    (hv : validate_ethiopian_date y m d = none) :
    to_gregorian y m d = .ok (fwdF y m d) := by
  obtain ⟨h1, hm1b, hm13, hd1, hd30, hd13⟩ := (validate_eth_none_iff y m d).mp hv
  have hd13a : m = 13 → (y - 1) % 4 = 3 → d ≤ 6 := fun h hh => by simpa [hh] using hd13 h
  have hd13b : m = 13 → ¬((y - 1) % 4 = 3) → d ≤ 5 := fun h hh => by
    simpa [if_neg hh] using hd13 h
  simp only [to_gregorian, hv]
  rw [ethToGreg_walk_eq]
  by_cases hH : (m - 1) * 30 + d ≤ 37 ∧ y ≤ 1575
  · by_cases hFc : is_gregorian_leap_year (y + 7 + 1) = true
    ·
      have hTab : ethToGreg_months y m d = [31, 30, 31, 30, 31, 31, 29, 31, 30, 31, 30, 31, 31, 30] := by
        simp [ethToGreg_months, hH, hFc]
      rw [hTab]
      set u := ethToGreg_until y m d with hu0
      have hul : ((y - 1) % 4 = 3 ∧ u = (m - 1) * 30 + d + 29) ∨
          (¬((y - 1) % 4 = 3) ∧ u = (m - 1) * 30 + d + 28) := by
        by_cases hL : (y - 1) % 4 = 3
        · refine Or.inl ⟨hL, ?_⟩
          rw [hu0]
          simp only [ethToGreg_until, start_day_of_ethiopian, hH, hL, if_true, ite_true,
            if_false, ite_false, eq_self_iff_true, and_self, and_true, true_and]
          try omega
        · refine Or.inr ⟨hL, ?_⟩
          rw [hu0]
          simp only [ethToGreg_until, start_day_of_ethiopian, hH, hL, if_true, ite_true,
            if_false, ite_false, eq_self_iff_true, and_self, and_true, true_and]
          try omega
      have hub : 1 ≤ u ∧ u ≤ 66 := by omega
      clear_value u
      have hRHS : fwdF y m d = fwdHist y u := by
        unfold fwdF
        rw [if_pos hH]
        have harg : (m - 1) * 30 + d + 28 +
            (if (y - 1) % 4 = 3 then (1 : Int) else 0) = u := by
          split_ifs with h
          · rcases hul with ⟨_, he⟩ | ⟨hn, _⟩
            · omega
            · exact absurd h hn
          · rcases hul with ⟨hn, _⟩ | ⟨_, he⟩
            · exact absurd hn h
            · omega
        rw [harg]
      rw [hRHS]
      cases hscan : scanSlots [31, 30, 31, 30, 31, 31, 29, 31, 30, 31, 30, 31, 31, 30] 0 u with
      | none =>
        exfalso
        have hs := scanSlots_none_sum hscan (by simp)
        norm_num at hs
        omega
      | some jv =>
        obtain ⟨j, v⟩ := jv
        obtain ⟨k, hk, hj, hv', hle, hmin⟩ := scanSlots_some_spec hscan
        norm_num at hk
        simp only [Option.getD_some]
        have hq0 := hmin 0
        have hq1 := hmin 1
        have hq2 := hmin 2
        clear hmin hscan hv hu0 hTab hd13
        interval_cases k
        · norm_num at hle hv' hj
          subst hj
          norm_num [gregorian_order]
          rw [datetime_date_ok (y + 7) 8 v ⟨by omega, by omega, by omega, by omega, by omega,
            by rw [ddim_eq_gdim _ _ (by norm_num) (by norm_num)]; norm_num [gdim, hFc]; omega⟩]
          rw [fwdHist_k0 _ _ (by omega)]
          simp only [Except.ok.injEq, Prod.mk.injEq, true_and, and_true]
          try omega
        · norm_num at hle hv' hj hq0
          subst hj
          norm_num [gregorian_order]
          rw [datetime_date_ok (y + 7) 9 v ⟨by omega, by omega, by omega, by omega, by omega,
            by rw [ddim_eq_gdim _ _ (by norm_num) (by norm_num)]; norm_num [gdim, hFc]; omega⟩]
          rw [fwdHist_k1 _ _ (by omega) (by omega)]
          simp only [Except.ok.injEq, Prod.mk.injEq, true_and, and_true]
          try omega
        · norm_num at hle hv' hj hq1
          subst hj
          norm_num [gregorian_order]
          rw [datetime_date_ok (y + 7) 10 v ⟨by omega, by omega, by omega, by omega, by omega,
            by rw [ddim_eq_gdim _ _ (by norm_num) (by norm_num)]; norm_num [gdim, hFc]; omega⟩]
          rw [fwdHist_k2 _ _ (by omega)]
          simp only [Except.ok.injEq, Prod.mk.injEq, true_and, and_true]
          try omega
        · exfalso
          norm_num at hq2
          omega
        · exfalso
          norm_num at hq2
          omega
        · exfalso
          norm_num at hq2
          omega
        · exfalso
          norm_num at hq2
          omega
        · exfalso
          norm_num at hq2
          omega
        · exfalso
          norm_num at hq2
          omega
        · exfalso
          norm_num at hq2
          omega
        · exfalso
          norm_num at hq2
          omega
        · exfalso
          norm_num at hq2
          omega
        · exfalso
          norm_num at hq2
          omega
        · exfalso
          norm_num at hq2
          omega
    · have hFf : is_gregorian_leap_year (y + 7 + 1) = false := by
        simpa using hFc
      have hTab : ethToGreg_months y m d = [31, 30, 31, 30, 31, 31, 28, 31, 30, 31, 30, 31, 31, 30] := by
        simp [ethToGreg_months, hH, hFf]
      rw [hTab]
      set u := ethToGreg_until y m d with hu0
      have hul : ((y - 1) % 4 = 3 ∧ u = (m - 1) * 30 + d + 29) ∨
          (¬((y - 1) % 4 = 3) ∧ u = (m - 1) * 30 + d + 28) := by
        by_cases hL : (y - 1) % 4 = 3
        · refine Or.inl ⟨hL, ?_⟩
          rw [hu0]
          simp only [ethToGreg_until, start_day_of_ethiopian, hH, hL, if_true, ite_true,
            if_false, ite_false, eq_self_iff_true, and_self, and_true, true_and]
          try omega
        · refine Or.inr ⟨hL, ?_⟩
          rw [hu0]
          simp only [ethToGreg_until, start_day_of_ethiopian, hH, hL, if_true, ite_true,
            if_false, ite_false, eq_self_iff_true, and_self, and_true, true_and]
          try omega
      have hub : 1 ≤ u ∧ u ≤ 66 := by omega
      clear_value u
      have hRHS : fwdF y m d = fwdHist y u := by
        unfold fwdF
        rw [if_pos hH]
        have harg : (m - 1) * 30 + d + 28 +
            (if (y - 1) % 4 = 3 then (1 : Int) else 0) = u := by
          split_ifs with h
          · rcases hul with ⟨_, he⟩ | ⟨hn, _⟩
            · omega
            · exact absurd h hn
          · rcases hul with ⟨hn, _⟩ | ⟨_, he⟩
            · exact absurd hn h
            · omega
        rw [harg]
      rw [hRHS]
      cases hscan : scanSlots [31, 30, 31, 30, 31, 31, 28, 31, 30, 31, 30, 31, 31, 30] 0 u with
      | none =>
        exfalso
        have hs := scanSlots_none_sum hscan (by simp)
        norm_num at hs
        omega
      | some jv =>
        obtain ⟨j, v⟩ := jv
        obtain ⟨k, hk, hj, hv', hle, hmin⟩ := scanSlots_some_spec hscan
        norm_num at hk
        simp only [Option.getD_some]
        have hq0 := hmin 0
        have hq1 := hmin 1
        have hq2 := hmin 2
        clear hmin hscan hv hu0 hTab hd13
        interval_cases k
        · norm_num at hle hv' hj
          subst hj
          norm_num [gregorian_order]
          rw [datetime_date_ok (y + 7) 8 v ⟨by omega, by omega, by omega, by omega, by omega,
            by rw [ddim_eq_gdim _ _ (by norm_num) (by norm_num)]; norm_num [gdim, hFf]; omega⟩]
          rw [fwdHist_k0 _ _ (by omega)]
          simp only [Except.ok.injEq, Prod.mk.injEq, true_and, and_true]
          try omega
        · norm_num at hle hv' hj hq0
          subst hj
          norm_num [gregorian_order]
          rw [datetime_date_ok (y + 7) 9 v ⟨by omega, by omega, by omega, by omega, by omega,
            by rw [ddim_eq_gdim _ _ (by norm_num) (by norm_num)]; norm_num [gdim, hFf]; omega⟩]
          rw [fwdHist_k1 _ _ (by omega) (by omega)]
          simp only [Except.ok.injEq, Prod.mk.injEq, true_and, and_true]
          try omega
        · norm_num at hle hv' hj hq1
          subst hj
          norm_num [gregorian_order]
          rw [datetime_date_ok (y + 7) 10 v ⟨by omega, by omega, by omega, by omega, by omega,
            by rw [ddim_eq_gdim _ _ (by norm_num) (by norm_num)]; norm_num [gdim, hFf]; omega⟩]
          rw [fwdHist_k2 _ _ (by omega)]
          simp only [Except.ok.injEq, Prod.mk.injEq, true_and, and_true]
          try omega
        · exfalso
          norm_num at hq2
          omega
        · exfalso
          norm_num at hq2
          omega
        · exfalso
          norm_num at hq2
          omega
        · exfalso
          norm_num at hq2
          omega
        · exfalso
          norm_num at hq2
          omega
        · exfalso
          norm_num at hq2
          omega
        · exfalso
          norm_num at hq2
          omega
        · exfalso
          norm_num at hq2
          omega
        · exfalso
          norm_num at hq2
          omega
        · exfalso
          norm_num at hq2
          omega
        · exfalso
          norm_num at hq2
          omega
  · by_cases hFc : is_gregorian_leap_year (y + 7 + 1) = true
    ·
      have hFa : ((y + 7 + 1) % 4 = 0 ∧ (y + 7 + 1) % 100 ≠ 0) ∨ (y + 7 + 1) % 400 = 0 := by
        rw [← greg_leap_iff]
        exact hFc
      have hTab : ethToGreg_months y m d = [0, 30, 31, 30, 31, 31, 29, 31, 30, 31, 30, 31, 31, 30] := by
        simp [ethToGreg_months, hH, hFc]
      rw [hTab]
      set u := ethToGreg_until y m d with hu0
      have hul : ((y - 1) % 4 = 3 ∧ u = (m - 1) * 30 + d + (y / 100 - y / 400) - 3) ∨
          (¬((y - 1) % 4 = 3) ∧ u = (m - 1) * 30 + d + (y / 100 - y / 400) - 5) := by
        by_cases hL : (y - 1) % 4 = 3
        · refine Or.inl ⟨hL, ?_⟩
          rw [hu0]
          simp only [ethToGreg_until, start_day_of_ethiopian, hH, hL, if_true, ite_true,
            if_false, ite_false, eq_self_iff_true, and_self, and_true, true_and]
          try omega
        · refine Or.inr ⟨hL, ?_⟩
          rw [hu0]
          simp only [ethToGreg_until, start_day_of_ethiopian, hH, hL, if_true, ite_true,
            if_false, ite_false, eq_self_iff_true, and_self, and_true, true_and]
          try omega
      have hub : 1 ≤ u ∧ u ≤ 396 := by omega
      clear_value u
      have hRHS : fwdF y m d = fwdSlots y u 29 := by
        unfold fwdF
        rw [if_neg hH, hFc]
        have harg : (m - 1) * 30 + d + (y / 100 - y / 400) - 5 +
            2 * (if (y - 1) % 4 = 3 then (1 : Int) else 0) = u := by
          split_ifs with h
          · rcases hul with ⟨_, he⟩ | ⟨hn, _⟩
            · omega
            · exact absurd h hn
          · rcases hul with ⟨hn, _⟩ | ⟨_, he⟩
            · exact absurd hn h
            · omega
        rw [harg]
        norm_num
      rw [hRHS]
      cases hscan : scanSlots [0, 30, 31, 30, 31, 31, 29, 31, 30, 31, 30, 31, 31, 30] 0 u with
      | none =>
        exfalso
        have hs := scanSlots_none_sum hscan (by simp)
        norm_num at hs
        omega
      | some jv =>
        obtain ⟨j, v⟩ := jv
        obtain ⟨k, hk, hj, hv', hle, hmin⟩ := scanSlots_some_spec hscan
        norm_num at hk
        simp only [Option.getD_some]
        have hq0 := hmin 0
        have hq1 := hmin 1
        have hq2 := hmin 2
        have hq3 := hmin 3
        have hq4 := hmin 4
        have hq5 := hmin 5
        have hq6 := hmin 6
        have hq7 := hmin 7
        have hq8 := hmin 8
        have hq9 := hmin 9
        have hq10 := hmin 10
        have hq11 := hmin 11
        have hq12 := hmin 12
        clear hmin hscan hv hu0 hTab hd13
        interval_cases k
        · exfalso
          norm_num at hle hv'
          omega
        · norm_num at hle hv' hj hq0
          subst hj
          norm_num [gregorian_order]
          rw [datetime_date_ok (y + 7) 9 v ⟨by omega, by omega, by omega, by omega, by omega,
            by rw [ddim_eq_gdim _ _ (by norm_num) (by norm_num)]; norm_num [gdim, hFc]; omega⟩]
          rw [fwdSlots_k0 _ _ _ (by omega)]
          simp only [Except.ok.injEq, Prod.mk.injEq, true_and, and_true]
          try omega
        · norm_num at hle hv' hj hq1
          subst hj
          norm_num [gregorian_order]
          rw [datetime_date_ok (y + 7) 10 v ⟨by omega, by omega, by omega, by omega, by omega,
            by rw [ddim_eq_gdim _ _ (by norm_num) (by norm_num)]; norm_num [gdim, hFc]; omega⟩]
          rw [fwdSlots_k1 _ _ _ (by omega) (by omega)]
          simp only [Except.ok.injEq, Prod.mk.injEq, true_and, and_true]
          try omega
        · norm_num at hle hv' hj hq2
          subst hj
          norm_num [gregorian_order]
          rw [datetime_date_ok (y + 7) 11 v ⟨by omega, by omega, by omega, by omega, by omega,
            by rw [ddim_eq_gdim _ _ (by norm_num) (by norm_num)]; norm_num [gdim, hFc]; omega⟩]
          rw [fwdSlots_k2 _ _ _ (by omega) (by omega)]
          simp only [Except.ok.injEq, Prod.mk.injEq, true_and, and_true]
          try omega
        · norm_num at hle hv' hj hq3
          subst hj
          norm_num [gregorian_order]
          rw [datetime_date_ok (y + 7) 12 v ⟨by omega, by omega, by omega, by omega, by omega,
            by rw [ddim_eq_gdim _ _ (by norm_num) (by norm_num)]; norm_num [gdim, hFc]; omega⟩]
          rw [fwdSlots_k3 _ _ _ (by omega) (by omega)]
          simp only [Except.ok.injEq, Prod.mk.injEq, true_and, and_true]
          try omega
        · norm_num at hle hv' hj hq4
          subst hj
          norm_num [gregorian_order]
          rw [datetime_date_ok (y + 7 + 1) 1 v ⟨by omega, by omega, by omega, by omega, by omega,
            by rw [ddim_eq_gdim _ _ (by norm_num) (by norm_num)]; norm_num [gdim, hFc]; omega⟩]
          rw [fwdSlots_k4 _ _ _ (by omega) (by omega)]
          simp only [Except.ok.injEq, Prod.mk.injEq, true_and, and_true]
          try omega
        · norm_num at hle hv' hj hq5
          subst hj
          norm_num [gregorian_order]
          rw [datetime_date_ok (y + 7 + 1) 2 v ⟨by omega, by omega, by omega, by omega, by omega,
            by rw [ddim_eq_gdim _ _ (by norm_num) (by norm_num)]; norm_num [gdim, hFc]; omega⟩]
          rw [fwdSlots_k5 _ _ _ (by omega) (by omega)]
          simp only [Except.ok.injEq, Prod.mk.injEq, true_and, and_true]
          try omega
        · norm_num at hle hv' hj hq6
          subst hj
          norm_num [gregorian_order]
          rw [datetime_date_ok (y + 7 + 1) 3 v ⟨by omega, by omega, by omega, by omega, by omega,
            by rw [ddim_eq_gdim _ _ (by norm_num) (by norm_num)]; norm_num [gdim, hFc]; omega⟩]
          rw [fwdSlots_k6 _ _ _ (by omega) (by omega) (by omega)]
          simp only [Except.ok.injEq, Prod.mk.injEq, true_and, and_true]
          try omega
        · norm_num at hle hv' hj hq7
          subst hj
          norm_num [gregorian_order]
          rw [datetime_date_ok (y + 7 + 1) 4 v ⟨by omega, by omega, by omega, by omega, by omega,
            by rw [ddim_eq_gdim _ _ (by norm_num) (by norm_num)]; norm_num [gdim, hFc]; omega⟩]
          rw [fwdSlots_k7 _ _ _ (by omega) (by omega) (by omega)]
          simp only [Except.ok.injEq, Prod.mk.injEq, true_and, and_true]
          try omega
        · norm_num at hle hv' hj hq8
          subst hj
          norm_num [gregorian_order]
          rw [datetime_date_ok (y + 7 + 1) 5 v ⟨by omega, by omega, by omega, by omega, by omega,
            by rw [ddim_eq_gdim _ _ (by norm_num) (by norm_num)]; norm_num [gdim, hFc]; omega⟩]
          rw [fwdSlots_k8 _ _ _ (by omega) (by omega) (by omega)]
          simp only [Except.ok.injEq, Prod.mk.injEq, true_and, and_true]
          try omega
        · norm_num at hle hv' hj hq9
          subst hj
          norm_num [gregorian_order]
          rw [datetime_date_ok (y + 7 + 1) 6 v ⟨by omega, by omega, by omega, by omega, by omega,
            by rw [ddim_eq_gdim _ _ (by norm_num) (by norm_num)]; norm_num [gdim, hFc]; omega⟩]
          rw [fwdSlots_k9 _ _ _ (by omega) (by omega) (by omega)]
          simp only [Except.ok.injEq, Prod.mk.injEq, true_and, and_true]
          try omega
        · norm_num at hle hv' hj hq10
          subst hj
          norm_num [gregorian_order]
          rw [datetime_date_ok (y + 7 + 1) 7 v ⟨by omega, by omega, by omega, by omega, by omega,
            by rw [ddim_eq_gdim _ _ (by norm_num) (by norm_num)]; norm_num [gdim, hFc]; omega⟩]
          rw [fwdSlots_k10 _ _ _ (by omega) (by omega) (by omega)]
          simp only [Except.ok.injEq, Prod.mk.injEq, true_and, and_true]
          try omega
        · norm_num at hle hv' hj hq11
          subst hj
          norm_num [gregorian_order]
          rw [datetime_date_ok (y + 7 + 1) 8 v ⟨by omega, by omega, by omega, by omega, by omega,
            by rw [ddim_eq_gdim _ _ (by norm_num) (by norm_num)]; norm_num [gdim, hFc]; omega⟩]
          rw [fwdSlots_k11 _ _ _ (by omega) (by omega) (by omega)]
          simp only [Except.ok.injEq, Prod.mk.injEq, true_and, and_true]
          try omega
        · norm_num at hle hv' hj hq12
          subst hj
          norm_num [gregorian_order]
          rw [datetime_date_ok (y + 7 + 1) 9 v ⟨by omega, by omega, by omega, by omega, by omega,
            by rw [ddim_eq_gdim _ _ (by norm_num) (by norm_num)]; norm_num [gdim, hFc]; omega⟩]
          rw [fwdSlots_k12 _ _ _ (by omega) (by omega)]
          simp only [Except.ok.injEq, Prod.mk.injEq, true_and, and_true]
          try omega
    · have hFf : is_gregorian_leap_year (y + 7 + 1) = false := by
        simpa using hFc
      have hFa : ¬(((y + 7 + 1) % 4 = 0 ∧ (y + 7 + 1) % 100 ≠ 0) ∨ (y + 7 + 1) % 400 = 0) := by
        rw [← greg_leap_iff]
        simp [hFf]
      have hTab : ethToGreg_months y m d = [0, 30, 31, 30, 31, 31, 28, 31, 30, 31, 30, 31, 31, 30] := by
        simp [ethToGreg_months, hH, hFf]
      rw [hTab]
      set u := ethToGreg_until y m d with hu0
      have hul : ((y - 1) % 4 = 3 ∧ u = (m - 1) * 30 + d + (y / 100 - y / 400) - 3) ∨
          (¬((y - 1) % 4 = 3) ∧ u = (m - 1) * 30 + d + (y / 100 - y / 400) - 5) := by
        by_cases hL : (y - 1) % 4 = 3
        · refine Or.inl ⟨hL, ?_⟩
          rw [hu0]
          simp only [ethToGreg_until, start_day_of_ethiopian, hH, hL, if_true, ite_true,
            if_false, ite_false, eq_self_iff_true, and_self, and_true, true_and]
          try omega
        · refine Or.inr ⟨hL, ?_⟩
          rw [hu0]
          simp only [ethToGreg_until, start_day_of_ethiopian, hH, hL, if_true, ite_true,
            if_false, ite_false, eq_self_iff_true, and_self, and_true, true_and]
          try omega
      have hub : 1 ≤ u ∧ u ≤ 395 := by omega
      clear_value u
      have hRHS : fwdF y m d = fwdSlots y u 28 := by
        unfold fwdF
        rw [if_neg hH, hFf]
        have harg : (m - 1) * 30 + d + (y / 100 - y / 400) - 5 +
            2 * (if (y - 1) % 4 = 3 then (1 : Int) else 0) = u := by
          split_ifs with h
          · rcases hul with ⟨_, he⟩ | ⟨hn, _⟩
            · omega
            · exact absurd h hn
          · rcases hul with ⟨hn, _⟩ | ⟨_, he⟩
            · exact absurd hn h
            · omega
        rw [harg]
        norm_num
      rw [hRHS]
      cases hscan : scanSlots [0, 30, 31, 30, 31, 31, 28, 31, 30, 31, 30, 31, 31, 30] 0 u with
      | none =>
        exfalso
        have hs := scanSlots_none_sum hscan (by simp)
        norm_num at hs
        omega
      | some jv =>
        obtain ⟨j, v⟩ := jv
        obtain ⟨k, hk, hj, hv', hle, hmin⟩ := scanSlots_some_spec hscan
        norm_num at hk
        simp only [Option.getD_some]
        have hq0 := hmin 0
        have hq1 := hmin 1
        have hq2 := hmin 2
        have hq3 := hmin 3
        have hq4 := hmin 4
        have hq5 := hmin 5
        have hq6 := hmin 6
        have hq7 := hmin 7
        have hq8 := hmin 8
        have hq9 := hmin 9
        have hq10 := hmin 10
        have hq11 := hmin 11
        have hq12 := hmin 12
        clear hmin hscan hv hu0 hTab hd13
        interval_cases k
        · exfalso
          norm_num at hle hv'
          omega
        · norm_num at hle hv' hj hq0
          subst hj
          norm_num [gregorian_order]
          rw [datetime_date_ok (y + 7) 9 v ⟨by omega, by omega, by omega, by omega, by omega,
            by rw [ddim_eq_gdim _ _ (by norm_num) (by norm_num)]; norm_num [gdim, hFf]; omega⟩]
          rw [fwdSlots_k0 _ _ _ (by omega)]
          simp only [Except.ok.injEq, Prod.mk.injEq, true_and, and_true]
          try omega
        · norm_num at hle hv' hj hq1
          subst hj
          norm_num [gregorian_order]
          rw [datetime_date_ok (y + 7) 10 v ⟨by omega, by omega, by omega, by omega, by omega,
            by rw [ddim_eq_gdim _ _ (by norm_num) (by norm_num)]; norm_num [gdim, hFf]; omega⟩]
          rw [fwdSlots_k1 _ _ _ (by omega) (by omega)]
          simp only [Except.ok.injEq, Prod.mk.injEq, true_and, and_true]
          try omega
        · norm_num at hle hv' hj hq2
          subst hj
          norm_num [gregorian_order]
          rw [datetime_date_ok (y + 7) 11 v ⟨by omega, by omega, by omega, by omega, by omega,
            by rw [ddim_eq_gdim _ _ (by norm_num) (by norm_num)]; norm_num [gdim, hFf]; omega⟩]
          rw [fwdSlots_k2 _ _ _ (by omega) (by omega)]
          simp only [Except.ok.injEq, Prod.mk.injEq, true_and, and_true]
          try omega
        · norm_num at hle hv' hj hq3
          subst hj
          norm_num [gregorian_order]
          rw [datetime_date_ok (y + 7) 12 v ⟨by omega, by omega, by omega, by omega, by omega,
            by rw [ddim_eq_gdim _ _ (by norm_num) (by norm_num)]; norm_num [gdim, hFf]; omega⟩]
          rw [fwdSlots_k3 _ _ _ (by omega) (by omega)]
          simp only [Except.ok.injEq, Prod.mk.injEq, true_and, and_true]
          try omega
        · norm_num at hle hv' hj hq4
          subst hj
          norm_num [gregorian_order]
          rw [datetime_date_ok (y + 7 + 1) 1 v ⟨by omega, by omega, by omega, by omega, by omega,
            by rw [ddim_eq_gdim _ _ (by norm_num) (by norm_num)]; norm_num [gdim, hFf]; omega⟩]
          rw [fwdSlots_k4 _ _ _ (by omega) (by omega)]
          simp only [Except.ok.injEq, Prod.mk.injEq, true_and, and_true]
          try omega
        · norm_num at hle hv' hj hq5
          subst hj
          norm_num [gregorian_order]
          rw [datetime_date_ok (y + 7 + 1) 2 v ⟨by omega, by omega, by omega, by omega, by omega,
            by rw [ddim_eq_gdim _ _ (by norm_num) (by norm_num)]; norm_num [gdim, hFf]; omega⟩]
          rw [fwdSlots_k5 _ _ _ (by omega) (by omega)]
          simp only [Except.ok.injEq, Prod.mk.injEq, true_and, and_true]
          try omega
        · norm_num at hle hv' hj hq6
          subst hj
          norm_num [gregorian_order]
          rw [datetime_date_ok (y + 7 + 1) 3 v ⟨by omega, by omega, by omega, by omega, by omega,
            by rw [ddim_eq_gdim _ _ (by norm_num) (by norm_num)]; norm_num [gdim, hFf]; omega⟩]
          rw [fwdSlots_k6 _ _ _ (by omega) (by omega) (by omega)]
          simp only [Except.ok.injEq, Prod.mk.injEq, true_and, and_true]
          try omega
        · norm_num at hle hv' hj hq7
          subst hj
          norm_num [gregorian_order]
          rw [datetime_date_ok (y + 7 + 1) 4 v ⟨by omega, by omega, by omega, by omega, by omega,
            by rw [ddim_eq_gdim _ _ (by norm_num) (by norm_num)]; norm_num [gdim, hFf]; omega⟩]
          rw [fwdSlots_k7 _ _ _ (by omega) (by omega) (by omega)]
          simp only [Except.ok.injEq, Prod.mk.injEq, true_and, and_true]
          try omega
        · norm_num at hle hv' hj hq8
          subst hj
          norm_num [gregorian_order]
          rw [datetime_date_ok (y + 7 + 1) 5 v ⟨by omega, by omega, by omega, by omega, by omega,
            by rw [ddim_eq_gdim _ _ (by norm_num) (by norm_num)]; norm_num [gdim, hFf]; omega⟩]
          rw [fwdSlots_k8 _ _ _ (by omega) (by omega) (by omega)]
          simp only [Except.ok.injEq, Prod.mk.injEq, true_and, and_true]
          try omega
        · norm_num at hle hv' hj hq9
          subst hj
          norm_num [gregorian_order]
          rw [datetime_date_ok (y + 7 + 1) 6 v ⟨by omega, by omega, by omega, by omega, by omega,
            by rw [ddim_eq_gdim _ _ (by norm_num) (by norm_num)]; norm_num [gdim, hFf]; omega⟩]
          rw [fwdSlots_k9 _ _ _ (by omega) (by omega) (by omega)]
          simp only [Except.ok.injEq, Prod.mk.injEq, true_and, and_true]
          try omega
        · norm_num at hle hv' hj hq10
          subst hj
          norm_num [gregorian_order]
          rw [datetime_date_ok (y + 7 + 1) 7 v ⟨by omega, by omega, by omega, by omega, by omega,
            by rw [ddim_eq_gdim _ _ (by norm_num) (by norm_num)]; norm_num [gdim, hFf]; omega⟩]
          rw [fwdSlots_k10 _ _ _ (by omega) (by omega) (by omega)]
          simp only [Except.ok.injEq, Prod.mk.injEq, true_and, and_true]
          try omega
        · norm_num at hle hv' hj hq11
          subst hj
          norm_num [gregorian_order]
          rw [datetime_date_ok (y + 7 + 1) 8 v ⟨by omega, by omega, by omega, by omega, by omega,
            by rw [ddim_eq_gdim _ _ (by norm_num) (by norm_num)]; norm_num [gdim, hFf]; omega⟩]
          rw [fwdSlots_k11 _ _ _ (by omega) (by omega) (by omega)]
          simp only [Except.ok.injEq, Prod.mk.injEq, true_and, and_true]
          try omega
        · norm_num at hle hv' hj hq12
          subst hj
          norm_num [gregorian_order]
          rw [datetime_date_ok (y + 7 + 1) 9 v ⟨by omega, by omega, by omega, by omega, by omega,
            by rw [ddim_eq_gdim _ _ (by norm_num) (by norm_num)]; norm_num [gdim, hFf]; omega⟩]
          rw [fwdSlots_k12 _ _ _ (by omega) (by omega)]
          simp only [Except.ok.injEq, Prod.mk.injEq, true_and, and_true]
          try omega

theorem eth_leap_iff (x : Int) :
    is_ethiopian_leap_year x = true ↔ (x - 1) % 4 = 3 := by
  simp [is_ethiopian_leap_year]

theorem bwdSlots_k1 (ey tah P u : Int) (hhi : u ≤ tah) :
    bwdSlots ey tah P u = (ey, 4, u + (30 - tah)) := by
  unfold bwdSlots
  rw [if_pos hhi]

theorem bwdSlots_k2 (ey tah P u : Int) (hlo : ¬(u ≤ tah)) (hhi : u ≤ tah + 30) :
    bwdSlots ey tah P u = (ey, 5, u - (tah)) := by
  unfold bwdSlots
  rw [if_neg (by intro hcon; omega), if_pos hhi]

theorem bwdSlots_k3 (ey tah P u : Int) (hlo : ¬(u ≤ tah + 30)) (hhi : u ≤ tah + 60) :
    bwdSlots ey tah P u = (ey, 6, u - (tah + 30)) := by
  unfold bwdSlots
  rw [if_neg (by intro hcon; omega), if_neg (by intro hcon; omega), if_pos hhi]

theorem bwdSlots_k4 (ey tah P u : Int) (hlo : ¬(u ≤ tah + 60)) (hhi : u ≤ tah + 90) :
    bwdSlots ey tah P u = (ey, 7, u - (tah + 60)) := by
  unfold bwdSlots
  rw [if_neg (by intro hcon; omega), if_neg (by intro hcon; omega), if_neg (by intro hcon; omega), if_pos hhi]

theorem bwdSlots_k5 (ey tah P u : Int) (hlo : ¬(u ≤ tah + 90)) (hhi : u ≤ tah + 120) :
    bwdSlots ey tah P u = (ey, 8, u - (tah + 90)) := by
  unfold bwdSlots
  rw [if_neg (by intro hcon; omega), if_neg (by intro hcon; omega), if_neg (by intro hcon; omega), if_neg (by intro hcon; omega),
    if_pos hhi]

theorem bwdSlots_k6 (ey tah P u : Int) (hlo : ¬(u ≤ tah + 120)) (hhi : u ≤ tah + 150) :
    bwdSlots ey tah P u = (ey, 9, u - (tah + 120)) := by
  unfold bwdSlots
  rw [if_neg (by intro hcon; omega), if_neg (by intro hcon; omega), if_neg (by intro hcon; omega), if_neg (by intro hcon; omega),
    if_neg (by intro hcon; omega), if_pos hhi]

theorem bwdSlots_k7 (ey tah P u : Int) (hlo : ¬(u ≤ tah + 150)) (hhi : u ≤ tah + 180) :
    bwdSlots ey tah P u = (ey, 10, u - (tah + 150)) := by
  unfold bwdSlots
  rw [if_neg (by intro hcon; omega), if_neg (by intro hcon; omega), if_neg (by intro hcon; omega), if_neg (by intro hcon; omega),
    if_neg (by intro hcon; omega), if_neg (by intro hcon; omega), if_pos hhi]

theorem bwdSlots_k8 (ey tah P u : Int) (hlo : ¬(u ≤ tah + 180)) (hhi : u ≤ tah + 210) :
    bwdSlots ey tah P u = (ey, 11, u - (tah + 180)) := by
  unfold bwdSlots
  rw [if_neg (by intro hcon; omega), if_neg (by intro hcon; omega), if_neg (by intro hcon; omega), if_neg (by intro hcon; omega),
    if_neg (by intro hcon; omega), if_neg (by intro hcon; omega), if_neg (by intro hcon; omega), if_pos hhi]

theorem bwdSlots_k9 (ey tah P u : Int) (hlo : ¬(u ≤ tah + 210)) (hhi : u ≤ tah + 240) :
    bwdSlots ey tah P u = (ey, 12, u - (tah + 210)) := by
  unfold bwdSlots
  rw [if_neg (by intro hcon; omega), if_neg (by intro hcon; omega), if_neg (by intro hcon; omega), if_neg (by intro hcon; omega),
    if_neg (by intro hcon; omega), if_neg (by intro hcon; omega), if_neg (by intro hcon; omega), if_neg (by intro hcon; omega),
    if_pos hhi]

theorem bwdSlots_k10 (ey tah P u : Int) (hlo : ¬(u ≤ tah + 240)) (hhi : u ≤ tah + 240 + P) :
    bwdSlots ey tah P u = (ey, 13, u - (tah + 240)) := by
  unfold bwdSlots
  rw [if_neg (by intro hcon; omega), if_neg (by intro hcon; omega), if_neg (by intro hcon; omega), if_neg (by intro hcon; omega),
    if_neg (by intro hcon; omega), if_neg (by intro hcon; omega), if_neg (by intro hcon; omega), if_neg (by intro hcon; omega),
    if_neg (by intro hcon; omega), if_pos hhi]

theorem bwdSlots_k11 (ey tah P u : Int) (hP : 0 ≤ P) (hlo : ¬(u ≤ tah + 240 + P)) (hhi : u ≤ tah + 270 + P) :
    bwdSlots ey tah P u = (ey + 1, 1, u - (tah + 240 + P)) := by
  unfold bwdSlots
  rw [if_neg (by intro hcon; omega), if_neg (by intro hcon; omega), if_neg (by intro hcon; omega), if_neg (by intro hcon; omega),
    if_neg (by intro hcon; omega), if_neg (by intro hcon; omega), if_neg (by intro hcon; omega), if_neg (by intro hcon; omega),
    if_neg (by intro hcon; omega), if_neg (by intro hcon; omega), if_pos hhi]

theorem bwdSlots_k12 (ey tah P u : Int) (hP : 0 ≤ P) (hlo : ¬(u ≤ tah + 270 + P)) (hhi : u ≤ tah + 300 + P) :
    bwdSlots ey tah P u = (ey + 1, 2, u - (tah + 270 + P)) := by
  unfold bwdSlots
  rw [if_neg (by intro hcon; omega), if_neg (by intro hcon; omega), if_neg (by intro hcon; omega), if_neg (by intro hcon; omega),
    if_neg (by intro hcon; omega), if_neg (by intro hcon; omega), if_neg (by intro hcon; omega), if_neg (by intro hcon; omega),
    if_neg (by intro hcon; omega), if_neg (by intro hcon; omega), if_neg (by intro hcon; omega), if_pos hhi]

theorem bwdSlots_k13 (ey tah P u : Int) (hP : 0 ≤ P) (hlo : ¬(u ≤ tah + 300 + P)) (hhi : u ≤ tah + 330 + P) :
    bwdSlots ey tah P u = (ey + 1, 3, u - (tah + 300 + P)) := by
  unfold bwdSlots
  rw [if_neg (by intro hcon; omega), if_neg (by intro hcon; omega), if_neg (by intro hcon; omega), if_neg (by intro hcon; omega),
    if_neg (by intro hcon; omega), if_neg (by intro hcon; omega), if_neg (by intro hcon; omega), if_neg (by intro hcon; omega),
    if_neg (by intro hcon; omega), if_neg (by intro hcon; omega), if_neg (by intro hcon; omega), if_neg (by intro hcon; omega),
    if_pos hhi]

theorem bwdSlots_k14 (ey tah P u : Int) (hP : 0 ≤ P) (hlo : ¬(u ≤ tah + 330 + P)) :
    bwdSlots ey tah P u = (ey + 1, 4, u - (tah + 330 + P)) := by
  unfold bwdSlots
  rw [if_neg (by intro hcon; omega), if_neg (by intro hcon; omega), if_neg (by intro hcon; omega), if_neg (by intro hcon; omega),
    if_neg (by intro hcon; omega), if_neg (by intro hcon; omega), if_neg (by intro hcon; omega), if_neg (by intro hcon; omega),
    if_neg (by intro hcon; omega), if_neg (by intro hcon; omega), if_neg (by intro hcon; omega), if_neg (by intro hcon; omega),
    if_neg hlo]

theorem until_bounds (y m d : Int) (hm1 : 1 ≤ m) (hm12 : m ≤ 12) (hd1 : 1 ≤ d)
    (hdim : d ≤ gdim y m) :
    1 ≤ gregToEth_until y m d ∧
      gregToEth_until y m d ≤ 365 + (if is_gregorian_leap_year y then 1 else 0) := by
  by_cases hG : is_gregorian_leap_year y = true
  · have ht : gregToEth_gm y = [0, 31, 29, 31, 30, 31, 30, 31, 31, 30, 31, 30, 31] := by
      simp [gregToEth_gm, hG]
    unfold gregToEth_until
    rw [ht, hG]
    norm_num
    norm_num [gdim, hG] at hdim
    interval_cases m <;>
      · simp
        try omega
  · have hGf : is_gregorian_leap_year y = false := by simpa using hG
    have ht : gregToEth_gm y = [0, 31, 28, 31, 30, 31, 30, 31, 31, 30, 31, 30, 31] := by
      simp [gregToEth_gm, hGf]
    unfold gregToEth_until
    rw [ht, hGf]
    norm_num
    norm_num [gdim, hGf] at hdim
    interval_cases m <;>
      · simp
        try omega

set_option maxHeartbeats 4000000 in
theorem bwd_char (y m d : Int) (hy1 : 1583 ≤ y) (hy2 : y ≤ 4907)
    (hv : validate_gregorian_date y m d = none) :
    to_ethiopian y m d = .ok (bwdF y m d) := by
  obtain ⟨hy1b, hm1, hm12, hd1, hgap, hdim⟩ := (validate_greg_none_iff y m d).mp hv
  have hub0 := until_bounds y m d hm1 hm12 hd1 hdim
  have hub : 1 ≤ gregToEth_until y m d ∧ gregToEth_until y m d ≤ 366 := by
    rcases hub0 with ⟨a, b⟩
    refine ⟨a, ?_⟩
    split_ifs at b <;> omega
  simp only [to_ethiopian, hv]
  set u := gregToEth_until y m d with hu0
  by_cases hE : is_ethiopian_leap_year (y - 8) = true
  ·
    have hEa : (y - 8 - 1) % 4 = 3 := by
      exact (eth_leap_iff _).mp hE
    have hTah : gregToEth_tahissas y m d = start_day_of_ethiopian (y - 8) - 3 := by
      unfold gregToEth_tahissas
      rw [if_neg (by intro hcon; omega), if_neg (by intro hcon; omega)]
    have hTabE : gregToEth_months y m d =
        [0, start_day_of_ethiopian (y - 8) - 3, 30, 30, 30, 30, 30, 30, 30, 30, 6, 30, 30, 30, 30] := by
      simp only [gregToEth_months]
      rw [if_pos hE, if_neg (by intro hcon; omega), if_neg (by intro hcon; omega)]
      rfl
    set t := start_day_of_ethiopian (y - 8) - 3 with ht0
    have htl : t = (y - 8) / 100 - (y - 8) / 400 - 7 + 1 := by
      rw [ht0]
      unfold start_day_of_ethiopian
      rw [if_pos hEa]
      omega
    clear_value t
    have htb : 4 ≤ t ∧ t ≤ 31 := by omega
    simp only [Except.ok.injEq]
    simp only [gregToEth_core, gregToEth_walk]
    simp only [hTabE, hTah, ← hu0]
    rw [show ([0, t, 30, 30, 30, 30, 30, 30, 30, 30, 6, 30, 30, 30, 30] : List Int).drop 1 = [t, 30, 30, 30, 30, 30, 30, 30, 30, 6, 30, 30, 30, 30] from rfl]
    cases hscan : scanSlots [t, 30, 30, 30, 30, 30, 30, 30, 30, 6, 30, 30, 30, 30] 1 u with
    | none =>
      exfalso
      have hs := scanSlots_none_sum hscan (by simp)
      norm_num at hs
      omega
    | some jv =>
      obtain ⟨j, v⟩ := jv
      obtain ⟨k, hk, hj, hv', hle, hmin⟩ := scanSlots_some_spec hscan
      norm_num at hk
      simp only [hscan]
      simp only [bwdF]
      rw [hTah, if_pos hEa]
      have hq0 := hmin 0
      have hq1 := hmin 1
      have hq2 := hmin 2
      have hq3 := hmin 3
      have hq4 := hmin 4
      have hq5 := hmin 5
      have hq6 := hmin 6
      have hq7 := hmin 7
      have hq8 := hmin 8
      have hq9 := hmin 9
      have hq10 := hmin 10
      have hq11 := hmin 11
      have hq12 := hmin 12
      clear hmin hscan hv
      interval_cases k
      · norm_num at hle hv' hj
        subst hj
        norm_num [ethiopian_order]
        rw [bwdSlots_k1 _ _ _ _ (by omega)]
        simp only [Prod.mk.injEq, true_and, and_true]
        try omega
      · norm_num at hle hv' hj hq0
        subst hj
        norm_num [ethiopian_order]
        rw [bwdSlots_k2 _ _ _ _ (by omega) (by omega)]
        simp only [Prod.mk.injEq, true_and, and_true]
        try omega
      · norm_num at hle hv' hj hq1
        subst hj
        norm_num [ethiopian_order]
        rw [bwdSlots_k3 _ _ _ _ (by omega) (by omega)]
        simp only [Prod.mk.injEq, true_and, and_true]
        try omega
      · norm_num at hle hv' hj hq2
        subst hj
        norm_num [ethiopian_order]
        rw [bwdSlots_k4 _ _ _ _ (by omega) (by omega)]
        simp only [Prod.mk.injEq, true_and, and_true]
        try omega
      · norm_num at hle hv' hj hq3
        subst hj
        norm_num [ethiopian_order]
        rw [bwdSlots_k5 _ _ _ _ (by omega) (by omega)]
        simp only [Prod.mk.injEq, true_and, and_true]
        try omega
      · norm_num at hle hv' hj hq4
        subst hj
        norm_num [ethiopian_order]
        rw [bwdSlots_k6 _ _ _ _ (by omega) (by omega)]
        simp only [Prod.mk.injEq, true_and, and_true]
        try omega
      · norm_num at hle hv' hj hq5
        subst hj
        norm_num [ethiopian_order]
        rw [bwdSlots_k7 _ _ _ _ (by omega) (by omega)]
        simp only [Prod.mk.injEq, true_and, and_true]
        try omega
      · norm_num at hle hv' hj hq6
        subst hj
        norm_num [ethiopian_order]
        rw [bwdSlots_k8 _ _ _ _ (by omega) (by omega)]
        simp only [Prod.mk.injEq, true_and, and_true]
        try omega
      · norm_num at hle hv' hj hq7
        subst hj
        norm_num [ethiopian_order]
        rw [bwdSlots_k9 _ _ _ _ (by omega) (by omega)]
        simp only [Prod.mk.injEq, true_and, and_true]
        try omega
      · norm_num at hle hv' hj hq8
        subst hj
        norm_num [ethiopian_order]
        rw [bwdSlots_k10 _ _ _ _ (by omega) (by omega)]
        simp only [Prod.mk.injEq, true_and, and_true]
        try omega
      · norm_num at hle hv' hj hq9
        subst hj
        norm_num [ethiopian_order]
        rw [bwdSlots_k11 _ _ _ _ (by omega) (by omega) (by omega)]
        simp only [Prod.mk.injEq, true_and, and_true]
        try omega
      · norm_num at hle hv' hj hq10
        subst hj
        norm_num [ethiopian_order]
        rw [bwdSlots_k12 _ _ _ _ (by omega) (by omega) (by omega)]
        simp only [Prod.mk.injEq, true_and, and_true]
        try omega
      · norm_num at hle hv' hj hq11
        subst hj
        norm_num [ethiopian_order]
        rw [bwdSlots_k13 _ _ _ _ (by omega) (by omega) (by omega)]
        simp only [Prod.mk.injEq, true_and, and_true]
        try omega
      · norm_num at hle hv' hj hq12
        subst hj
        norm_num [ethiopian_order]
        rw [bwdSlots_k14 _ _ _ _ (by omega) (by omega)]
        simp only [Prod.mk.injEq, true_and, and_true]
        try omega
  ·
    have hEa : ¬((y - 8 - 1) % 4 = 3) := by
      intro hc; exact absurd ((eth_leap_iff _).mpr hc) (by simp [hE])
    have hTah : gregToEth_tahissas y m d = start_day_of_ethiopian (y - 8) - 3 := by
      unfold gregToEth_tahissas
      rw [if_neg (by intro hcon; omega), if_neg (by intro hcon; omega)]
    have hTabE : gregToEth_months y m d =
        [0, start_day_of_ethiopian (y - 8) - 3, 30, 30, 30, 30, 30, 30, 30, 30, 5, 30, 30, 30, 30] := by
      simp only [gregToEth_months]
      rw [if_neg (show ¬(is_ethiopian_leap_year (y - 8) = true) by simp [hE]), if_neg (by intro hcon; omega), if_neg (by intro hcon; omega)]
      rfl
    set t := start_day_of_ethiopian (y - 8) - 3 with ht0
    have htl : t = (y - 8) / 100 - (y - 8) / 400 - 7 + 0 := by
      rw [ht0]
      unfold start_day_of_ethiopian
      rw [if_neg hEa]
      omega
    clear_value t
    have htb : 4 ≤ t ∧ t ≤ 31 := by omega
    simp only [Except.ok.injEq]
    simp only [gregToEth_core, gregToEth_walk]
    simp only [hTabE, hTah, ← hu0]
    rw [show ([0, t, 30, 30, 30, 30, 30, 30, 30, 30, 5, 30, 30, 30, 30] : List Int).drop 1 = [t, 30, 30, 30, 30, 30, 30, 30, 30, 5, 30, 30, 30, 30] from rfl]
    cases hscan : scanSlots [t, 30, 30, 30, 30, 30, 30, 30, 30, 5, 30, 30, 30, 30] 1 u with
    | none =>
      exfalso
      have hs := scanSlots_none_sum hscan (by simp)
      norm_num at hs
      omega
    | some jv =>
      obtain ⟨j, v⟩ := jv
      obtain ⟨k, hk, hj, hv', hle, hmin⟩ := scanSlots_some_spec hscan
      norm_num at hk
      simp only [hscan]
      simp only [bwdF]
      rw [hTah, if_neg hEa]
      have hq0 := hmin 0
      have hq1 := hmin 1
      have hq2 := hmin 2
      have hq3 := hmin 3
      have hq4 := hmin 4
      have hq5 := hmin 5
      have hq6 := hmin 6
      have hq7 := hmin 7
      have hq8 := hmin 8
      have hq9 := hmin 9
      have hq10 := hmin 10
      have hq11 := hmin 11
      have hq12 := hmin 12
      clear hmin hscan hv
      interval_cases k
      · norm_num at hle hv' hj
        subst hj
        norm_num [ethiopian_order]
        rw [bwdSlots_k1 _ _ _ _ (by omega)]
        simp only [Prod.mk.injEq, true_and, and_true]
        try omega
      · norm_num at hle hv' hj hq0
        subst hj
        norm_num [ethiopian_order]
        rw [bwdSlots_k2 _ _ _ _ (by omega) (by omega)]
        simp only [Prod.mk.injEq, true_and, and_true]
        try omega
      · norm_num at hle hv' hj hq1
        subst hj
        norm_num [ethiopian_order]
        rw [bwdSlots_k3 _ _ _ _ (by omega) (by omega)]
        simp only [Prod.mk.injEq, true_and, and_true]
        try omega
      · norm_num at hle hv' hj hq2
        subst hj
        norm_num [ethiopian_order]
        rw [bwdSlots_k4 _ _ _ _ (by omega) (by omega)]
        simp only [Prod.mk.injEq, true_and, and_true]
        try omega
      · norm_num at hle hv' hj hq3
        subst hj
        norm_num [ethiopian_order]
        rw [bwdSlots_k5 _ _ _ _ (by omega) (by omega)]
        simp only [Prod.mk.injEq, true_and, and_true]
        try omega
      · norm_num at hle hv' hj hq4
        subst hj
        norm_num [ethiopian_order]
        rw [bwdSlots_k6 _ _ _ _ (by omega) (by omega)]
        simp only [Prod.mk.injEq, true_and, and_true]
        try omega
      · norm_num at hle hv' hj hq5
        subst hj
        norm_num [ethiopian_order]
        rw [bwdSlots_k7 _ _ _ _ (by omega) (by omega)]
        simp only [Prod.mk.injEq, true_and, and_true]
        try omega
      · norm_num at hle hv' hj hq6
        subst hj
        norm_num [ethiopian_order]
        rw [bwdSlots_k8 _ _ _ _ (by omega) (by omega)]
        simp only [Prod.mk.injEq, true_and, and_true]
        try omega
      · norm_num at hle hv' hj hq7
        subst hj
        norm_num [ethiopian_order]
        rw [bwdSlots_k9 _ _ _ _ (by omega) (by omega)]
        simp only [Prod.mk.injEq, true_and, and_true]
        try omega
      · norm_num at hle hv' hj hq8
        subst hj
        norm_num [ethiopian_order]
        rw [bwdSlots_k10 _ _ _ _ (by omega) (by omega)]
        simp only [Prod.mk.injEq, true_and, and_true]
        try omega
      · norm_num at hle hv' hj hq9
        subst hj
        norm_num [ethiopian_order]
        rw [bwdSlots_k11 _ _ _ _ (by omega) (by omega) (by omega)]
        simp only [Prod.mk.injEq, true_and, and_true]
        try omega
      · norm_num at hle hv' hj hq10
        subst hj
        norm_num [ethiopian_order]
        rw [bwdSlots_k12 _ _ _ _ (by omega) (by omega) (by omega)]
        simp only [Prod.mk.injEq, true_and, and_true]
        try omega
      · norm_num at hle hv' hj hq11
        subst hj
        norm_num [ethiopian_order]
        rw [bwdSlots_k13 _ _ _ _ (by omega) (by omega) (by omega)]
        simp only [Prod.mk.injEq, true_and, and_true]
        try omega
      · norm_num at hle hv' hj hq12
        subst hj
        norm_num [ethiopian_order]
        rw [bwdSlots_k14 _ _ _ _ (by omega) (by omega)]
        simp only [Prod.mk.injEq, true_and, and_true]
        try omega

set_option maxHeartbeats 4000000 in
theorem bwdF_valid (y m d : Int) (hy1 : 1583 ≤ y) (hy2 : y ≤ 4907)
    (hv : validate_gregorian_date y m d = none) :
    validate_ethiopian_date (bwdF y m d).1 (bwdF y m d).2.1 (bwdF y m d).2.2 = none := by
  obtain ⟨hy1b, hm1, hm12, hd1, hgap, hdim⟩ := (validate_greg_none_iff y m d).mp hv
  have hub0 := until_bounds y m d hm1 hm12 hd1 hdim
  have hub : 1 ≤ gregToEth_until y m d ∧ gregToEth_until y m d ≤ 366 := by
    rcases hub0 with ⟨a, b⟩
    refine ⟨a, ?_⟩
    split_ifs at b <;> omega
  set u := gregToEth_until y m d with hu0
  by_cases hE : is_ethiopian_leap_year (y - 8) = true
  ·
    have hEa : (y - 8 - 1) % 4 = 3 := by
      exact (eth_leap_iff _).mp hE
    have hTah : gregToEth_tahissas y m d = start_day_of_ethiopian (y - 8) - 3 := by
      unfold gregToEth_tahissas
      rw [if_neg (by intro hcon; omega), if_neg (by intro hcon; omega)]
    simp only [bwdF]
    rw [hTah, if_pos hEa]
    set t := start_day_of_ethiopian (y - 8) - 3 with ht0
    have htl : t = (y - 8) / 100 - (y - 8) / 400 - 7 + 1 := by
      rw [ht0]
      unfold start_day_of_ethiopian
      rw [if_pos hEa]
      omega
    clear_value t
    have htb : 4 ≤ t ∧ t ≤ 30 := by omega
    by_cases c1 : u ≤ t
    ·
      rw [bwdSlots_k1 _ _ _ _ (by omega)]
      show validate_ethiopian_date (y - 8) 4 (u + (30 - t)) = none
      rw [validate_eth_none_iff]
      refine ⟨by omega, by omega, by omega, by omega, ?_, ?_⟩
      · intro hx
        omega
      · intro hx
        exact absurd hx (by norm_num)
    by_cases c2 : u ≤ t + 30
    ·
      rw [bwdSlots_k2 _ _ _ _ (by omega) (by omega)]
      show validate_ethiopian_date (y - 8) 5 (u - (t)) = none
      rw [validate_eth_none_iff]
      refine ⟨by omega, by omega, by omega, by omega, ?_, ?_⟩
      · intro hx
        omega
      · intro hx
        exact absurd hx (by norm_num)
    by_cases c3 : u ≤ t + 60
    ·
      rw [bwdSlots_k3 _ _ _ _ (by omega) (by omega)]
      show validate_ethiopian_date (y - 8) 6 (u - (t + 30)) = none
      rw [validate_eth_none_iff]
      refine ⟨by omega, by omega, by omega, by omega, ?_, ?_⟩
      · intro hx
        omega
      · intro hx
        exact absurd hx (by norm_num)
    by_cases c4 : u ≤ t + 90
    ·
      rw [bwdSlots_k4 _ _ _ _ (by omega) (by omega)]
      show validate_ethiopian_date (y - 8) 7 (u - (t + 60)) = none
      rw [validate_eth_none_iff]
      refine ⟨by omega, by omega, by omega, by omega, ?_, ?_⟩
      · intro hx
        omega
      · intro hx
        exact absurd hx (by norm_num)
    by_cases c5 : u ≤ t + 120
    ·
      rw [bwdSlots_k5 _ _ _ _ (by omega) (by omega)]
      show validate_ethiopian_date (y - 8) 8 (u - (t + 90)) = none
      rw [validate_eth_none_iff]
      refine ⟨by omega, by omega, by omega, by omega, ?_, ?_⟩
      · intro hx
        omega
      · intro hx
        exact absurd hx (by norm_num)
    by_cases c6 : u ≤ t + 150
    ·
      rw [bwdSlots_k6 _ _ _ _ (by omega) (by omega)]
      show validate_ethiopian_date (y - 8) 9 (u - (t + 120)) = none
      rw [validate_eth_none_iff]
      refine ⟨by omega, by omega, by omega, by omega, ?_, ?_⟩
      · intro hx
        omega
      · intro hx
        exact absurd hx (by norm_num)
    by_cases c7 : u ≤ t + 180
    ·
      rw [bwdSlots_k7 _ _ _ _ (by omega) (by omega)]
      show validate_ethiopian_date (y - 8) 10 (u - (t + 150)) = none
      rw [validate_eth_none_iff]
      refine ⟨by omega, by omega, by omega, by omega, ?_, ?_⟩
      · intro hx
        omega
      · intro hx
        exact absurd hx (by norm_num)
    by_cases c8 : u ≤ t + 210
    ·
      rw [bwdSlots_k8 _ _ _ _ (by omega) (by omega)]
      show validate_ethiopian_date (y - 8) 11 (u - (t + 180)) = none
      rw [validate_eth_none_iff]
      refine ⟨by omega, by omega, by omega, by omega, ?_, ?_⟩
      · intro hx
        omega
      · intro hx
        exact absurd hx (by norm_num)
    by_cases c9 : u ≤ t + 240
    ·
      rw [bwdSlots_k9 _ _ _ _ (by omega) (by omega)]
      show validate_ethiopian_date (y - 8) 12 (u - (t + 210)) = none
      rw [validate_eth_none_iff]
      refine ⟨by omega, by omega, by omega, by omega, ?_, ?_⟩
      · intro hx
        omega
      · intro hx
        exact absurd hx (by norm_num)
    by_cases c10 : u ≤ t + 246
    ·
      rw [bwdSlots_k10 _ _ _ _ (by omega) (by omega)]
      show validate_ethiopian_date (y - 8) 13 (u - (t + 240)) = none
      rw [validate_eth_none_iff]
      refine ⟨by omega, by omega, by omega, by omega, ?_, ?_⟩
      · intro hx
        omega
      · intro hx
        rw [if_pos hEa]
        omega
    by_cases c11 : u ≤ t + 276
    ·
      rw [bwdSlots_k11 _ _ _ _ (by omega) (by omega) (by omega)]
      show validate_ethiopian_date (y - 8 + 1) 1 (u - (t + 240 + (5 + 1))) = none
      rw [validate_eth_none_iff]
      refine ⟨by omega, by omega, by omega, by omega, ?_, ?_⟩
      · intro hx
        omega
      · intro hx
        exact absurd hx (by norm_num)
    by_cases c12 : u ≤ t + 306
    ·
      rw [bwdSlots_k12 _ _ _ _ (by omega) (by omega) (by omega)]
      show validate_ethiopian_date (y - 8 + 1) 2 (u - (t + 270 + (5 + 1))) = none
      rw [validate_eth_none_iff]
      refine ⟨by omega, by omega, by omega, by omega, ?_, ?_⟩
      · intro hx
        omega
      · intro hx
        exact absurd hx (by norm_num)
    by_cases c13 : u ≤ t + 336
    ·
      rw [bwdSlots_k13 _ _ _ _ (by omega) (by omega) (by omega)]
      show validate_ethiopian_date (y - 8 + 1) 3 (u - (t + 300 + (5 + 1))) = none
      rw [validate_eth_none_iff]
      refine ⟨by omega, by omega, by omega, by omega, ?_, ?_⟩
      · intro hx
        omega
      · intro hx
        exact absurd hx (by norm_num)
    rw [bwdSlots_k14 _ _ _ _ (by omega) (by omega)]
    show validate_ethiopian_date (y - 8 + 1) 4 (u - (t + 330 + (5 + 1))) = none
    rw [validate_eth_none_iff]
    refine ⟨by omega, by omega, by omega, by omega, ?_, ?_⟩
    · intro hx
      omega
    · intro hx
      exact absurd hx (by norm_num)
  ·
    have hEa : ¬((y - 8 - 1) % 4 = 3) := by
      intro hc; exact absurd ((eth_leap_iff _).mpr hc) (by simp [hE])
    have hTah : gregToEth_tahissas y m d = start_day_of_ethiopian (y - 8) - 3 := by
      unfold gregToEth_tahissas
      rw [if_neg (by intro hcon; omega), if_neg (by intro hcon; omega)]
    simp only [bwdF]
    rw [hTah, if_neg hEa]
    set t := start_day_of_ethiopian (y - 8) - 3 with ht0
    have htl : t = (y - 8) / 100 - (y - 8) / 400 - 7 + 0 := by
      rw [ht0]
      unfold start_day_of_ethiopian
      rw [if_neg hEa]
      omega
    clear_value t
    have htb : 4 ≤ t ∧ t ≤ 30 := by omega
    by_cases c1 : u ≤ t
    ·
      rw [bwdSlots_k1 _ _ _ _ (by omega)]
      show validate_ethiopian_date (y - 8) 4 (u + (30 - t)) = none
      rw [validate_eth_none_iff]
      refine ⟨by omega, by omega, by omega, by omega, ?_, ?_⟩
      · intro hx
        omega
      · intro hx
        exact absurd hx (by norm_num)
    by_cases c2 : u ≤ t + 30
    ·
      rw [bwdSlots_k2 _ _ _ _ (by omega) (by omega)]
      show validate_ethiopian_date (y - 8) 5 (u - (t)) = none
      rw [validate_eth_none_iff]
      refine ⟨by omega, by omega, by omega, by omega, ?_, ?_⟩
      · intro hx
        omega
      · intro hx
        exact absurd hx (by norm_num)
    by_cases c3 : u ≤ t + 60
    ·
      rw [bwdSlots_k3 _ _ _ _ (by omega) (by omega)]
      show validate_ethiopian_date (y - 8) 6 (u - (t + 30)) = none
      rw [validate_eth_none_iff]
      refine ⟨by omega, by omega, by omega, by omega, ?_, ?_⟩
      · intro hx
        omega
      · intro hx
        exact absurd hx (by norm_num)
    by_cases c4 : u ≤ t + 90
    ·
      rw [bwdSlots_k4 _ _ _ _ (by omega) (by omega)]
      show validate_ethiopian_date (y - 8) 7 (u - (t + 60)) = none
      rw [validate_eth_none_iff]
      refine ⟨by omega, by omega, by omega, by omega, ?_, ?_⟩
      · intro hx
        omega
      · intro hx
        exact absurd hx (by norm_num)
    by_cases c5 : u ≤ t + 120
    ·
      rw [bwdSlots_k5 _ _ _ _ (by omega) (by omega)]
      show validate_ethiopian_date (y - 8) 8 (u - (t + 90)) = none
      rw [validate_eth_none_iff]
      refine ⟨by omega, by omega, by omega, by omega, ?_, ?_⟩
      · intro hx
        omega
      · intro hx
        exact absurd hx (by norm_num)
    by_cases c6 : u ≤ t + 150
    ·
      rw [bwdSlots_k6 _ _ _ _ (by omega) (by omega)]
      show validate_ethiopian_date (y - 8) 9 (u - (t + 120)) = none
      rw [validate_eth_none_iff]
      refine ⟨by omega, by omega, by omega, by omega, ?_, ?_⟩
      · intro hx
        omega
      · intro hx
        exact absurd hx (by norm_num)
    by_cases c7 : u ≤ t + 180
    ·
      rw [bwdSlots_k7 _ _ _ _ (by omega) (by omega)]
      show validate_ethiopian_date (y - 8) 10 (u - (t + 150)) = none
      rw [validate_eth_none_iff]
      refine ⟨by omega, by omega, by omega, by omega, ?_, ?_⟩
      · intro hx
        omega
      · intro hx
        exact absurd hx (by norm_num)
    by_cases c8 : u ≤ t + 210
    ·
      rw [bwdSlots_k8 _ _ _ _ (by omega) (by omega)]
      show validate_ethiopian_date (y - 8) 11 (u - (t + 180)) = none
      rw [validate_eth_none_iff]
      refine ⟨by omega, by omega, by omega, by omega, ?_, ?_⟩
      · intro hx
        omega
      · intro hx
        exact absurd hx (by norm_num)
    by_cases c9 : u ≤ t + 240
    ·
      rw [bwdSlots_k9 _ _ _ _ (by omega) (by omega)]
      show validate_ethiopian_date (y - 8) 12 (u - (t + 210)) = none
      rw [validate_eth_none_iff]
      refine ⟨by omega, by omega, by omega, by omega, ?_, ?_⟩
      · intro hx
        omega
      · intro hx
        exact absurd hx (by norm_num)
    by_cases c10 : u ≤ t + 245
    ·
      rw [bwdSlots_k10 _ _ _ _ (by omega) (by omega)]
      show validate_ethiopian_date (y - 8) 13 (u - (t + 240)) = none
      rw [validate_eth_none_iff]
      refine ⟨by omega, by omega, by omega, by omega, ?_, ?_⟩
      · intro hx
        omega
      · intro hx
        rw [if_neg hEa]
        omega
    by_cases c11 : u ≤ t + 275
    ·
      rw [bwdSlots_k11 _ _ _ _ (by omega) (by omega) (by omega)]
      show validate_ethiopian_date (y - 8 + 1) 1 (u - (t + 240 + (5 + 0))) = none
      rw [validate_eth_none_iff]
      refine ⟨by omega, by omega, by omega, by omega, ?_, ?_⟩
      · intro hx
        omega
      · intro hx
        exact absurd hx (by norm_num)
    by_cases c12 : u ≤ t + 305
    ·
      rw [bwdSlots_k12 _ _ _ _ (by omega) (by omega) (by omega)]
      show validate_ethiopian_date (y - 8 + 1) 2 (u - (t + 270 + (5 + 0))) = none
      rw [validate_eth_none_iff]
      refine ⟨by omega, by omega, by omega, by omega, ?_, ?_⟩
      · intro hx
        omega
      · intro hx
        exact absurd hx (by norm_num)
    by_cases c13 : u ≤ t + 335
    ·
      rw [bwdSlots_k13 _ _ _ _ (by omega) (by omega) (by omega)]
      show validate_ethiopian_date (y - 8 + 1) 3 (u - (t + 300 + (5 + 0))) = none
      rw [validate_eth_none_iff]
      refine ⟨by omega, by omega, by omega, by omega, ?_, ?_⟩
      · intro hx
        omega
      · intro hx
        exact absurd hx (by norm_num)
    rw [bwdSlots_k14 _ _ _ _ (by omega) (by omega)]
    show validate_ethiopian_date (y - 8 + 1) 4 (u - (t + 330 + (5 + 0))) = none
    rw [validate_eth_none_iff]
    refine ⟨by omega, by omega, by omega, by omega, ?_, ?_⟩
    · intro hx
      omega
    · intro hx
      exact absurd hx (by norm_num)

theorem fwdSlots_cases (y t F : Int) (hF0 : 28 ≤ F) :
    (t ≤ 30 ∧ fwdSlots y t F = (y + 7, 9, t)) ∨
      (¬(t ≤ 30) ∧ t ≤ 61 ∧ fwdSlots y t F = (y + 7, 10, t - 30)) ∨
      (¬(t ≤ 61) ∧ t ≤ 91 ∧ fwdSlots y t F = (y + 7, 11, t - 61)) ∨
      (¬(t ≤ 91) ∧ t ≤ 122 ∧ fwdSlots y t F = (y + 7, 12, t - 91)) ∨
      (¬(t ≤ 122) ∧ t ≤ 153 ∧ fwdSlots y t F = (y + 8, 1, t - 122)) ∨
      (¬(t ≤ 153) ∧ t ≤ 153 + F ∧ fwdSlots y t F = (y + 8, 2, t - 153)) ∨
      (¬(t ≤ 153 + F) ∧ t ≤ 184 + F ∧ fwdSlots y t F = (y + 8, 3, t - 153 - F)) ∨
      (¬(t ≤ 184 + F) ∧ t ≤ 214 + F ∧ fwdSlots y t F = (y + 8, 4, t - 184 - F)) ∨
      (¬(t ≤ 214 + F) ∧ t ≤ 245 + F ∧ fwdSlots y t F = (y + 8, 5, t - 214 - F)) ∨
      (¬(t ≤ 245 + F) ∧ t ≤ 275 + F ∧ fwdSlots y t F = (y + 8, 6, t - 245 - F)) ∨
      (¬(t ≤ 275 + F) ∧ t ≤ 306 + F ∧ fwdSlots y t F = (y + 8, 7, t - 275 - F)) ∨
      (¬(t ≤ 306 + F) ∧ t ≤ 337 + F ∧ fwdSlots y t F = (y + 8, 8, t - 306 - F)) ∨
      (¬(t ≤ 337 + F) ∧ fwdSlots y t F = (y + 8, 9, t - 337 - F)) := by
  by_cases c0 : t ≤ 30
  · exact (Or.inl ⟨c0, fwdSlots_k0 y t F c0⟩)
  by_cases c1 : t ≤ 61
  · exact (Or.inr (Or.inl ⟨c0, c1, fwdSlots_k1 y t F c0 c1⟩))
  by_cases c2 : t ≤ 91
  · exact (Or.inr (Or.inr (Or.inl ⟨c1, c2, fwdSlots_k2 y t F c1 c2⟩)))
  by_cases c3 : t ≤ 122
  · exact (Or.inr (Or.inr (Or.inr (Or.inl ⟨c2, c3, fwdSlots_k3 y t F c2 c3⟩))))
  by_cases c4 : t ≤ 153
  · exact (Or.inr (Or.inr (Or.inr (Or.inr (Or.inl ⟨c3, c4, fwdSlots_k4 y t F c3 c4⟩)))))
  by_cases c5 : t ≤ 153 + F
  · exact (Or.inr (Or.inr (Or.inr (Or.inr (Or.inr (Or.inl ⟨c4, c5, fwdSlots_k5 y t F c4 c5⟩))))))
  by_cases c6 : t ≤ 184 + F
  · exact (Or.inr (Or.inr (Or.inr (Or.inr (Or.inr (Or.inr (Or.inl ⟨c5, c6, fwdSlots_k6 y t F (by omega) c5 c6⟩)))))))
  by_cases c7 : t ≤ 214 + F
  · exact (Or.inr (Or.inr (Or.inr (Or.inr (Or.inr (Or.inr (Or.inr (Or.inl ⟨c6, c7, fwdSlots_k7 y t F (by omega) c6 c7⟩))))))))
  by_cases c8 : t ≤ 245 + F
  · exact (Or.inr (Or.inr (Or.inr (Or.inr (Or.inr (Or.inr (Or.inr (Or.inr (Or.inl ⟨c7, c8, fwdSlots_k8 y t F (by omega) c7 c8⟩)))))))))
  by_cases c9 : t ≤ 275 + F
  · exact (Or.inr (Or.inr (Or.inr (Or.inr (Or.inr (Or.inr (Or.inr (Or.inr (Or.inr (Or.inl ⟨c8, c9, fwdSlots_k9 y t F (by omega) c8 c9⟩))))))))))
  by_cases c10 : t ≤ 306 + F
  · exact (Or.inr (Or.inr (Or.inr (Or.inr (Or.inr (Or.inr (Or.inr (Or.inr (Or.inr (Or.inr (Or.inl ⟨c9, c10, fwdSlots_k10 y t F (by omega) c9 c10⟩)))))))))))
  by_cases c11 : t ≤ 337 + F
  · exact (Or.inr (Or.inr (Or.inr (Or.inr (Or.inr (Or.inr (Or.inr (Or.inr (Or.inr (Or.inr (Or.inr (Or.inl ⟨c10, c11, fwdSlots_k11 y t F (by omega) c10 c11⟩))))))))))))
  exact (Or.inr (Or.inr (Or.inr (Or.inr (Or.inr (Or.inr (Or.inr (Or.inr (Or.inr (Or.inr (Or.inr (Or.inr ⟨c11, fwdSlots_k12 y t F (by omega) c11⟩))))))))))))

theorem bwdSlots_cases (ey tah P u : Int) (hP : 0 ≤ P) :
    (u ≤ tah ∧ bwdSlots ey tah P u = (ey, 4, u + (30 - tah))) ∨
      (¬(u ≤ tah) ∧ u ≤ tah + 30 ∧ bwdSlots ey tah P u = (ey, 5, u - (tah))) ∨
      (¬(u ≤ tah + 30) ∧ u ≤ tah + 60 ∧ bwdSlots ey tah P u = (ey, 6, u - (tah + 30))) ∨
      (¬(u ≤ tah + 60) ∧ u ≤ tah + 90 ∧ bwdSlots ey tah P u = (ey, 7, u - (tah + 60))) ∨
      (¬(u ≤ tah + 90) ∧ u ≤ tah + 120 ∧ bwdSlots ey tah P u = (ey, 8, u - (tah + 90))) ∨
      (¬(u ≤ tah + 120) ∧ u ≤ tah + 150 ∧ bwdSlots ey tah P u = (ey, 9, u - (tah + 120))) ∨
      (¬(u ≤ tah + 150) ∧ u ≤ tah + 180 ∧ bwdSlots ey tah P u = (ey, 10, u - (tah + 150))) ∨
      (¬(u ≤ tah + 180) ∧ u ≤ tah + 210 ∧ bwdSlots ey tah P u = (ey, 11, u - (tah + 180))) ∨
      (¬(u ≤ tah + 210) ∧ u ≤ tah + 240 ∧ bwdSlots ey tah P u = (ey, 12, u - (tah + 210))) ∨
      (¬(u ≤ tah + 240) ∧ u ≤ tah + 240 + P ∧ bwdSlots ey tah P u = (ey, 13, u - (tah + 240))) ∨
      (¬(u ≤ tah + 240 + P) ∧ u ≤ tah + 270 + P ∧ bwdSlots ey tah P u = (ey + 1, 1, u - (tah + 240 + P))) ∨
      (¬(u ≤ tah + 270 + P) ∧ u ≤ tah + 300 + P ∧ bwdSlots ey tah P u = (ey + 1, 2, u - (tah + 270 + P))) ∨
      (¬(u ≤ tah + 300 + P) ∧ u ≤ tah + 330 + P ∧ bwdSlots ey tah P u = (ey + 1, 3, u - (tah + 300 + P))) ∨
      (¬(u ≤ tah + 330 + P) ∧ bwdSlots ey tah P u = (ey + 1, 4, u - (tah + 330 + P))) := by
  by_cases c1 : u ≤ tah
  · exact (Or.inl ⟨c1, bwdSlots_k1 ey tah P u c1⟩)
  by_cases c2 : u ≤ tah + 30
  · exact (Or.inr (Or.inl ⟨c1, c2, bwdSlots_k2 ey tah P u c1 c2⟩))
  by_cases c3 : u ≤ tah + 60
  · exact (Or.inr (Or.inr (Or.inl ⟨c2, c3, bwdSlots_k3 ey tah P u c2 c3⟩)))
  by_cases c4 : u ≤ tah + 90
  · exact (Or.inr (Or.inr (Or.inr (Or.inl ⟨c3, c4, bwdSlots_k4 ey tah P u c3 c4⟩))))
  by_cases c5 : u ≤ tah + 120
  · exact (Or.inr (Or.inr (Or.inr (Or.inr (Or.inl ⟨c4, c5, bwdSlots_k5 ey tah P u c4 c5⟩)))))
  by_cases c6 : u ≤ tah + 150
  · exact (Or.inr (Or.inr (Or.inr (Or.inr (Or.inr (Or.inl ⟨c5, c6, bwdSlots_k6 ey tah P u c5 c6⟩))))))
  by_cases c7 : u ≤ tah + 180
  · exact (Or.inr (Or.inr (Or.inr (Or.inr (Or.inr (Or.inr (Or.inl ⟨c6, c7, bwdSlots_k7 ey tah P u c6 c7⟩)))))))
  by_cases c8 : u ≤ tah + 210
  · exact (Or.inr (Or.inr (Or.inr (Or.inr (Or.inr (Or.inr (Or.inr (Or.inl ⟨c7, c8, bwdSlots_k8 ey tah P u c7 c8⟩))))))))
  by_cases c9 : u ≤ tah + 240
  · exact (Or.inr (Or.inr (Or.inr (Or.inr (Or.inr (Or.inr (Or.inr (Or.inr (Or.inl ⟨c8, c9, bwdSlots_k9 ey tah P u c8 c9⟩)))))))))
  by_cases c10 : u ≤ tah + 240 + P
  · exact (Or.inr (Or.inr (Or.inr (Or.inr (Or.inr (Or.inr (Or.inr (Or.inr (Or.inr (Or.inl ⟨c9, c10, bwdSlots_k10 ey tah P u c9 c10⟩))))))))))
  by_cases c11 : u ≤ tah + 270 + P
  · exact (Or.inr (Or.inr (Or.inr (Or.inr (Or.inr (Or.inr (Or.inr (Or.inr (Or.inr (Or.inr (Or.inl ⟨c10, c11, bwdSlots_k11 ey tah P u (by omega) c10 c11⟩)))))))))))
  by_cases c12 : u ≤ tah + 300 + P
  · exact (Or.inr (Or.inr (Or.inr (Or.inr (Or.inr (Or.inr (Or.inr (Or.inr (Or.inr (Or.inr (Or.inr (Or.inl ⟨c11, c12, bwdSlots_k12 ey tah P u (by omega) c11 c12⟩))))))))))))
  by_cases c13 : u ≤ tah + 330 + P
  · exact (Or.inr (Or.inr (Or.inr (Or.inr (Or.inr (Or.inr (Or.inr (Or.inr (Or.inr (Or.inr (Or.inr (Or.inr (Or.inl ⟨c12, c13, bwdSlots_k13 ey tah P u (by omega) c12 c13⟩)))))))))))))
  exact (Or.inr (Or.inr (Or.inr (Or.inr (Or.inr (Or.inr (Or.inr (Or.inr (Or.inr (Or.inr (Or.inr (Or.inr (Or.inr ⟨c13, bwdSlots_k14 ey tah P u (by omega) c13⟩)))))))))))))

theorem fwdF_modern (Y M D : Int)
    (hH : ¬((M - 1) * 30 + D ≤ 37 ∧ Y ≤ 1575))
    (hL : ¬((Y - 1) % 4 = 3))
    (hF : is_gregorian_leap_year (Y + 7 + 1) = false) :
    fwdF Y M D =
      fwdSlots Y ((M - 1) * 30 + D + (Y / 100 - Y / 400) - 5 + 2 * 0) 28 := by
  unfold fwdF
  rw [if_neg hH, if_neg hL, hF]
  norm_num

theorem until_cases (y m d : Int) (hm1 : 1 ≤ m) (hm12 : m ≤ 12)
    (hG : is_gregorian_leap_year y = false) :
    (m = 1 ∧ gregToEth_until y m d = d) ∨
      (m = 2 ∧ gregToEth_until y m d = 31 + d) ∨
      (m = 3 ∧ gregToEth_until y m d = 59 + d) ∨
      (m = 4 ∧ gregToEth_until y m d = 90 + d) ∨
      (m = 5 ∧ gregToEth_until y m d = 120 + d) ∨
      (m = 6 ∧ gregToEth_until y m d = 151 + d) ∨
      (m = 7 ∧ gregToEth_until y m d = 181 + d) ∨
      (m = 8 ∧ gregToEth_until y m d = 212 + d) ∨
      (m = 9 ∧ gregToEth_until y m d = 243 + d) ∨
      (m = 10 ∧ gregToEth_until y m d = 273 + d) ∨
      (m = 11 ∧ gregToEth_until y m d = 304 + d) ∨
      (m = 12 ∧ gregToEth_until y m d = 334 + d) := by
  have ht : gregToEth_gm y = [0, 31, 28, 31, 30, 31, 30, 31, 31, 30, 31, 30, 31] := by
    simp [gregToEth_gm, hG]
  unfold gregToEth_until
  rw [ht]
  interval_cases m <;> simp

set_option maxHeartbeats 8000000 in
theorem rt_eth (y m d : Int) (hy1 : 1576 ≤ y) (hy2 : y ≤ 2020)
    (hr : y % 4 = 2 ∨ y % 4 = 3)
    (hv : validate_ethiopian_date y m d = none) :
    to_gregorian y m d = .ok (fwdF y m d) ∧
    to_ethiopian (fwdF y m d).1 (fwdF y m d).2.1 (fwdF y m d).2.2 = .ok (y, m, d) := by
  obtain ⟨h1, hm1b, hm13, hd1, hd30, hd13⟩ := (validate_eth_none_iff y m d).mp hv
  have hd13b : m = 13 → d ≤ 5 := by
    intro h
    have hx := hd13 h
    rwa [if_neg (by intro hcon; omega)] at hx
  have hL : ¬((y - 1) % 4 = 3) := by omega
  have hF8 : is_gregorian_leap_year (y + 8) = false := by
    have hx : ¬(is_gregorian_leap_year (y + 8) = true) := by
      rw [greg_leap_iff]
      omega
    simpa using hx
  have hF8b : is_gregorian_leap_year (y + 7 + 1) = false := by
    have hx := hF8
    rwa [show y + 8 = y + 7 + 1 by ring] at hx
  have hF7 : is_gregorian_leap_year (y + 7) = false := by
    have hx : ¬(is_gregorian_leap_year (y + 7) = true) := by
      rw [greg_leap_iff]
      omega
    simpa using hx
  refine ⟨fwd_char y m d (by omega) hv, ?_⟩
  rw [fwdF_modern y m d (by omega) hL hF8b]
  set t := (m - 1) * 30 + d + (y / 100 - y / 400) - 5 + 2 * 0 with ht0
  rcases fwdSlots_cases y t 28 (by omega) with
    ⟨hrB, he⟩ | ⟨hrA, hrB, he⟩ | ⟨hrA, hrB, he⟩ | ⟨hrA, hrB, he⟩ | ⟨hrA, hrB, he⟩ |
    ⟨hrA, hrB, he⟩ | ⟨hrA, hrB, he⟩ | ⟨hrA, hrB, he⟩ | ⟨hrA, hrB, he⟩ | ⟨hrA, hrB, he⟩ |
    ⟨hrA, hrB, he⟩ | ⟨hrA, hrB, he⟩ | ⟨hrA, he⟩ <;>
    rw [he]
  · show to_ethiopian (y + 7) 9 (t) = Except.ok (y, m, d)
    have hvg : validate_gregorian_date (y + 7) 9 (t) = none :=
      (validate_greg_none_iff (y + 7) 9 (t)).mpr
        ⟨by omega, by omega, by omega, by omega, by rintro ⟨-, hx, -⟩; exact absurd hx (by norm_num), by norm_num [gdim]; omega⟩
    rw [bwd_char (y + 7) 9 (t) (by omega) (by omega) hvg]
    simp only [Except.ok.injEq]
    simp only [bwdF]
    have hTah : gregToEth_tahissas (y + 7) 9 (t) = start_day_of_ethiopian (y + 7 - 8) - 3 := by
      unfold gregToEth_tahissas
      rw [if_neg (by intro hcon; omega), if_neg (by intro hcon; omega)]
    rw [hTah]
    have hEa : ¬((y + 7 - 8 - 1) % 4 = 3) := by omega
    rw [if_neg hEa]
    have hsd : start_day_of_ethiopian (y + 7 - 8) = (y + 7 - 8) / 100 - (y + 7 - 8) / 400 - 4 := by
      unfold start_day_of_ethiopian
      rw [if_neg hEa]
    have hu2 : gregToEth_until (y + 7) 9 (t) = 243 + (t) := by
      unfold gregToEth_until
      rw [show gregToEth_gm (y + 7) = [0, 31, 28, 31, 30, 31, 30, 31, 31, 30, 31, 30, 31] from by
        simp [gregToEth_gm, hF7]]
      norm_num
      try decide
    rw [hu2]
    rcases bwdSlots_cases (y + 7 - 8) (start_day_of_ethiopian (y + 7 - 8) - 3) (5 + 0)
        (243 + (t)) (by omega) with
      ⟨hbB, hbe⟩ | ⟨hbA, hbB, hbe⟩ | ⟨hbA, hbB, hbe⟩ | ⟨hbA, hbB, hbe⟩ | ⟨hbA, hbB, hbe⟩ |
      ⟨hbA, hbB, hbe⟩ | ⟨hbA, hbB, hbe⟩ | ⟨hbA, hbB, hbe⟩ | ⟨hbA, hbB, hbe⟩ | ⟨hbA, hbB, hbe⟩ |
      ⟨hbA, hbB, hbe⟩ | ⟨hbA, hbB, hbe⟩ | ⟨hbA, hbB, hbe⟩ | ⟨hbA, hbe⟩ <;>
      · rw [hbe]
        simp only [Prod.mk.injEq]
        refine ⟨by omega, by omega, by omega⟩
  · show to_ethiopian (y + 7) 10 (t - 30) = Except.ok (y, m, d)
    have hvg : validate_gregorian_date (y + 7) 10 (t - 30) = none :=
      (validate_greg_none_iff (y + 7) 10 (t - 30)).mpr
        ⟨by omega, by omega, by omega, by omega, by rintro ⟨hx, -⟩; omega, by norm_num [gdim]; omega⟩
    rw [bwd_char (y + 7) 10 (t - 30) (by omega) (by omega) hvg]
    simp only [Except.ok.injEq]
    simp only [bwdF]
    have hTah : gregToEth_tahissas (y + 7) 10 (t - 30) = start_day_of_ethiopian (y + 7 - 8) - 3 := by
      unfold gregToEth_tahissas
      rw [if_neg (by intro hcon; omega), if_neg (by intro hcon; omega)]
    rw [hTah]
    have hEa : ¬((y + 7 - 8 - 1) % 4 = 3) := by omega
    rw [if_neg hEa]
    have hsd : start_day_of_ethiopian (y + 7 - 8) = (y + 7 - 8) / 100 - (y + 7 - 8) / 400 - 4 := by
      unfold start_day_of_ethiopian
      rw [if_neg hEa]
    have hu2 : gregToEth_until (y + 7) 10 (t - 30) = 273 + (t - 30) := by
      unfold gregToEth_until
      rw [show gregToEth_gm (y + 7) = [0, 31, 28, 31, 30, 31, 30, 31, 31, 30, 31, 30, 31] from by
        simp [gregToEth_gm, hF7]]
      norm_num
      try decide
    rw [hu2]
    rcases bwdSlots_cases (y + 7 - 8) (start_day_of_ethiopian (y + 7 - 8) - 3) (5 + 0)
        (273 + (t - 30)) (by omega) with
      ⟨hbB, hbe⟩ | ⟨hbA, hbB, hbe⟩ | ⟨hbA, hbB, hbe⟩ | ⟨hbA, hbB, hbe⟩ | ⟨hbA, hbB, hbe⟩ |
      ⟨hbA, hbB, hbe⟩ | ⟨hbA, hbB, hbe⟩ | ⟨hbA, hbB, hbe⟩ | ⟨hbA, hbB, hbe⟩ | ⟨hbA, hbB, hbe⟩ |
      ⟨hbA, hbB, hbe⟩ | ⟨hbA, hbB, hbe⟩ | ⟨hbA, hbB, hbe⟩ | ⟨hbA, hbe⟩ <;>
      · rw [hbe]
        simp only [Prod.mk.injEq]
        refine ⟨by omega, by omega, by omega⟩
  · show to_ethiopian (y + 7) 11 (t - 61) = Except.ok (y, m, d)
    have hvg : validate_gregorian_date (y + 7) 11 (t - 61) = none :=
      (validate_greg_none_iff (y + 7) 11 (t - 61)).mpr
        ⟨by omega, by omega, by omega, by omega, by rintro ⟨-, hx, -⟩; exact absurd hx (by norm_num), by norm_num [gdim]; omega⟩
    rw [bwd_char (y + 7) 11 (t - 61) (by omega) (by omega) hvg]
    simp only [Except.ok.injEq]
    simp only [bwdF]
    have hTah : gregToEth_tahissas (y + 7) 11 (t - 61) = start_day_of_ethiopian (y + 7 - 8) - 3 := by
      unfold gregToEth_tahissas
      rw [if_neg (by intro hcon; omega), if_neg (by intro hcon; omega)]
    rw [hTah]
    have hEa : ¬((y + 7 - 8 - 1) % 4 = 3) := by omega
    rw [if_neg hEa]
    have hsd : start_day_of_ethiopian (y + 7 - 8) = (y + 7 - 8) / 100 - (y + 7 - 8) / 400 - 4 := by
      unfold start_day_of_ethiopian
      rw [if_neg hEa]
    have hu2 : gregToEth_until (y + 7) 11 (t - 61) = 304 + (t - 61) := by
      unfold gregToEth_until
      rw [show gregToEth_gm (y + 7) = [0, 31, 28, 31, 30, 31, 30, 31, 31, 30, 31, 30, 31] from by
        simp [gregToEth_gm, hF7]]
      norm_num
      try decide
    rw [hu2]
    rcases bwdSlots_cases (y + 7 - 8) (start_day_of_ethiopian (y + 7 - 8) - 3) (5 + 0)
        (304 + (t - 61)) (by omega) with
      ⟨hbB, hbe⟩ | ⟨hbA, hbB, hbe⟩ | ⟨hbA, hbB, hbe⟩ | ⟨hbA, hbB, hbe⟩ | ⟨hbA, hbB, hbe⟩ |
      ⟨hbA, hbB, hbe⟩ | ⟨hbA, hbB, hbe⟩ | ⟨hbA, hbB, hbe⟩ | ⟨hbA, hbB, hbe⟩ | ⟨hbA, hbB, hbe⟩ |
      ⟨hbA, hbB, hbe⟩ | ⟨hbA, hbB, hbe⟩ | ⟨hbA, hbB, hbe⟩ | ⟨hbA, hbe⟩ <;>
      · rw [hbe]
        simp only [Prod.mk.injEq]
        refine ⟨by omega, by omega, by omega⟩
  · show to_ethiopian (y + 7) 12 (t - 91) = Except.ok (y, m, d)
    have hvg : validate_gregorian_date (y + 7) 12 (t - 91) = none :=
      (validate_greg_none_iff (y + 7) 12 (t - 91)).mpr
        ⟨by omega, by omega, by omega, by omega, by rintro ⟨-, hx, -⟩; exact absurd hx (by norm_num), by norm_num [gdim]; omega⟩
    rw [bwd_char (y + 7) 12 (t - 91) (by omega) (by omega) hvg]
    simp only [Except.ok.injEq]
    simp only [bwdF]
    have hTah : gregToEth_tahissas (y + 7) 12 (t - 91) = start_day_of_ethiopian (y + 7 - 8) - 3 := by
      unfold gregToEth_tahissas
      rw [if_neg (by intro hcon; omega), if_neg (by intro hcon; omega)]
    rw [hTah]
    have hEa : ¬((y + 7 - 8 - 1) % 4 = 3) := by omega
    rw [if_neg hEa]
    have hsd : start_day_of_ethiopian (y + 7 - 8) = (y + 7 - 8) / 100 - (y + 7 - 8) / 400 - 4 := by
      unfold start_day_of_ethiopian
      rw [if_neg hEa]
    have hu2 : gregToEth_until (y + 7) 12 (t - 91) = 334 + (t - 91) := by
      unfold gregToEth_until
      rw [show gregToEth_gm (y + 7) = [0, 31, 28, 31, 30, 31, 30, 31, 31, 30, 31, 30, 31] from by
        simp [gregToEth_gm, hF7]]
      norm_num
      try decide
    rw [hu2]
    rcases bwdSlots_cases (y + 7 - 8) (start_day_of_ethiopian (y + 7 - 8) - 3) (5 + 0)
        (334 + (t - 91)) (by omega) with
      ⟨hbB, hbe⟩ | ⟨hbA, hbB, hbe⟩ | ⟨hbA, hbB, hbe⟩ | ⟨hbA, hbB, hbe⟩ | ⟨hbA, hbB, hbe⟩ |
      ⟨hbA, hbB, hbe⟩ | ⟨hbA, hbB, hbe⟩ | ⟨hbA, hbB, hbe⟩ | ⟨hbA, hbB, hbe⟩ | ⟨hbA, hbB, hbe⟩ |
      ⟨hbA, hbB, hbe⟩ | ⟨hbA, hbB, hbe⟩ | ⟨hbA, hbB, hbe⟩ | ⟨hbA, hbe⟩ <;>
      · rw [hbe]
        simp only [Prod.mk.injEq]
        refine ⟨by omega, by omega, by omega⟩
  · show to_ethiopian (y + 8) 1 (t - 122) = Except.ok (y, m, d)
    have hvg : validate_gregorian_date (y + 8) 1 (t - 122) = none :=
      (validate_greg_none_iff (y + 8) 1 (t - 122)).mpr
        ⟨by omega, by omega, by omega, by omega, by rintro ⟨-, hx, -⟩; exact absurd hx (by norm_num), by norm_num [gdim]; omega⟩
    rw [bwd_char (y + 8) 1 (t - 122) (by omega) (by omega) hvg]
    simp only [Except.ok.injEq]
    simp only [bwdF]
    have hTah : gregToEth_tahissas (y + 8) 1 (t - 122) = start_day_of_ethiopian (y + 8 - 8) - 3 := by
      unfold gregToEth_tahissas
      rw [if_neg (by intro hcon; omega), if_neg (by intro hcon; omega)]
    rw [hTah]
    have hEa : ¬((y + 8 - 8 - 1) % 4 = 3) := by omega
    rw [if_neg hEa]
    have hsd : start_day_of_ethiopian (y + 8 - 8) = (y + 8 - 8) / 100 - (y + 8 - 8) / 400 - 4 := by
      unfold start_day_of_ethiopian
      rw [if_neg hEa]
    have hu2 : gregToEth_until (y + 8) 1 (t - 122) = 0 + (t - 122) := by
      unfold gregToEth_until
      rw [show gregToEth_gm (y + 8) = [0, 31, 28, 31, 30, 31, 30, 31, 31, 30, 31, 30, 31] from by
        simp [gregToEth_gm, hF8]]
      norm_num
      try decide
    rw [hu2]
    rcases bwdSlots_cases (y + 8 - 8) (start_day_of_ethiopian (y + 8 - 8) - 3) (5 + 0)
        (0 + (t - 122)) (by omega) with
      ⟨hbB, hbe⟩ | ⟨hbA, hbB, hbe⟩ | ⟨hbA, hbB, hbe⟩ | ⟨hbA, hbB, hbe⟩ | ⟨hbA, hbB, hbe⟩ |
      ⟨hbA, hbB, hbe⟩ | ⟨hbA, hbB, hbe⟩ | ⟨hbA, hbB, hbe⟩ | ⟨hbA, hbB, hbe⟩ | ⟨hbA, hbB, hbe⟩ |
      ⟨hbA, hbB, hbe⟩ | ⟨hbA, hbB, hbe⟩ | ⟨hbA, hbB, hbe⟩ | ⟨hbA, hbe⟩ <;>
      · rw [hbe]
        simp only [Prod.mk.injEq]
        refine ⟨by omega, by omega, by omega⟩
  · show to_ethiopian (y + 8) 2 (t - 153) = Except.ok (y, m, d)
    have hvg : validate_gregorian_date (y + 8) 2 (t - 153) = none :=
      (validate_greg_none_iff (y + 8) 2 (t - 153)).mpr
        ⟨by omega, by omega, by omega, by omega, by rintro ⟨-, hx, -⟩; exact absurd hx (by norm_num), by norm_num [gdim, hF8]; omega⟩
    rw [bwd_char (y + 8) 2 (t - 153) (by omega) (by omega) hvg]
    simp only [Except.ok.injEq]
    simp only [bwdF]
    have hTah : gregToEth_tahissas (y + 8) 2 (t - 153) = start_day_of_ethiopian (y + 8 - 8) - 3 := by
      unfold gregToEth_tahissas
      rw [if_neg (by intro hcon; omega), if_neg (by intro hcon; omega)]
    rw [hTah]
    have hEa : ¬((y + 8 - 8 - 1) % 4 = 3) := by omega
    rw [if_neg hEa]
    have hsd : start_day_of_ethiopian (y + 8 - 8) = (y + 8 - 8) / 100 - (y + 8 - 8) / 400 - 4 := by
      unfold start_day_of_ethiopian
      rw [if_neg hEa]
    have hu2 : gregToEth_until (y + 8) 2 (t - 153) = 31 + (t - 153) := by
      unfold gregToEth_until
      rw [show gregToEth_gm (y + 8) = [0, 31, 28, 31, 30, 31, 30, 31, 31, 30, 31, 30, 31] from by
        simp [gregToEth_gm, hF8]]
      norm_num
      try decide
    rw [hu2]
    rcases bwdSlots_cases (y + 8 - 8) (start_day_of_ethiopian (y + 8 - 8) - 3) (5 + 0)
        (31 + (t - 153)) (by omega) with
      ⟨hbB, hbe⟩ | ⟨hbA, hbB, hbe⟩ | ⟨hbA, hbB, hbe⟩ | ⟨hbA, hbB, hbe⟩ | ⟨hbA, hbB, hbe⟩ |
      ⟨hbA, hbB, hbe⟩ | ⟨hbA, hbB, hbe⟩ | ⟨hbA, hbB, hbe⟩ | ⟨hbA, hbB, hbe⟩ | ⟨hbA, hbB, hbe⟩ |
      ⟨hbA, hbB, hbe⟩ | ⟨hbA, hbB, hbe⟩ | ⟨hbA, hbB, hbe⟩ | ⟨hbA, hbe⟩ <;>
      · rw [hbe]
        simp only [Prod.mk.injEq]
        refine ⟨by omega, by omega, by omega⟩
  · show to_ethiopian (y + 8) 3 (t - 153 - 28) = Except.ok (y, m, d)
    have hvg : validate_gregorian_date (y + 8) 3 (t - 153 - 28) = none :=
      (validate_greg_none_iff (y + 8) 3 (t - 153 - 28)).mpr
        ⟨by omega, by omega, by omega, by omega, by rintro ⟨-, hx, -⟩; exact absurd hx (by norm_num), by norm_num [gdim]; omega⟩
    rw [bwd_char (y + 8) 3 (t - 153 - 28) (by omega) (by omega) hvg]
    simp only [Except.ok.injEq]
    simp only [bwdF]
    have hTah : gregToEth_tahissas (y + 8) 3 (t - 153 - 28) = start_day_of_ethiopian (y + 8 - 8) - 3 := by
      unfold gregToEth_tahissas
      rw [if_neg (by intro hcon; omega), if_neg (by intro hcon; omega)]
    rw [hTah]
    have hEa : ¬((y + 8 - 8 - 1) % 4 = 3) := by omega
    rw [if_neg hEa]
    have hsd : start_day_of_ethiopian (y + 8 - 8) = (y + 8 - 8) / 100 - (y + 8 - 8) / 400 - 4 := by
      unfold start_day_of_ethiopian
      rw [if_neg hEa]
    have hu2 : gregToEth_until (y + 8) 3 (t - 153 - 28) = 59 + (t - 153 - 28) := by
      unfold gregToEth_until
      rw [show gregToEth_gm (y + 8) = [0, 31, 28, 31, 30, 31, 30, 31, 31, 30, 31, 30, 31] from by
        simp [gregToEth_gm, hF8]]
      norm_num
      try decide
    rw [hu2]
    rcases bwdSlots_cases (y + 8 - 8) (start_day_of_ethiopian (y + 8 - 8) - 3) (5 + 0)
        (59 + (t - 153 - 28)) (by omega) with
      ⟨hbB, hbe⟩ | ⟨hbA, hbB, hbe⟩ | ⟨hbA, hbB, hbe⟩ | ⟨hbA, hbB, hbe⟩ | ⟨hbA, hbB, hbe⟩ |
      ⟨hbA, hbB, hbe⟩ | ⟨hbA, hbB, hbe⟩ | ⟨hbA, hbB, hbe⟩ | ⟨hbA, hbB, hbe⟩ | ⟨hbA, hbB, hbe⟩ |
      ⟨hbA, hbB, hbe⟩ | ⟨hbA, hbB, hbe⟩ | ⟨hbA, hbB, hbe⟩ | ⟨hbA, hbe⟩ <;>
      · rw [hbe]
        simp only [Prod.mk.injEq]
        refine ⟨by omega, by omega, by omega⟩
  · show to_ethiopian (y + 8) 4 (t - 184 - 28) = Except.ok (y, m, d)
    have hvg : validate_gregorian_date (y + 8) 4 (t - 184 - 28) = none :=
      (validate_greg_none_iff (y + 8) 4 (t - 184 - 28)).mpr
        ⟨by omega, by omega, by omega, by omega, by rintro ⟨-, hx, -⟩; exact absurd hx (by norm_num), by norm_num [gdim]; omega⟩
    rw [bwd_char (y + 8) 4 (t - 184 - 28) (by omega) (by omega) hvg]
    simp only [Except.ok.injEq]
    simp only [bwdF]
    have hTah : gregToEth_tahissas (y + 8) 4 (t - 184 - 28) = start_day_of_ethiopian (y + 8 - 8) - 3 := by
      unfold gregToEth_tahissas
      rw [if_neg (by intro hcon; omega), if_neg (by intro hcon; omega)]
    rw [hTah]
    have hEa : ¬((y + 8 - 8 - 1) % 4 = 3) := by omega
    rw [if_neg hEa]
    have hsd : start_day_of_ethiopian (y + 8 - 8) = (y + 8 - 8) / 100 - (y + 8 - 8) / 400 - 4 := by
      unfold start_day_of_ethiopian
      rw [if_neg hEa]
    have hu2 : gregToEth_until (y + 8) 4 (t - 184 - 28) = 90 + (t - 184 - 28) := by
      unfold gregToEth_until
      rw [show gregToEth_gm (y + 8) = [0, 31, 28, 31, 30, 31, 30, 31, 31, 30, 31, 30, 31] from by
        simp [gregToEth_gm, hF8]]
      norm_num
      try decide
    rw [hu2]
    rcases bwdSlots_cases (y + 8 - 8) (start_day_of_ethiopian (y + 8 - 8) - 3) (5 + 0)
        (90 + (t - 184 - 28)) (by omega) with
      ⟨hbB, hbe⟩ | ⟨hbA, hbB, hbe⟩ | ⟨hbA, hbB, hbe⟩ | ⟨hbA, hbB, hbe⟩ | ⟨hbA, hbB, hbe⟩ |
      ⟨hbA, hbB, hbe⟩ | ⟨hbA, hbB, hbe⟩ | ⟨hbA, hbB, hbe⟩ | ⟨hbA, hbB, hbe⟩ | ⟨hbA, hbB, hbe⟩ |
      ⟨hbA, hbB, hbe⟩ | ⟨hbA, hbB, hbe⟩ | ⟨hbA, hbB, hbe⟩ | ⟨hbA, hbe⟩ <;>
      · rw [hbe]
        simp only [Prod.mk.injEq]
        refine ⟨by omega, by omega, by omega⟩
  · show to_ethiopian (y + 8) 5 (t - 214 - 28) = Except.ok (y, m, d)
    have hvg : validate_gregorian_date (y + 8) 5 (t - 214 - 28) = none :=
      (validate_greg_none_iff (y + 8) 5 (t - 214 - 28)).mpr
        ⟨by omega, by omega, by omega, by omega, by rintro ⟨-, hx, -⟩; exact absurd hx (by norm_num), by norm_num [gdim]; omega⟩
    rw [bwd_char (y + 8) 5 (t - 214 - 28) (by omega) (by omega) hvg]
    simp only [Except.ok.injEq]
    simp only [bwdF]
    have hTah : gregToEth_tahissas (y + 8) 5 (t - 214 - 28) = start_day_of_ethiopian (y + 8 - 8) - 3 := by
      unfold gregToEth_tahissas
      rw [if_neg (by intro hcon; omega), if_neg (by intro hcon; omega)]
    rw [hTah]
    have hEa : ¬((y + 8 - 8 - 1) % 4 = 3) := by omega
    rw [if_neg hEa]
    have hsd : start_day_of_ethiopian (y + 8 - 8) = (y + 8 - 8) / 100 - (y + 8 - 8) / 400 - 4 := by
      unfold start_day_of_ethiopian
      rw [if_neg hEa]
    have hu2 : gregToEth_until (y + 8) 5 (t - 214 - 28) = 120 + (t - 214 - 28) := by
      unfold gregToEth_until
      rw [show gregToEth_gm (y + 8) = [0, 31, 28, 31, 30, 31, 30, 31, 31, 30, 31, 30, 31] from by
        simp [gregToEth_gm, hF8]]
      norm_num
      try decide
    rw [hu2]
    rcases bwdSlots_cases (y + 8 - 8) (start_day_of_ethiopian (y + 8 - 8) - 3) (5 + 0)
        (120 + (t - 214 - 28)) (by omega) with
      ⟨hbB, hbe⟩ | ⟨hbA, hbB, hbe⟩ | ⟨hbA, hbB, hbe⟩ | ⟨hbA, hbB, hbe⟩ | ⟨hbA, hbB, hbe⟩ |
      ⟨hbA, hbB, hbe⟩ | ⟨hbA, hbB, hbe⟩ | ⟨hbA, hbB, hbe⟩ | ⟨hbA, hbB, hbe⟩ | ⟨hbA, hbB, hbe⟩ |
      ⟨hbA, hbB, hbe⟩ | ⟨hbA, hbB, hbe⟩ | ⟨hbA, hbB, hbe⟩ | ⟨hbA, hbe⟩ <;>
      · rw [hbe]
        simp only [Prod.mk.injEq]
        refine ⟨by omega, by omega, by omega⟩
  · show to_ethiopian (y + 8) 6 (t - 245 - 28) = Except.ok (y, m, d)
    have hvg : validate_gregorian_date (y + 8) 6 (t - 245 - 28) = none :=
      (validate_greg_none_iff (y + 8) 6 (t - 245 - 28)).mpr
        ⟨by omega, by omega, by omega, by omega, by rintro ⟨-, hx, -⟩; exact absurd hx (by norm_num), by norm_num [gdim]; omega⟩
    rw [bwd_char (y + 8) 6 (t - 245 - 28) (by omega) (by omega) hvg]
    simp only [Except.ok.injEq]
    simp only [bwdF]
    have hTah : gregToEth_tahissas (y + 8) 6 (t - 245 - 28) = start_day_of_ethiopian (y + 8 - 8) - 3 := by
      unfold gregToEth_tahissas
      rw [if_neg (by intro hcon; omega), if_neg (by intro hcon; omega)]
    rw [hTah]
    have hEa : ¬((y + 8 - 8 - 1) % 4 = 3) := by omega
    rw [if_neg hEa]
    have hsd : start_day_of_ethiopian (y + 8 - 8) = (y + 8 - 8) / 100 - (y + 8 - 8) / 400 - 4 := by
      unfold start_day_of_ethiopian
      rw [if_neg hEa]
    have hu2 : gregToEth_until (y + 8) 6 (t - 245 - 28) = 151 + (t - 245 - 28) := by
      unfold gregToEth_until
      rw [show gregToEth_gm (y + 8) = [0, 31, 28, 31, 30, 31, 30, 31, 31, 30, 31, 30, 31] from by
        simp [gregToEth_gm, hF8]]
      norm_num
      try decide
    rw [hu2]
    rcases bwdSlots_cases (y + 8 - 8) (start_day_of_ethiopian (y + 8 - 8) - 3) (5 + 0)
        (151 + (t - 245 - 28)) (by omega) with
      ⟨hbB, hbe⟩ | ⟨hbA, hbB, hbe⟩ | ⟨hbA, hbB, hbe⟩ | ⟨hbA, hbB, hbe⟩ | ⟨hbA, hbB, hbe⟩ |
      ⟨hbA, hbB, hbe⟩ | ⟨hbA, hbB, hbe⟩ | ⟨hbA, hbB, hbe⟩ | ⟨hbA, hbB, hbe⟩ | ⟨hbA, hbB, hbe⟩ |
      ⟨hbA, hbB, hbe⟩ | ⟨hbA, hbB, hbe⟩ | ⟨hbA, hbB, hbe⟩ | ⟨hbA, hbe⟩ <;>
      · rw [hbe]
        simp only [Prod.mk.injEq]
        refine ⟨by omega, by omega, by omega⟩
  · show to_ethiopian (y + 8) 7 (t - 275 - 28) = Except.ok (y, m, d)
    have hvg : validate_gregorian_date (y + 8) 7 (t - 275 - 28) = none :=
      (validate_greg_none_iff (y + 8) 7 (t - 275 - 28)).mpr
        ⟨by omega, by omega, by omega, by omega, by rintro ⟨-, hx, -⟩; exact absurd hx (by norm_num), by norm_num [gdim]; omega⟩
    rw [bwd_char (y + 8) 7 (t - 275 - 28) (by omega) (by omega) hvg]
    simp only [Except.ok.injEq]
    simp only [bwdF]
    have hTah : gregToEth_tahissas (y + 8) 7 (t - 275 - 28) = start_day_of_ethiopian (y + 8 - 8) - 3 := by
      unfold gregToEth_tahissas
      rw [if_neg (by intro hcon; omega), if_neg (by intro hcon; omega)]
    rw [hTah]
    have hEa : ¬((y + 8 - 8 - 1) % 4 = 3) := by omega
    rw [if_neg hEa]
    have hsd : start_day_of_ethiopian (y + 8 - 8) = (y + 8 - 8) / 100 - (y + 8 - 8) / 400 - 4 := by
      unfold start_day_of_ethiopian
      rw [if_neg hEa]
    have hu2 : gregToEth_until (y + 8) 7 (t - 275 - 28) = 181 + (t - 275 - 28) := by
      unfold gregToEth_until
      rw [show gregToEth_gm (y + 8) = [0, 31, 28, 31, 30, 31, 30, 31, 31, 30, 31, 30, 31] from by
        simp [gregToEth_gm, hF8]]
      norm_num
      try decide
    rw [hu2]
    rcases bwdSlots_cases (y + 8 - 8) (start_day_of_ethiopian (y + 8 - 8) - 3) (5 + 0)
        (181 + (t - 275 - 28)) (by omega) with
      ⟨hbB, hbe⟩ | ⟨hbA, hbB, hbe⟩ | ⟨hbA, hbB, hbe⟩ | ⟨hbA, hbB, hbe⟩ | ⟨hbA, hbB, hbe⟩ |
      ⟨hbA, hbB, hbe⟩ | ⟨hbA, hbB, hbe⟩ | ⟨hbA, hbB, hbe⟩ | ⟨hbA, hbB, hbe⟩ | ⟨hbA, hbB, hbe⟩ |
      ⟨hbA, hbB, hbe⟩ | ⟨hbA, hbB, hbe⟩ | ⟨hbA, hbB, hbe⟩ | ⟨hbA, hbe⟩ <;>
      · rw [hbe]
        simp only [Prod.mk.injEq]
        refine ⟨by omega, by omega, by omega⟩
  · show to_ethiopian (y + 8) 8 (t - 306 - 28) = Except.ok (y, m, d)
    have hvg : validate_gregorian_date (y + 8) 8 (t - 306 - 28) = none :=
      (validate_greg_none_iff (y + 8) 8 (t - 306 - 28)).mpr
        ⟨by omega, by omega, by omega, by omega, by rintro ⟨-, hx, -⟩; exact absurd hx (by norm_num), by norm_num [gdim]; omega⟩
    rw [bwd_char (y + 8) 8 (t - 306 - 28) (by omega) (by omega) hvg]
    simp only [Except.ok.injEq]
    simp only [bwdF]
    have hTah : gregToEth_tahissas (y + 8) 8 (t - 306 - 28) = start_day_of_ethiopian (y + 8 - 8) - 3 := by
      unfold gregToEth_tahissas
      rw [if_neg (by intro hcon; omega), if_neg (by intro hcon; omega)]
    rw [hTah]
    have hEa : ¬((y + 8 - 8 - 1) % 4 = 3) := by omega
    rw [if_neg hEa]
    have hsd : start_day_of_ethiopian (y + 8 - 8) = (y + 8 - 8) / 100 - (y + 8 - 8) / 400 - 4 := by
      unfold start_day_of_ethiopian
      rw [if_neg hEa]
    have hu2 : gregToEth_until (y + 8) 8 (t - 306 - 28) = 212 + (t - 306 - 28) := by
      unfold gregToEth_until
      rw [show gregToEth_gm (y + 8) = [0, 31, 28, 31, 30, 31, 30, 31, 31, 30, 31, 30, 31] from by
        simp [gregToEth_gm, hF8]]
      norm_num
      try decide
    rw [hu2]
    rcases bwdSlots_cases (y + 8 - 8) (start_day_of_ethiopian (y + 8 - 8) - 3) (5 + 0)
        (212 + (t - 306 - 28)) (by omega) with
      ⟨hbB, hbe⟩ | ⟨hbA, hbB, hbe⟩ | ⟨hbA, hbB, hbe⟩ | ⟨hbA, hbB, hbe⟩ | ⟨hbA, hbB, hbe⟩ |
      ⟨hbA, hbB, hbe⟩ | ⟨hbA, hbB, hbe⟩ | ⟨hbA, hbB, hbe⟩ | ⟨hbA, hbB, hbe⟩ | ⟨hbA, hbB, hbe⟩ |
      ⟨hbA, hbB, hbe⟩ | ⟨hbA, hbB, hbe⟩ | ⟨hbA, hbB, hbe⟩ | ⟨hbA, hbe⟩ <;>
      · rw [hbe]
        simp only [Prod.mk.injEq]
        refine ⟨by omega, by omega, by omega⟩
  · show to_ethiopian (y + 8) 9 (t - 337 - 28) = Except.ok (y, m, d)
    have hvg : validate_gregorian_date (y + 8) 9 (t - 337 - 28) = none :=
      (validate_greg_none_iff (y + 8) 9 (t - 337 - 28)).mpr
        ⟨by omega, by omega, by omega, by omega, by rintro ⟨-, hx, -⟩; exact absurd hx (by norm_num), by norm_num [gdim]; omega⟩
    rw [bwd_char (y + 8) 9 (t - 337 - 28) (by omega) (by omega) hvg]
    simp only [Except.ok.injEq]
    simp only [bwdF]
    have hTah : gregToEth_tahissas (y + 8) 9 (t - 337 - 28) = start_day_of_ethiopian (y + 8 - 8) - 3 := by
      unfold gregToEth_tahissas
      rw [if_neg (by intro hcon; omega), if_neg (by intro hcon; omega)]
    rw [hTah]
    have hEa : ¬((y + 8 - 8 - 1) % 4 = 3) := by omega
    rw [if_neg hEa]
    have hsd : start_day_of_ethiopian (y + 8 - 8) = (y + 8 - 8) / 100 - (y + 8 - 8) / 400 - 4 := by
      unfold start_day_of_ethiopian
      rw [if_neg hEa]
    have hu2 : gregToEth_until (y + 8) 9 (t - 337 - 28) = 243 + (t - 337 - 28) := by
      unfold gregToEth_until
      rw [show gregToEth_gm (y + 8) = [0, 31, 28, 31, 30, 31, 30, 31, 31, 30, 31, 30, 31] from by
        simp [gregToEth_gm, hF8]]
      norm_num
      try decide
    rw [hu2]
    rcases bwdSlots_cases (y + 8 - 8) (start_day_of_ethiopian (y + 8 - 8) - 3) (5 + 0)
        (243 + (t - 337 - 28)) (by omega) with
      ⟨hbB, hbe⟩ | ⟨hbA, hbB, hbe⟩ | ⟨hbA, hbB, hbe⟩ | ⟨hbA, hbB, hbe⟩ | ⟨hbA, hbB, hbe⟩ |
      ⟨hbA, hbB, hbe⟩ | ⟨hbA, hbB, hbe⟩ | ⟨hbA, hbB, hbe⟩ | ⟨hbA, hbB, hbe⟩ | ⟨hbA, hbB, hbe⟩ |
      ⟨hbA, hbB, hbe⟩ | ⟨hbA, hbB, hbe⟩ | ⟨hbA, hbB, hbe⟩ | ⟨hbA, hbe⟩ <;>
      · rw [hbe]
        simp only [Prod.mk.injEq]
        refine ⟨by omega, by omega, by omega⟩

theorem until_cases_dim (y m d : Int) (hm1 : 1 ≤ m) (hm12 : m ≤ 12)
    (hdim : d ≤ gdim y m) (hG : is_gregorian_leap_year y = false) :
    (m = 1 ∧ gregToEth_until y m d = d ∧ d ≤ 31) ∨
      (m = 2 ∧ gregToEth_until y m d = 31 + d ∧ d ≤ 28) ∨
      (m = 3 ∧ gregToEth_until y m d = 59 + d ∧ d ≤ 31) ∨
      (m = 4 ∧ gregToEth_until y m d = 90 + d ∧ d ≤ 30) ∨
      (m = 5 ∧ gregToEth_until y m d = 120 + d ∧ d ≤ 31) ∨
      (m = 6 ∧ gregToEth_until y m d = 151 + d ∧ d ≤ 30) ∨
      (m = 7 ∧ gregToEth_until y m d = 181 + d ∧ d ≤ 31) ∨
      (m = 8 ∧ gregToEth_until y m d = 212 + d ∧ d ≤ 31) ∨
      (m = 9 ∧ gregToEth_until y m d = 243 + d ∧ d ≤ 30) ∨
      (m = 10 ∧ gregToEth_until y m d = 273 + d ∧ d ≤ 31) ∨
      (m = 11 ∧ gregToEth_until y m d = 304 + d ∧ d ≤ 30) ∨
      (m = 12 ∧ gregToEth_until y m d = 334 + d ∧ d ≤ 31) := by
  rcases until_cases y m d hm1 hm12 hG with
    ⟨hm, hu⟩ | ⟨hm, hu⟩ | ⟨hm, hu⟩ | ⟨hm, hu⟩ | ⟨hm, hu⟩ | ⟨hm, hu⟩ | ⟨hm, hu⟩ | ⟨hm, hu⟩ | ⟨hm, hu⟩ | ⟨hm, hu⟩ | ⟨hm, hu⟩ | ⟨hm, hu⟩ <;>
    rw [hm] at hdim
  · exact Or.inl ⟨hm, hu, by simpa [gdim] using hdim⟩
  · exact (Or.inr (Or.inl ⟨hm, hu, by simpa [gdim, hG] using hdim⟩))
  · exact (Or.inr (Or.inr (Or.inl ⟨hm, hu, by simpa [gdim] using hdim⟩)))
  · exact (Or.inr (Or.inr (Or.inr (Or.inl ⟨hm, hu, by simpa [gdim] using hdim⟩))))
  · exact (Or.inr (Or.inr (Or.inr (Or.inr (Or.inl ⟨hm, hu, by simpa [gdim] using hdim⟩)))))
  · exact (Or.inr (Or.inr (Or.inr (Or.inr (Or.inr (Or.inl ⟨hm, hu, by simpa [gdim] using hdim⟩))))))
  · exact (Or.inr (Or.inr (Or.inr (Or.inr (Or.inr (Or.inr (Or.inl ⟨hm, hu, by simpa [gdim] using hdim⟩)))))))
  · exact (Or.inr (Or.inr (Or.inr (Or.inr (Or.inr (Or.inr (Or.inr (Or.inl ⟨hm, hu, by simpa [gdim] using hdim⟩))))))))
  · exact (Or.inr (Or.inr (Or.inr (Or.inr (Or.inr (Or.inr (Or.inr (Or.inr (Or.inl ⟨hm, hu, by simpa [gdim] using hdim⟩)))))))))
  · exact (Or.inr (Or.inr (Or.inr (Or.inr (Or.inr (Or.inr (Or.inr (Or.inr (Or.inr (Or.inl ⟨hm, hu, by simpa [gdim] using hdim⟩))))))))))
  · exact (Or.inr (Or.inr (Or.inr (Or.inr (Or.inr (Or.inr (Or.inr (Or.inr (Or.inr (Or.inr (Or.inl ⟨hm, hu, by simpa [gdim] using hdim⟩)))))))))))
  · exact (Or.inr (Or.inr (Or.inr (Or.inr (Or.inr (Or.inr (Or.inr (Or.inr (Or.inr (Or.inr (Or.inr (⟨hm, hu, by simpa [gdim] using hdim⟩))))))))))))

set_option maxHeartbeats 8000000 in
theorem rt_greg (y m d : Int) (hy1 : 1583 ≤ y) (hy2 : y ≤ 2020)
    (hr : y % 4 = 1 ∨ y % 4 = 2)
    (hv : validate_gregorian_date y m d = none) :
    to_ethiopian y m d = .ok (bwdF y m d) ∧
    to_gregorian (bwdF y m d).1 (bwdF y m d).2.1 (bwdF y m d).2.2 = .ok (y, m, d) := by
  obtain ⟨hy1b, hm1, hm12, hd1, hgap, hdim⟩ := (validate_greg_none_iff y m d).mp hv
  have hFy : is_gregorian_leap_year y = false := by
    have hx : ¬(is_gregorian_leap_year y = true) := by
      rw [greg_leap_iff]
      omega
    simpa using hx
  have hFy1 : is_gregorian_leap_year (y + 1) = false := by
    have hx : ¬(is_gregorian_leap_year (y + 1) = true) := by
      rw [greg_leap_iff]
      omega
    simpa using hx
  have hEa : ¬((y - 8 - 1) % 4 = 3) := by omega
  obtain ⟨hub1, hub2⟩ := until_bounds y m d hm1 hm12 hd1 hdim
  have hub3 : gregToEth_until y m d ≤ 366 := by
    split_ifs at hub2 <;> omega
  have hsd : start_day_of_ethiopian (y - 8) = (y - 8) / 100 - (y - 8) / 400 - 4 := by
    unfold start_day_of_ethiopian
    rw [if_neg hEa]
  refine ⟨bwd_char y m d (by omega) (by omega) hv, ?_⟩
  simp only [bwdF]
  have hTah : gregToEth_tahissas y m d = start_day_of_ethiopian (y - 8) - 3 := by
    unfold gregToEth_tahissas
    rw [if_neg (by intro hcon; omega), if_neg (by intro hcon; omega)]
  rw [hTah, if_neg hEa]
  rcases bwdSlots_cases (y - 8) (start_day_of_ethiopian (y - 8) - 3) (5 + 0)
      (gregToEth_until y m d) (by omega) with
    ⟨hbB, hbe⟩ | ⟨hbA, hbB, hbe⟩ | ⟨hbA, hbB, hbe⟩ | ⟨hbA, hbB, hbe⟩ | ⟨hbA, hbB, hbe⟩ | ⟨hbA, hbB, hbe⟩ | ⟨hbA, hbB, hbe⟩ | ⟨hbA, hbB, hbe⟩ | ⟨hbA, hbB, hbe⟩ | ⟨hbA, hbB, hbe⟩ | ⟨hbA, hbB, hbe⟩ | ⟨hbA, hbB, hbe⟩ | ⟨hbA, hbB, hbe⟩ | ⟨hbA, hbe⟩ <;>
    rw [hbe]
  · show to_gregorian (y - 8) 4 (gregToEth_until y m d + (30 - (start_day_of_ethiopian (y - 8) - 3))) = Except.ok (y, m, d)
    have hve : validate_ethiopian_date (y - 8) 4 (gregToEth_until y m d + (30 - (start_day_of_ethiopian (y - 8) - 3))) = none :=
      (validate_eth_none_iff (y - 8) 4 (gregToEth_until y m d + (30 - (start_day_of_ethiopian (y - 8) - 3)))).mpr
        ⟨by omega, by norm_num, by norm_num, by omega, fun _ => by omega,
         fun hx => absurd hx (by norm_num)⟩
    rw [fwd_char (y - 8) 4 (gregToEth_until y m d + (30 - (start_day_of_ethiopian (y - 8) - 3))) (by omega) hve]
    simp only [Except.ok.injEq]
    rw [fwdF_modern (y - 8) 4 (gregToEth_until y m d + (30 - (start_day_of_ethiopian (y - 8) - 3))) (by omega) (by omega)
      (by rw [show y - 8 + 7 + 1 = y from by ring]; exact hFy)]
    rw [fwdSlots_k4 (y - 8) ((4 - 1) * 30 + (gregToEth_until y m d + (30 - (start_day_of_ethiopian (y - 8) - 3))) + ((y - 8) / 100 - (y - 8) / 400) - 5 + 2 * 0) 28 (by omega) (by omega)]
    simp only [Prod.mk.injEq]
    rcases until_cases_dim y m d hm1 hm12 hdim hFy with
      ⟨hm, hu, hdm⟩ | ⟨hm, hu, hdm⟩ | ⟨hm, hu, hdm⟩ | ⟨hm, hu, hdm⟩ | ⟨hm, hu, hdm⟩ | ⟨hm, hu, hdm⟩ | ⟨hm, hu, hdm⟩ | ⟨hm, hu, hdm⟩ | ⟨hm, hu, hdm⟩ | ⟨hm, hu, hdm⟩ | ⟨hm, hu, hdm⟩ | ⟨hm, hu, hdm⟩ <;>
      omega
  · show to_gregorian (y - 8) 5 (gregToEth_until y m d - (start_day_of_ethiopian (y - 8) - 3)) = Except.ok (y, m, d)
    have hve : validate_ethiopian_date (y - 8) 5 (gregToEth_until y m d - (start_day_of_ethiopian (y - 8) - 3)) = none :=
      (validate_eth_none_iff (y - 8) 5 (gregToEth_until y m d - (start_day_of_ethiopian (y - 8) - 3))).mpr
        ⟨by omega, by norm_num, by norm_num, by omega, fun _ => by omega,
         fun hx => absurd hx (by norm_num)⟩
    rw [fwd_char (y - 8) 5 (gregToEth_until y m d - (start_day_of_ethiopian (y - 8) - 3)) (by omega) hve]
    simp only [Except.ok.injEq]
    rw [fwdF_modern (y - 8) 5 (gregToEth_until y m d - (start_day_of_ethiopian (y - 8) - 3)) (by omega) (by omega)
      (by rw [show y - 8 + 7 + 1 = y from by ring]; exact hFy)]
    by_cases hsp : gregToEth_until y m d ≤ 31
    · rw [fwdSlots_k4 (y - 8) ((5 - 1) * 30 + (gregToEth_until y m d - (start_day_of_ethiopian (y - 8) - 3)) + ((y - 8) / 100 - (y - 8) / 400) - 5 + 2 * 0) 28 (by omega) (by omega)]
      simp only [Prod.mk.injEq]
      rcases until_cases_dim y m d hm1 hm12 hdim hFy with
        ⟨hm, hu, hdm⟩ | ⟨hm, hu, hdm⟩ | ⟨hm, hu, hdm⟩ | ⟨hm, hu, hdm⟩ | ⟨hm, hu, hdm⟩ | ⟨hm, hu, hdm⟩ | ⟨hm, hu, hdm⟩ | ⟨hm, hu, hdm⟩ | ⟨hm, hu, hdm⟩ | ⟨hm, hu, hdm⟩ | ⟨hm, hu, hdm⟩ | ⟨hm, hu, hdm⟩ <;>
        omega
    · rw [fwdSlots_k5 (y - 8) ((5 - 1) * 30 + (gregToEth_until y m d - (start_day_of_ethiopian (y - 8) - 3)) + ((y - 8) / 100 - (y - 8) / 400) - 5 + 2 * 0) 28 (by omega) (by omega)]
      simp only [Prod.mk.injEq]
      rcases until_cases_dim y m d hm1 hm12 hdim hFy with
        ⟨hm, hu, hdm⟩ | ⟨hm, hu, hdm⟩ | ⟨hm, hu, hdm⟩ | ⟨hm, hu, hdm⟩ | ⟨hm, hu, hdm⟩ | ⟨hm, hu, hdm⟩ | ⟨hm, hu, hdm⟩ | ⟨hm, hu, hdm⟩ | ⟨hm, hu, hdm⟩ | ⟨hm, hu, hdm⟩ | ⟨hm, hu, hdm⟩ | ⟨hm, hu, hdm⟩ <;>
        omega
  · show to_gregorian (y - 8) 6 (gregToEth_until y m d - ((start_day_of_ethiopian (y - 8) - 3) + 30)) = Except.ok (y, m, d)
    have hve : validate_ethiopian_date (y - 8) 6 (gregToEth_until y m d - ((start_day_of_ethiopian (y - 8) - 3) + 30)) = none :=
      (validate_eth_none_iff (y - 8) 6 (gregToEth_until y m d - ((start_day_of_ethiopian (y - 8) - 3) + 30))).mpr
        ⟨by omega, by norm_num, by norm_num, by omega, fun _ => by omega,
         fun hx => absurd hx (by norm_num)⟩
    rw [fwd_char (y - 8) 6 (gregToEth_until y m d - ((start_day_of_ethiopian (y - 8) - 3) + 30)) (by omega) hve]
    simp only [Except.ok.injEq]
    rw [fwdF_modern (y - 8) 6 (gregToEth_until y m d - ((start_day_of_ethiopian (y - 8) - 3) + 30)) (by omega) (by omega)
      (by rw [show y - 8 + 7 + 1 = y from by ring]; exact hFy)]
    by_cases hsp : gregToEth_until y m d ≤ 59
    · rw [fwdSlots_k5 (y - 8) ((6 - 1) * 30 + (gregToEth_until y m d - ((start_day_of_ethiopian (y - 8) - 3) + 30)) + ((y - 8) / 100 - (y - 8) / 400) - 5 + 2 * 0) 28 (by omega) (by omega)]
      simp only [Prod.mk.injEq]
      rcases until_cases_dim y m d hm1 hm12 hdim hFy with
        ⟨hm, hu, hdm⟩ | ⟨hm, hu, hdm⟩ | ⟨hm, hu, hdm⟩ | ⟨hm, hu, hdm⟩ | ⟨hm, hu, hdm⟩ | ⟨hm, hu, hdm⟩ | ⟨hm, hu, hdm⟩ | ⟨hm, hu, hdm⟩ | ⟨hm, hu, hdm⟩ | ⟨hm, hu, hdm⟩ | ⟨hm, hu, hdm⟩ | ⟨hm, hu, hdm⟩ <;>
        omega
    · rw [fwdSlots_k6 (y - 8) ((6 - 1) * 30 + (gregToEth_until y m d - ((start_day_of_ethiopian (y - 8) - 3) + 30)) + ((y - 8) / 100 - (y - 8) / 400) - 5 + 2 * 0) 28 (by omega) (by omega) (by omega)]
      simp only [Prod.mk.injEq]
      rcases until_cases_dim y m d hm1 hm12 hdim hFy with
        ⟨hm, hu, hdm⟩ | ⟨hm, hu, hdm⟩ | ⟨hm, hu, hdm⟩ | ⟨hm, hu, hdm⟩ | ⟨hm, hu, hdm⟩ | ⟨hm, hu, hdm⟩ | ⟨hm, hu, hdm⟩ | ⟨hm, hu, hdm⟩ | ⟨hm, hu, hdm⟩ | ⟨hm, hu, hdm⟩ | ⟨hm, hu, hdm⟩ | ⟨hm, hu, hdm⟩ <;>
        omega
  · show to_gregorian (y - 8) 7 (gregToEth_until y m d - ((start_day_of_ethiopian (y - 8) - 3) + 60)) = Except.ok (y, m, d)
    have hve : validate_ethiopian_date (y - 8) 7 (gregToEth_until y m d - ((start_day_of_ethiopian (y - 8) - 3) + 60)) = none :=
      (validate_eth_none_iff (y - 8) 7 (gregToEth_until y m d - ((start_day_of_ethiopian (y - 8) - 3) + 60))).mpr
        ⟨by omega, by norm_num, by norm_num, by omega, fun _ => by omega,
         fun hx => absurd hx (by norm_num)⟩
    rw [fwd_char (y - 8) 7 (gregToEth_until y m d - ((start_day_of_ethiopian (y - 8) - 3) + 60)) (by omega) hve]
    simp only [Except.ok.injEq]
    rw [fwdF_modern (y - 8) 7 (gregToEth_until y m d - ((start_day_of_ethiopian (y - 8) - 3) + 60)) (by omega) (by omega)
      (by rw [show y - 8 + 7 + 1 = y from by ring]; exact hFy)]
    by_cases hsp : gregToEth_until y m d ≤ 90
    · rw [fwdSlots_k6 (y - 8) ((7 - 1) * 30 + (gregToEth_until y m d - ((start_day_of_ethiopian (y - 8) - 3) + 60)) + ((y - 8) / 100 - (y - 8) / 400) - 5 + 2 * 0) 28 (by omega) (by omega) (by omega)]
      simp only [Prod.mk.injEq]
      rcases until_cases_dim y m d hm1 hm12 hdim hFy with
        ⟨hm, hu, hdm⟩ | ⟨hm, hu, hdm⟩ | ⟨hm, hu, hdm⟩ | ⟨hm, hu, hdm⟩ | ⟨hm, hu, hdm⟩ | ⟨hm, hu, hdm⟩ | ⟨hm, hu, hdm⟩ | ⟨hm, hu, hdm⟩ | ⟨hm, hu, hdm⟩ | ⟨hm, hu, hdm⟩ | ⟨hm, hu, hdm⟩ | ⟨hm, hu, hdm⟩ <;>
        omega
    · rw [fwdSlots_k7 (y - 8) ((7 - 1) * 30 + (gregToEth_until y m d - ((start_day_of_ethiopian (y - 8) - 3) + 60)) + ((y - 8) / 100 - (y - 8) / 400) - 5 + 2 * 0) 28 (by omega) (by omega) (by omega)]
      simp only [Prod.mk.injEq]
      rcases until_cases_dim y m d hm1 hm12 hdim hFy with
        ⟨hm, hu, hdm⟩ | ⟨hm, hu, hdm⟩ | ⟨hm, hu, hdm⟩ | ⟨hm, hu, hdm⟩ | ⟨hm, hu, hdm⟩ | ⟨hm, hu, hdm⟩ | ⟨hm, hu, hdm⟩ | ⟨hm, hu, hdm⟩ | ⟨hm, hu, hdm⟩ | ⟨hm, hu, hdm⟩ | ⟨hm, hu, hdm⟩ | ⟨hm, hu, hdm⟩ <;>
        omega
  · show to_gregorian (y - 8) 8 (gregToEth_until y m d - ((start_day_of_ethiopian (y - 8) - 3) + 90)) = Except.ok (y, m, d)
    have hve : validate_ethiopian_date (y - 8) 8 (gregToEth_until y m d - ((start_day_of_ethiopian (y - 8) - 3) + 90)) = none :=
      (validate_eth_none_iff (y - 8) 8 (gregToEth_until y m d - ((start_day_of_ethiopian (y - 8) - 3) + 90))).mpr
        ⟨by omega, by norm_num, by norm_num, by omega, fun _ => by omega,
         fun hx => absurd hx (by norm_num)⟩
    rw [fwd_char (y - 8) 8 (gregToEth_until y m d - ((start_day_of_ethiopian (y - 8) - 3) + 90)) (by omega) hve]
    simp only [Except.ok.injEq]
    rw [fwdF_modern (y - 8) 8 (gregToEth_until y m d - ((start_day_of_ethiopian (y - 8) - 3) + 90)) (by omega) (by omega)
      (by rw [show y - 8 + 7 + 1 = y from by ring]; exact hFy)]
    by_cases hsp : gregToEth_until y m d ≤ 120
    · rw [fwdSlots_k7 (y - 8) ((8 - 1) * 30 + (gregToEth_until y m d - ((start_day_of_ethiopian (y - 8) - 3) + 90)) + ((y - 8) / 100 - (y - 8) / 400) - 5 + 2 * 0) 28 (by omega) (by omega) (by omega)]
      simp only [Prod.mk.injEq]
      rcases until_cases_dim y m d hm1 hm12 hdim hFy with
        ⟨hm, hu, hdm⟩ | ⟨hm, hu, hdm⟩ | ⟨hm, hu, hdm⟩ | ⟨hm, hu, hdm⟩ | ⟨hm, hu, hdm⟩ | ⟨hm, hu, hdm⟩ | ⟨hm, hu, hdm⟩ | ⟨hm, hu, hdm⟩ | ⟨hm, hu, hdm⟩ | ⟨hm, hu, hdm⟩ | ⟨hm, hu, hdm⟩ | ⟨hm, hu, hdm⟩ <;>
        omega
    · rw [fwdSlots_k8 (y - 8) ((8 - 1) * 30 + (gregToEth_until y m d - ((start_day_of_ethiopian (y - 8) - 3) + 90)) + ((y - 8) / 100 - (y - 8) / 400) - 5 + 2 * 0) 28 (by omega) (by omega) (by omega)]
      simp only [Prod.mk.injEq]
      rcases until_cases_dim y m d hm1 hm12 hdim hFy with
        ⟨hm, hu, hdm⟩ | ⟨hm, hu, hdm⟩ | ⟨hm, hu, hdm⟩ | ⟨hm, hu, hdm⟩ | ⟨hm, hu, hdm⟩ | ⟨hm, hu, hdm⟩ | ⟨hm, hu, hdm⟩ | ⟨hm, hu, hdm⟩ | ⟨hm, hu, hdm⟩ | ⟨hm, hu, hdm⟩ | ⟨hm, hu, hdm⟩ | ⟨hm, hu, hdm⟩ <;>
        omega
  · show to_gregorian (y - 8) 9 (gregToEth_until y m d - ((start_day_of_ethiopian (y - 8) - 3) + 120)) = Except.ok (y, m, d)
    have hve : validate_ethiopian_date (y - 8) 9 (gregToEth_until y m d - ((start_day_of_ethiopian (y - 8) - 3) + 120)) = none :=
      (validate_eth_none_iff (y - 8) 9 (gregToEth_until y m d - ((start_day_of_ethiopian (y - 8) - 3) + 120))).mpr
        ⟨by omega, by norm_num, by norm_num, by omega, fun _ => by omega,
         fun hx => absurd hx (by norm_num)⟩
    rw [fwd_char (y - 8) 9 (gregToEth_until y m d - ((start_day_of_ethiopian (y - 8) - 3) + 120)) (by omega) hve]
    simp only [Except.ok.injEq]
    rw [fwdF_modern (y - 8) 9 (gregToEth_until y m d - ((start_day_of_ethiopian (y - 8) - 3) + 120)) (by omega) (by omega)
      (by rw [show y - 8 + 7 + 1 = y from by ring]; exact hFy)]
    by_cases hsp : gregToEth_until y m d ≤ 151
    · rw [fwdSlots_k8 (y - 8) ((9 - 1) * 30 + (gregToEth_until y m d - ((start_day_of_ethiopian (y - 8) - 3) + 120)) + ((y - 8) / 100 - (y - 8) / 400) - 5 + 2 * 0) 28 (by omega) (by omega) (by omega)]
      simp only [Prod.mk.injEq]
      rcases until_cases_dim y m d hm1 hm12 hdim hFy with
        ⟨hm, hu, hdm⟩ | ⟨hm, hu, hdm⟩ | ⟨hm, hu, hdm⟩ | ⟨hm, hu, hdm⟩ | ⟨hm, hu, hdm⟩ | ⟨hm, hu, hdm⟩ | ⟨hm, hu, hdm⟩ | ⟨hm, hu, hdm⟩ | ⟨hm, hu, hdm⟩ | ⟨hm, hu, hdm⟩ | ⟨hm, hu, hdm⟩ | ⟨hm, hu, hdm⟩ <;>
        omega
    · rw [fwdSlots_k9 (y - 8) ((9 - 1) * 30 + (gregToEth_until y m d - ((start_day_of_ethiopian (y - 8) - 3) + 120)) + ((y - 8) / 100 - (y - 8) / 400) - 5 + 2 * 0) 28 (by omega) (by omega) (by omega)]
      simp only [Prod.mk.injEq]
      rcases until_cases_dim y m d hm1 hm12 hdim hFy with
        ⟨hm, hu, hdm⟩ | ⟨hm, hu, hdm⟩ | ⟨hm, hu, hdm⟩ | ⟨hm, hu, hdm⟩ | ⟨hm, hu, hdm⟩ | ⟨hm, hu, hdm⟩ | ⟨hm, hu, hdm⟩ | ⟨hm, hu, hdm⟩ | ⟨hm, hu, hdm⟩ | ⟨hm, hu, hdm⟩ | ⟨hm, hu, hdm⟩ | ⟨hm, hu, hdm⟩ <;>
        omega
  · show to_gregorian (y - 8) 10 (gregToEth_until y m d - ((start_day_of_ethiopian (y - 8) - 3) + 150)) = Except.ok (y, m, d)
    have hve : validate_ethiopian_date (y - 8) 10 (gregToEth_until y m d - ((start_day_of_ethiopian (y - 8) - 3) + 150)) = none :=
      (validate_eth_none_iff (y - 8) 10 (gregToEth_until y m d - ((start_day_of_ethiopian (y - 8) - 3) + 150))).mpr
        ⟨by omega, by norm_num, by norm_num, by omega, fun _ => by omega,
         fun hx => absurd hx (by norm_num)⟩
    rw [fwd_char (y - 8) 10 (gregToEth_until y m d - ((start_day_of_ethiopian (y - 8) - 3) + 150)) (by omega) hve]
    simp only [Except.ok.injEq]
    rw [fwdF_modern (y - 8) 10 (gregToEth_until y m d - ((start_day_of_ethiopian (y - 8) - 3) + 150)) (by omega) (by omega)
      (by rw [show y - 8 + 7 + 1 = y from by ring]; exact hFy)]
    by_cases hsp : gregToEth_until y m d ≤ 181
    · rw [fwdSlots_k9 (y - 8) ((10 - 1) * 30 + (gregToEth_until y m d - ((start_day_of_ethiopian (y - 8) - 3) + 150)) + ((y - 8) / 100 - (y - 8) / 400) - 5 + 2 * 0) 28 (by omega) (by omega) (by omega)]
      simp only [Prod.mk.injEq]
      rcases until_cases_dim y m d hm1 hm12 hdim hFy with
        ⟨hm, hu, hdm⟩ | ⟨hm, hu, hdm⟩ | ⟨hm, hu, hdm⟩ | ⟨hm, hu, hdm⟩ | ⟨hm, hu, hdm⟩ | ⟨hm, hu, hdm⟩ | ⟨hm, hu, hdm⟩ | ⟨hm, hu, hdm⟩ | ⟨hm, hu, hdm⟩ | ⟨hm, hu, hdm⟩ | ⟨hm, hu, hdm⟩ | ⟨hm, hu, hdm⟩ <;>
        omega
    · rw [fwdSlots_k10 (y - 8) ((10 - 1) * 30 + (gregToEth_until y m d - ((start_day_of_ethiopian (y - 8) - 3) + 150)) + ((y - 8) / 100 - (y - 8) / 400) - 5 + 2 * 0) 28 (by omega) (by omega) (by omega)]
      simp only [Prod.mk.injEq]
      rcases until_cases_dim y m d hm1 hm12 hdim hFy with
        ⟨hm, hu, hdm⟩ | ⟨hm, hu, hdm⟩ | ⟨hm, hu, hdm⟩ | ⟨hm, hu, hdm⟩ | ⟨hm, hu, hdm⟩ | ⟨hm, hu, hdm⟩ | ⟨hm, hu, hdm⟩ | ⟨hm, hu, hdm⟩ | ⟨hm, hu, hdm⟩ | ⟨hm, hu, hdm⟩ | ⟨hm, hu, hdm⟩ | ⟨hm, hu, hdm⟩ <;>
        omega
  · show to_gregorian (y - 8) 11 (gregToEth_until y m d - ((start_day_of_ethiopian (y - 8) - 3) + 180)) = Except.ok (y, m, d)
    have hve : validate_ethiopian_date (y - 8) 11 (gregToEth_until y m d - ((start_day_of_ethiopian (y - 8) - 3) + 180)) = none :=
      (validate_eth_none_iff (y - 8) 11 (gregToEth_until y m d - ((start_day_of_ethiopian (y - 8) - 3) + 180))).mpr
        ⟨by omega, by norm_num, by norm_num, by omega, fun _ => by omega,
         fun hx => absurd hx (by norm_num)⟩
    rw [fwd_char (y - 8) 11 (gregToEth_until y m d - ((start_day_of_ethiopian (y - 8) - 3) + 180)) (by omega) hve]
    simp only [Except.ok.injEq]
    rw [fwdF_modern (y - 8) 11 (gregToEth_until y m d - ((start_day_of_ethiopian (y - 8) - 3) + 180)) (by omega) (by omega)
      (by rw [show y - 8 + 7 + 1 = y from by ring]; exact hFy)]
    by_cases hsp : gregToEth_until y m d ≤ 212
    · rw [fwdSlots_k10 (y - 8) ((11 - 1) * 30 + (gregToEth_until y m d - ((start_day_of_ethiopian (y - 8) - 3) + 180)) + ((y - 8) / 100 - (y - 8) / 400) - 5 + 2 * 0) 28 (by omega) (by omega) (by omega)]
      simp only [Prod.mk.injEq]
      rcases until_cases_dim y m d hm1 hm12 hdim hFy with
        ⟨hm, hu, hdm⟩ | ⟨hm, hu, hdm⟩ | ⟨hm, hu, hdm⟩ | ⟨hm, hu, hdm⟩ | ⟨hm, hu, hdm⟩ | ⟨hm, hu, hdm⟩ | ⟨hm, hu, hdm⟩ | ⟨hm, hu, hdm⟩ | ⟨hm, hu, hdm⟩ | ⟨hm, hu, hdm⟩ | ⟨hm, hu, hdm⟩ | ⟨hm, hu, hdm⟩ <;>
        omega
    · rw [fwdSlots_k11 (y - 8) ((11 - 1) * 30 + (gregToEth_until y m d - ((start_day_of_ethiopian (y - 8) - 3) + 180)) + ((y - 8) / 100 - (y - 8) / 400) - 5 + 2 * 0) 28 (by omega) (by omega) (by omega)]
      simp only [Prod.mk.injEq]
      rcases until_cases_dim y m d hm1 hm12 hdim hFy with
        ⟨hm, hu, hdm⟩ | ⟨hm, hu, hdm⟩ | ⟨hm, hu, hdm⟩ | ⟨hm, hu, hdm⟩ | ⟨hm, hu, hdm⟩ | ⟨hm, hu, hdm⟩ | ⟨hm, hu, hdm⟩ | ⟨hm, hu, hdm⟩ | ⟨hm, hu, hdm⟩ | ⟨hm, hu, hdm⟩ | ⟨hm, hu, hdm⟩ | ⟨hm, hu, hdm⟩ <;>
        omega
  · show to_gregorian (y - 8) 12 (gregToEth_until y m d - ((start_day_of_ethiopian (y - 8) - 3) + 210)) = Except.ok (y, m, d)
    have hve : validate_ethiopian_date (y - 8) 12 (gregToEth_until y m d - ((start_day_of_ethiopian (y - 8) - 3) + 210)) = none :=
      (validate_eth_none_iff (y - 8) 12 (gregToEth_until y m d - ((start_day_of_ethiopian (y - 8) - 3) + 210))).mpr
        ⟨by omega, by norm_num, by norm_num, by omega, fun _ => by omega,
         fun hx => absurd hx (by norm_num)⟩
    rw [fwd_char (y - 8) 12 (gregToEth_until y m d - ((start_day_of_ethiopian (y - 8) - 3) + 210)) (by omega) hve]
    simp only [Except.ok.injEq]
    rw [fwdF_modern (y - 8) 12 (gregToEth_until y m d - ((start_day_of_ethiopian (y - 8) - 3) + 210)) (by omega) (by omega)
      (by rw [show y - 8 + 7 + 1 = y from by ring]; exact hFy)]
    by_cases hsp : gregToEth_until y m d ≤ 243
    · rw [fwdSlots_k11 (y - 8) ((12 - 1) * 30 + (gregToEth_until y m d - ((start_day_of_ethiopian (y - 8) - 3) + 210)) + ((y - 8) / 100 - (y - 8) / 400) - 5 + 2 * 0) 28 (by omega) (by omega) (by omega)]
      simp only [Prod.mk.injEq]
      rcases until_cases_dim y m d hm1 hm12 hdim hFy with
        ⟨hm, hu, hdm⟩ | ⟨hm, hu, hdm⟩ | ⟨hm, hu, hdm⟩ | ⟨hm, hu, hdm⟩ | ⟨hm, hu, hdm⟩ | ⟨hm, hu, hdm⟩ | ⟨hm, hu, hdm⟩ | ⟨hm, hu, hdm⟩ | ⟨hm, hu, hdm⟩ | ⟨hm, hu, hdm⟩ | ⟨hm, hu, hdm⟩ | ⟨hm, hu, hdm⟩ <;>
        omega
    · rw [fwdSlots_k12 (y - 8) ((12 - 1) * 30 + (gregToEth_until y m d - ((start_day_of_ethiopian (y - 8) - 3) + 210)) + ((y - 8) / 100 - (y - 8) / 400) - 5 + 2 * 0) 28 (by omega) (by omega)]
      simp only [Prod.mk.injEq]
      rcases until_cases_dim y m d hm1 hm12 hdim hFy with
        ⟨hm, hu, hdm⟩ | ⟨hm, hu, hdm⟩ | ⟨hm, hu, hdm⟩ | ⟨hm, hu, hdm⟩ | ⟨hm, hu, hdm⟩ | ⟨hm, hu, hdm⟩ | ⟨hm, hu, hdm⟩ | ⟨hm, hu, hdm⟩ | ⟨hm, hu, hdm⟩ | ⟨hm, hu, hdm⟩ | ⟨hm, hu, hdm⟩ | ⟨hm, hu, hdm⟩ <;>
        omega
  · show to_gregorian (y - 8) 13 (gregToEth_until y m d - ((start_day_of_ethiopian (y - 8) - 3) + 240)) = Except.ok (y, m, d)
    have hve : validate_ethiopian_date (y - 8) 13 (gregToEth_until y m d - ((start_day_of_ethiopian (y - 8) - 3) + 240)) = none :=
      (validate_eth_none_iff (y - 8) 13 (gregToEth_until y m d - ((start_day_of_ethiopian (y - 8) - 3) + 240))).mpr
        ⟨by omega, by norm_num, by norm_num, by omega, fun hx => absurd hx (by norm_num),
         fun _ => by rw [if_neg hEa]; omega⟩
    rw [fwd_char (y - 8) 13 (gregToEth_until y m d - ((start_day_of_ethiopian (y - 8) - 3) + 240)) (by omega) hve]
    simp only [Except.ok.injEq]
    rw [fwdF_modern (y - 8) 13 (gregToEth_until y m d - ((start_day_of_ethiopian (y - 8) - 3) + 240)) (by omega) (by omega)
      (by rw [show y - 8 + 7 + 1 = y from by ring]; exact hFy)]
    rw [fwdSlots_k12 (y - 8) ((13 - 1) * 30 + (gregToEth_until y m d - ((start_day_of_ethiopian (y - 8) - 3) + 240)) + ((y - 8) / 100 - (y - 8) / 400) - 5 + 2 * 0) 28 (by omega) (by omega)]
    simp only [Prod.mk.injEq]
    rcases until_cases_dim y m d hm1 hm12 hdim hFy with
      ⟨hm, hu, hdm⟩ | ⟨hm, hu, hdm⟩ | ⟨hm, hu, hdm⟩ | ⟨hm, hu, hdm⟩ | ⟨hm, hu, hdm⟩ | ⟨hm, hu, hdm⟩ | ⟨hm, hu, hdm⟩ | ⟨hm, hu, hdm⟩ | ⟨hm, hu, hdm⟩ | ⟨hm, hu, hdm⟩ | ⟨hm, hu, hdm⟩ | ⟨hm, hu, hdm⟩ <;>
      omega
  · show to_gregorian (y - 8 + 1) 1 (gregToEth_until y m d - ((start_day_of_ethiopian (y - 8) - 3) + 240 + (5 + 0))) = Except.ok (y, m, d)
    have hve : validate_ethiopian_date (y - 8 + 1) 1 (gregToEth_until y m d - ((start_day_of_ethiopian (y - 8) - 3) + 240 + (5 + 0))) = none :=
      (validate_eth_none_iff (y - 8 + 1) 1 (gregToEth_until y m d - ((start_day_of_ethiopian (y - 8) - 3) + 240 + (5 + 0)))).mpr
        ⟨by omega, by norm_num, by norm_num, by omega, fun _ => by omega,
         fun hx => absurd hx (by norm_num)⟩
    rw [fwd_char (y - 8 + 1) 1 (gregToEth_until y m d - ((start_day_of_ethiopian (y - 8) - 3) + 240 + (5 + 0))) (by omega) hve]
    simp only [Except.ok.injEq]
    rw [fwdF_modern (y - 8 + 1) 1 (gregToEth_until y m d - ((start_day_of_ethiopian (y - 8) - 3) + 240 + (5 + 0))) (by omega) (by omega)
      (by rw [show y - 8 + 1 + 7 + 1 = y + 1 from by ring]; exact hFy1)]
    by_cases hsp : gregToEth_until y m d ≤ 273
    · rw [fwdSlots_k0 (y - 8 + 1) ((1 - 1) * 30 + (gregToEth_until y m d - ((start_day_of_ethiopian (y - 8) - 3) + 240 + (5 + 0))) + ((y - 8 + 1) / 100 - (y - 8 + 1) / 400) - 5 + 2 * 0) 28 (by omega)]
      simp only [Prod.mk.injEq]
      rcases until_cases_dim y m d hm1 hm12 hdim hFy with
        ⟨hm, hu, hdm⟩ | ⟨hm, hu, hdm⟩ | ⟨hm, hu, hdm⟩ | ⟨hm, hu, hdm⟩ | ⟨hm, hu, hdm⟩ | ⟨hm, hu, hdm⟩ | ⟨hm, hu, hdm⟩ | ⟨hm, hu, hdm⟩ | ⟨hm, hu, hdm⟩ | ⟨hm, hu, hdm⟩ | ⟨hm, hu, hdm⟩ | ⟨hm, hu, hdm⟩ <;>
        omega
    · rw [fwdSlots_k1 (y - 8 + 1) ((1 - 1) * 30 + (gregToEth_until y m d - ((start_day_of_ethiopian (y - 8) - 3) + 240 + (5 + 0))) + ((y - 8 + 1) / 100 - (y - 8 + 1) / 400) - 5 + 2 * 0) 28 (by omega) (by omega)]
      simp only [Prod.mk.injEq]
      rcases until_cases_dim y m d hm1 hm12 hdim hFy with
        ⟨hm, hu, hdm⟩ | ⟨hm, hu, hdm⟩ | ⟨hm, hu, hdm⟩ | ⟨hm, hu, hdm⟩ | ⟨hm, hu, hdm⟩ | ⟨hm, hu, hdm⟩ | ⟨hm, hu, hdm⟩ | ⟨hm, hu, hdm⟩ | ⟨hm, hu, hdm⟩ | ⟨hm, hu, hdm⟩ | ⟨hm, hu, hdm⟩ | ⟨hm, hu, hdm⟩ <;>
        omega
  · show to_gregorian (y - 8 + 1) 2 (gregToEth_until y m d - ((start_day_of_ethiopian (y - 8) - 3) + 270 + (5 + 0))) = Except.ok (y, m, d)
    have hve : validate_ethiopian_date (y - 8 + 1) 2 (gregToEth_until y m d - ((start_day_of_ethiopian (y - 8) - 3) + 270 + (5 + 0))) = none :=
      (validate_eth_none_iff (y - 8 + 1) 2 (gregToEth_until y m d - ((start_day_of_ethiopian (y - 8) - 3) + 270 + (5 + 0)))).mpr
        ⟨by omega, by norm_num, by norm_num, by omega, fun _ => by omega,
         fun hx => absurd hx (by norm_num)⟩
    rw [fwd_char (y - 8 + 1) 2 (gregToEth_until y m d - ((start_day_of_ethiopian (y - 8) - 3) + 270 + (5 + 0))) (by omega) hve]
    simp only [Except.ok.injEq]
    rw [fwdF_modern (y - 8 + 1) 2 (gregToEth_until y m d - ((start_day_of_ethiopian (y - 8) - 3) + 270 + (5 + 0))) (by omega) (by omega)
      (by rw [show y - 8 + 1 + 7 + 1 = y + 1 from by ring]; exact hFy1)]
    by_cases hsp : gregToEth_until y m d ≤ 304
    · rw [fwdSlots_k1 (y - 8 + 1) ((2 - 1) * 30 + (gregToEth_until y m d - ((start_day_of_ethiopian (y - 8) - 3) + 270 + (5 + 0))) + ((y - 8 + 1) / 100 - (y - 8 + 1) / 400) - 5 + 2 * 0) 28 (by omega) (by omega)]
      simp only [Prod.mk.injEq]
      rcases until_cases_dim y m d hm1 hm12 hdim hFy with
        ⟨hm, hu, hdm⟩ | ⟨hm, hu, hdm⟩ | ⟨hm, hu, hdm⟩ | ⟨hm, hu, hdm⟩ | ⟨hm, hu, hdm⟩ | ⟨hm, hu, hdm⟩ | ⟨hm, hu, hdm⟩ | ⟨hm, hu, hdm⟩ | ⟨hm, hu, hdm⟩ | ⟨hm, hu, hdm⟩ | ⟨hm, hu, hdm⟩ | ⟨hm, hu, hdm⟩ <;>
        omega
    · rw [fwdSlots_k2 (y - 8 + 1) ((2 - 1) * 30 + (gregToEth_until y m d - ((start_day_of_ethiopian (y - 8) - 3) + 270 + (5 + 0))) + ((y - 8 + 1) / 100 - (y - 8 + 1) / 400) - 5 + 2 * 0) 28 (by omega) (by omega)]
      simp only [Prod.mk.injEq]
      rcases until_cases_dim y m d hm1 hm12 hdim hFy with
        ⟨hm, hu, hdm⟩ | ⟨hm, hu, hdm⟩ | ⟨hm, hu, hdm⟩ | ⟨hm, hu, hdm⟩ | ⟨hm, hu, hdm⟩ | ⟨hm, hu, hdm⟩ | ⟨hm, hu, hdm⟩ | ⟨hm, hu, hdm⟩ | ⟨hm, hu, hdm⟩ | ⟨hm, hu, hdm⟩ | ⟨hm, hu, hdm⟩ | ⟨hm, hu, hdm⟩ <;>
        omega
  · show to_gregorian (y - 8 + 1) 3 (gregToEth_until y m d - ((start_day_of_ethiopian (y - 8) - 3) + 300 + (5 + 0))) = Except.ok (y, m, d)
    have hve : validate_ethiopian_date (y - 8 + 1) 3 (gregToEth_until y m d - ((start_day_of_ethiopian (y - 8) - 3) + 300 + (5 + 0))) = none :=
      (validate_eth_none_iff (y - 8 + 1) 3 (gregToEth_until y m d - ((start_day_of_ethiopian (y - 8) - 3) + 300 + (5 + 0)))).mpr
        ⟨by omega, by norm_num, by norm_num, by omega, fun _ => by omega,
         fun hx => absurd hx (by norm_num)⟩
    rw [fwd_char (y - 8 + 1) 3 (gregToEth_until y m d - ((start_day_of_ethiopian (y - 8) - 3) + 300 + (5 + 0))) (by omega) hve]
    simp only [Except.ok.injEq]
    rw [fwdF_modern (y - 8 + 1) 3 (gregToEth_until y m d - ((start_day_of_ethiopian (y - 8) - 3) + 300 + (5 + 0))) (by omega) (by omega)
      (by rw [show y - 8 + 1 + 7 + 1 = y + 1 from by ring]; exact hFy1)]
    by_cases hsp : gregToEth_until y m d ≤ 334
    · rw [fwdSlots_k2 (y - 8 + 1) ((3 - 1) * 30 + (gregToEth_until y m d - ((start_day_of_ethiopian (y - 8) - 3) + 300 + (5 + 0))) + ((y - 8 + 1) / 100 - (y - 8 + 1) / 400) - 5 + 2 * 0) 28 (by omega) (by omega)]
      simp only [Prod.mk.injEq]
      rcases until_cases_dim y m d hm1 hm12 hdim hFy with
        ⟨hm, hu, hdm⟩ | ⟨hm, hu, hdm⟩ | ⟨hm, hu, hdm⟩ | ⟨hm, hu, hdm⟩ | ⟨hm, hu, hdm⟩ | ⟨hm, hu, hdm⟩ | ⟨hm, hu, hdm⟩ | ⟨hm, hu, hdm⟩ | ⟨hm, hu, hdm⟩ | ⟨hm, hu, hdm⟩ | ⟨hm, hu, hdm⟩ | ⟨hm, hu, hdm⟩ <;>
        omega
    · rw [fwdSlots_k3 (y - 8 + 1) ((3 - 1) * 30 + (gregToEth_until y m d - ((start_day_of_ethiopian (y - 8) - 3) + 300 + (5 + 0))) + ((y - 8 + 1) / 100 - (y - 8 + 1) / 400) - 5 + 2 * 0) 28 (by omega) (by omega)]
      simp only [Prod.mk.injEq]
      rcases until_cases_dim y m d hm1 hm12 hdim hFy with
        ⟨hm, hu, hdm⟩ | ⟨hm, hu, hdm⟩ | ⟨hm, hu, hdm⟩ | ⟨hm, hu, hdm⟩ | ⟨hm, hu, hdm⟩ | ⟨hm, hu, hdm⟩ | ⟨hm, hu, hdm⟩ | ⟨hm, hu, hdm⟩ | ⟨hm, hu, hdm⟩ | ⟨hm, hu, hdm⟩ | ⟨hm, hu, hdm⟩ | ⟨hm, hu, hdm⟩ <;>
        omega
  · show to_gregorian (y - 8 + 1) 4 (gregToEth_until y m d - ((start_day_of_ethiopian (y - 8) - 3) + 330 + (5 + 0))) = Except.ok (y, m, d)
    have hve : validate_ethiopian_date (y - 8 + 1) 4 (gregToEth_until y m d - ((start_day_of_ethiopian (y - 8) - 3) + 330 + (5 + 0))) = none :=
      (validate_eth_none_iff (y - 8 + 1) 4 (gregToEth_until y m d - ((start_day_of_ethiopian (y - 8) - 3) + 330 + (5 + 0)))).mpr
        ⟨by omega, by norm_num, by norm_num, by omega, fun _ => by omega,
         fun hx => absurd hx (by norm_num)⟩
    rw [fwd_char (y - 8 + 1) 4 (gregToEth_until y m d - ((start_day_of_ethiopian (y - 8) - 3) + 330 + (5 + 0))) (by omega) hve]
    simp only [Except.ok.injEq]
    rw [fwdF_modern (y - 8 + 1) 4 (gregToEth_until y m d - ((start_day_of_ethiopian (y - 8) - 3) + 330 + (5 + 0))) (by omega) (by omega)
      (by rw [show y - 8 + 1 + 7 + 1 = y + 1 from by ring]; exact hFy1)]
    by_cases hsp : gregToEth_until y m d ≤ 365
    · rw [fwdSlots_k3 (y - 8 + 1) ((4 - 1) * 30 + (gregToEth_until y m d - ((start_day_of_ethiopian (y - 8) - 3) + 330 + (5 + 0))) + ((y - 8 + 1) / 100 - (y - 8 + 1) / 400) - 5 + 2 * 0) 28 (by omega) (by omega)]
      simp only [Prod.mk.injEq]
      rcases until_cases_dim y m d hm1 hm12 hdim hFy with
        ⟨hm, hu, hdm⟩ | ⟨hm, hu, hdm⟩ | ⟨hm, hu, hdm⟩ | ⟨hm, hu, hdm⟩ | ⟨hm, hu, hdm⟩ | ⟨hm, hu, hdm⟩ | ⟨hm, hu, hdm⟩ | ⟨hm, hu, hdm⟩ | ⟨hm, hu, hdm⟩ | ⟨hm, hu, hdm⟩ | ⟨hm, hu, hdm⟩ | ⟨hm, hu, hdm⟩ <;>
        omega
    · rw [fwdSlots_k4 (y - 8 + 1) ((4 - 1) * 30 + (gregToEth_until y m d - ((start_day_of_ethiopian (y - 8) - 3) + 330 + (5 + 0))) + ((y - 8 + 1) / 100 - (y - 8 + 1) / 400) - 5 + 2 * 0) 28 (by omega) (by omega)]
      simp only [Prod.mk.injEq]
      rcases until_cases_dim y m d hm1 hm12 hdim hFy with
        ⟨hm, hu, hdm⟩ | ⟨hm, hu, hdm⟩ | ⟨hm, hu, hdm⟩ | ⟨hm, hu, hdm⟩ | ⟨hm, hu, hdm⟩ | ⟨hm, hu, hdm⟩ | ⟨hm, hu, hdm⟩ | ⟨hm, hu, hdm⟩ | ⟨hm, hu, hdm⟩ | ⟨hm, hu, hdm⟩ | ⟨hm, hu, hdm⟩ | ⟨hm, hu, hdm⟩ <;>
        omega

set_option maxHeartbeats 8000000 in
theorem fwdF_valid (y m d : Int) (hy2 : y ≤ 4491)
    (hv : validate_ethiopian_date y m d = none) :
    validate_gregorian_date (fwdF y m d).1 (fwdF y m d).2.1 (fwdF y m d).2.2 = none := by
  obtain ⟨h1, hm1b, hm13, hd1, hd30, hd13⟩ := (validate_eth_none_iff y m d).mp hv
  have hd13a : m = 13 → (y - 1) % 4 = 3 → d ≤ 6 := fun h hh => by simpa [hh] using hd13 h
  have hd13b : m = 13 → ¬((y - 1) % 4 = 3) → d ≤ 5 := fun h hh => by
    simpa [if_neg hh] using hd13 h
  simp only [fwdF]
  by_cases hH : (m - 1) * 30 + d ≤ 37 ∧ y ≤ 1575
  · rw [if_pos hH]
    by_cases hLp : (y - 1) % 4 = 3
    · rw [if_pos hLp]
      have hd13f : m = 13 → d ≤ 6 := fun h => hd13a h hLp
      by_cases c1 : (m - 1) * 30 + d + 28 + 1 ≤ 31
      · rw [fwdHist_k0 y ((m - 1) * 30 + d + 28 + 1) c1]
        · show validate_gregorian_date (y + 7) 8 ((m - 1) * 30 + d + 28 + 1) = none
          rw [validate_greg_none_iff]
          refine ⟨by omega, by norm_num, by norm_num, by omega, ?_, ?_⟩
          · rintro ⟨-, hx, -⟩
            exact absurd hx (by norm_num)
          · norm_num [gdim]
            omega
      · by_cases c2 : (m - 1) * 30 + d + 28 + 1 ≤ 61
        · rw [fwdHist_k1 y ((m - 1) * 30 + d + 28 + 1) c1 c2]
          · show validate_gregorian_date (y + 7) 9 ((m - 1) * 30 + d + 28 + 1 - 31) = none
            rw [validate_greg_none_iff]
            refine ⟨by omega, by norm_num, by norm_num, by omega, ?_, ?_⟩
            · rintro ⟨-, hx, -⟩
              exact absurd hx (by norm_num)
            · norm_num [gdim]
              omega
        · rw [fwdHist_k2 y ((m - 1) * 30 + d + 28 + 1) c2]
          · show validate_gregorian_date (y + 7) 10 ((m - 1) * 30 + d + 28 + 1 - 61) = none
            rw [validate_greg_none_iff]
            refine ⟨by omega, by norm_num, by norm_num, by omega, ?_, ?_⟩
            · rintro ⟨h1, -, h3, h4⟩
              omega
            · norm_num [gdim]
              omega
    · rw [if_neg hLp]
      have hd13f : m = 13 → d ≤ 5 := fun h => hd13b h hLp
      by_cases c1 : (m - 1) * 30 + d + 28 + 0 ≤ 31
      · rw [fwdHist_k0 y ((m - 1) * 30 + d + 28 + 0) c1]
        · show validate_gregorian_date (y + 7) 8 ((m - 1) * 30 + d + 28 + 0) = none
          rw [validate_greg_none_iff]
          refine ⟨by omega, by norm_num, by norm_num, by omega, ?_, ?_⟩
          · rintro ⟨-, hx, -⟩
            exact absurd hx (by norm_num)
          · norm_num [gdim]
            omega
      · by_cases c2 : (m - 1) * 30 + d + 28 + 0 ≤ 61
        · rw [fwdHist_k1 y ((m - 1) * 30 + d + 28 + 0) c1 c2]
          · show validate_gregorian_date (y + 7) 9 ((m - 1) * 30 + d + 28 + 0 - 31) = none
            rw [validate_greg_none_iff]
            refine ⟨by omega, by norm_num, by norm_num, by omega, ?_, ?_⟩
            · rintro ⟨-, hx, -⟩
              exact absurd hx (by norm_num)
            · norm_num [gdim]
              omega
        · rw [fwdHist_k2 y ((m - 1) * 30 + d + 28 + 0) c2]
          · show validate_gregorian_date (y + 7) 10 ((m - 1) * 30 + d + 28 + 0 - 61) = none
            rw [validate_greg_none_iff]
            refine ⟨by omega, by norm_num, by norm_num, by omega, ?_, ?_⟩
            · rintro ⟨h1, -, h3, h4⟩
              omega
            · norm_num [gdim]
              omega
  · rw [if_neg hH]
    by_cases hGL : is_gregorian_leap_year (y + 7 + 1) = true
    · rw [hGL]
      have hGL8 : is_gregorian_leap_year (y + 8) = true := by
        rwa [show y + 7 + 1 = y + 8 from by ring] at hGL
      have hGLa := (greg_leap_iff (y + 8)).mp hGL8
      by_cases hLp : (y - 1) % 4 = 3
      · rw [if_pos hLp]
        have hd13f : m = 13 → d ≤ 6 := fun h => hd13a h hLp
        show validate_gregorian_date (fwdSlots y ((m - 1) * 30 + d + (y / 100 - y / 400) - 5 + 2 * 1) 29).1
            (fwdSlots y ((m - 1) * 30 + d + (y / 100 - y / 400) - 5 + 2 * 1) 29).2.1 (fwdSlots y ((m - 1) * 30 + d + (y / 100 - y / 400) - 5 + 2 * 1) 29).2.2 = none
        rcases fwdSlots_cases y ((m - 1) * 30 + d + (y / 100 - y / 400) - 5 + 2 * 1) 29 (by norm_num) with
          ⟨hrB, he⟩ | ⟨hrA, hrB, he⟩ | ⟨hrA, hrB, he⟩ | ⟨hrA, hrB, he⟩ | ⟨hrA, hrB, he⟩ | ⟨hrA, hrB, he⟩ | ⟨hrA, hrB, he⟩ | ⟨hrA, hrB, he⟩ | ⟨hrA, hrB, he⟩ | ⟨hrA, hrB, he⟩ | ⟨hrA, hrB, he⟩ | ⟨hrA, hrB, he⟩ | ⟨hrA, he⟩ <;>
          rw [he]
        · show validate_gregorian_date (y + 7) 9 (((m - 1) * 30 + d + (y / 100 - y / 400) - 5 + 2 * 1)) = none
          rw [validate_greg_none_iff]
          refine ⟨by omega, by norm_num, by norm_num, by omega, ?_, ?_⟩
          · rintro ⟨-, hx, -⟩
            exact absurd hx (by norm_num)
          · norm_num [gdim]
            omega
        · show validate_gregorian_date (y + 7) 10 (((m - 1) * 30 + d + (y / 100 - y / 400) - 5 + 2 * 1) - 30) = none
          rw [validate_greg_none_iff]
          refine ⟨by omega, by norm_num, by norm_num, by omega, ?_, ?_⟩
          · rintro ⟨h1, -, h3, h4⟩
            omega
          · norm_num [gdim]
            omega
        · show validate_gregorian_date (y + 7) 11 (((m - 1) * 30 + d + (y / 100 - y / 400) - 5 + 2 * 1) - 61) = none
          rw [validate_greg_none_iff]
          refine ⟨by omega, by norm_num, by norm_num, by omega, ?_, ?_⟩
          · rintro ⟨-, hx, -⟩
            exact absurd hx (by norm_num)
          · norm_num [gdim]
            omega
        · show validate_gregorian_date (y + 7) 12 (((m - 1) * 30 + d + (y / 100 - y / 400) - 5 + 2 * 1) - 91) = none
          rw [validate_greg_none_iff]
          refine ⟨by omega, by norm_num, by norm_num, by omega, ?_, ?_⟩
          · rintro ⟨-, hx, -⟩
            exact absurd hx (by norm_num)
          · norm_num [gdim]
            omega
        · show validate_gregorian_date (y + 8) 1 (((m - 1) * 30 + d + (y / 100 - y / 400) - 5 + 2 * 1) - 122) = none
          rw [validate_greg_none_iff]
          refine ⟨by omega, by norm_num, by norm_num, by omega, ?_, ?_⟩
          · rintro ⟨-, hx, -⟩
            exact absurd hx (by norm_num)
          · norm_num [gdim]
            omega
        · show validate_gregorian_date (y + 8) 2 (((m - 1) * 30 + d + (y / 100 - y / 400) - 5 + 2 * 1) - 153) = none
          rw [validate_greg_none_iff]
          refine ⟨by omega, by norm_num, by norm_num, by omega, ?_, ?_⟩
          · rintro ⟨-, hx, -⟩
            exact absurd hx (by norm_num)
          · norm_num [gdim, hGL8]
            omega
        · show validate_gregorian_date (y + 8) 3 (((m - 1) * 30 + d + (y / 100 - y / 400) - 5 + 2 * 1) - 153 - 29) = none
          rw [validate_greg_none_iff]
          refine ⟨by omega, by norm_num, by norm_num, by omega, ?_, ?_⟩
          · rintro ⟨-, hx, -⟩
            exact absurd hx (by norm_num)
          · norm_num [gdim]
            omega
        · show validate_gregorian_date (y + 8) 4 (((m - 1) * 30 + d + (y / 100 - y / 400) - 5 + 2 * 1) - 184 - 29) = none
          rw [validate_greg_none_iff]
          refine ⟨by omega, by norm_num, by norm_num, by omega, ?_, ?_⟩
          · rintro ⟨-, hx, -⟩
            exact absurd hx (by norm_num)
          · norm_num [gdim]
            omega
        · show validate_gregorian_date (y + 8) 5 (((m - 1) * 30 + d + (y / 100 - y / 400) - 5 + 2 * 1) - 214 - 29) = none
          rw [validate_greg_none_iff]
          refine ⟨by omega, by norm_num, by norm_num, by omega, ?_, ?_⟩
          · rintro ⟨-, hx, -⟩
            exact absurd hx (by norm_num)
          · norm_num [gdim]
            omega
        · show validate_gregorian_date (y + 8) 6 (((m - 1) * 30 + d + (y / 100 - y / 400) - 5 + 2 * 1) - 245 - 29) = none
          rw [validate_greg_none_iff]
          refine ⟨by omega, by norm_num, by norm_num, by omega, ?_, ?_⟩
          · rintro ⟨-, hx, -⟩
            exact absurd hx (by norm_num)
          · norm_num [gdim]
            omega
        · show validate_gregorian_date (y + 8) 7 (((m - 1) * 30 + d + (y / 100 - y / 400) - 5 + 2 * 1) - 275 - 29) = none
          rw [validate_greg_none_iff]
          refine ⟨by omega, by norm_num, by norm_num, by omega, ?_, ?_⟩
          · rintro ⟨-, hx, -⟩
            exact absurd hx (by norm_num)
          · norm_num [gdim]
            omega
        · show validate_gregorian_date (y + 8) 8 (((m - 1) * 30 + d + (y / 100 - y / 400) - 5 + 2 * 1) - 306 - 29) = none
          rw [validate_greg_none_iff]
          refine ⟨by omega, by norm_num, by norm_num, by omega, ?_, ?_⟩
          · rintro ⟨-, hx, -⟩
            exact absurd hx (by norm_num)
          · norm_num [gdim]
            omega
        · show validate_gregorian_date (y + 8) 9 (((m - 1) * 30 + d + (y / 100 - y / 400) - 5 + 2 * 1) - 337 - 29) = none
          rw [validate_greg_none_iff]
          refine ⟨by omega, by norm_num, by norm_num, by omega, ?_, ?_⟩
          · rintro ⟨-, hx, -⟩
            exact absurd hx (by norm_num)
          · norm_num [gdim]
            omega
      · rw [if_neg hLp]
        have hd13f : m = 13 → d ≤ 5 := fun h => hd13b h hLp
        show validate_gregorian_date (fwdSlots y ((m - 1) * 30 + d + (y / 100 - y / 400) - 5 + 2 * 0) 29).1
            (fwdSlots y ((m - 1) * 30 + d + (y / 100 - y / 400) - 5 + 2 * 0) 29).2.1 (fwdSlots y ((m - 1) * 30 + d + (y / 100 - y / 400) - 5 + 2 * 0) 29).2.2 = none
        rcases fwdSlots_cases y ((m - 1) * 30 + d + (y / 100 - y / 400) - 5 + 2 * 0) 29 (by norm_num) with
          ⟨hrB, he⟩ | ⟨hrA, hrB, he⟩ | ⟨hrA, hrB, he⟩ | ⟨hrA, hrB, he⟩ | ⟨hrA, hrB, he⟩ | ⟨hrA, hrB, he⟩ | ⟨hrA, hrB, he⟩ | ⟨hrA, hrB, he⟩ | ⟨hrA, hrB, he⟩ | ⟨hrA, hrB, he⟩ | ⟨hrA, hrB, he⟩ | ⟨hrA, hrB, he⟩ | ⟨hrA, he⟩ <;>
          rw [he]
        · show validate_gregorian_date (y + 7) 9 (((m - 1) * 30 + d + (y / 100 - y / 400) - 5 + 2 * 0)) = none
          rw [validate_greg_none_iff]
          refine ⟨by omega, by norm_num, by norm_num, by omega, ?_, ?_⟩
          · rintro ⟨-, hx, -⟩
            exact absurd hx (by norm_num)
          · norm_num [gdim]
            omega
        · show validate_gregorian_date (y + 7) 10 (((m - 1) * 30 + d + (y / 100 - y / 400) - 5 + 2 * 0) - 30) = none
          rw [validate_greg_none_iff]
          refine ⟨by omega, by norm_num, by norm_num, by omega, ?_, ?_⟩
          · rintro ⟨h1, -, h3, h4⟩
            omega
          · norm_num [gdim]
            omega
        · show validate_gregorian_date (y + 7) 11 (((m - 1) * 30 + d + (y / 100 - y / 400) - 5 + 2 * 0) - 61) = none
          rw [validate_greg_none_iff]
          refine ⟨by omega, by norm_num, by norm_num, by omega, ?_, ?_⟩
          · rintro ⟨-, hx, -⟩
            exact absurd hx (by norm_num)
          · norm_num [gdim]
            omega
        · show validate_gregorian_date (y + 7) 12 (((m - 1) * 30 + d + (y / 100 - y / 400) - 5 + 2 * 0) - 91) = none
          rw [validate_greg_none_iff]
          refine ⟨by omega, by norm_num, by norm_num, by omega, ?_, ?_⟩
          · rintro ⟨-, hx, -⟩
            exact absurd hx (by norm_num)
          · norm_num [gdim]
            omega
        · show validate_gregorian_date (y + 8) 1 (((m - 1) * 30 + d + (y / 100 - y / 400) - 5 + 2 * 0) - 122) = none
          rw [validate_greg_none_iff]
          refine ⟨by omega, by norm_num, by norm_num, by omega, ?_, ?_⟩
          · rintro ⟨-, hx, -⟩
            exact absurd hx (by norm_num)
          · norm_num [gdim]
            omega
        · show validate_gregorian_date (y + 8) 2 (((m - 1) * 30 + d + (y / 100 - y / 400) - 5 + 2 * 0) - 153) = none
          rw [validate_greg_none_iff]
          refine ⟨by omega, by norm_num, by norm_num, by omega, ?_, ?_⟩
          · rintro ⟨-, hx, -⟩
            exact absurd hx (by norm_num)
          · norm_num [gdim, hGL8]
            omega
        · show validate_gregorian_date (y + 8) 3 (((m - 1) * 30 + d + (y / 100 - y / 400) - 5 + 2 * 0) - 153 - 29) = none
          rw [validate_greg_none_iff]
          refine ⟨by omega, by norm_num, by norm_num, by omega, ?_, ?_⟩
          · rintro ⟨-, hx, -⟩
            exact absurd hx (by norm_num)
          · norm_num [gdim]
            omega
        · show validate_gregorian_date (y + 8) 4 (((m - 1) * 30 + d + (y / 100 - y / 400) - 5 + 2 * 0) - 184 - 29) = none
          rw [validate_greg_none_iff]
          refine ⟨by omega, by norm_num, by norm_num, by omega, ?_, ?_⟩
          · rintro ⟨-, hx, -⟩
            exact absurd hx (by norm_num)
          · norm_num [gdim]
            omega
        · show validate_gregorian_date (y + 8) 5 (((m - 1) * 30 + d + (y / 100 - y / 400) - 5 + 2 * 0) - 214 - 29) = none
          rw [validate_greg_none_iff]
          refine ⟨by omega, by norm_num, by norm_num, by omega, ?_, ?_⟩
          · rintro ⟨-, hx, -⟩
            exact absurd hx (by norm_num)
          · norm_num [gdim]
            omega
        · show validate_gregorian_date (y + 8) 6 (((m - 1) * 30 + d + (y / 100 - y / 400) - 5 + 2 * 0) - 245 - 29) = none
          rw [validate_greg_none_iff]
          refine ⟨by omega, by norm_num, by norm_num, by omega, ?_, ?_⟩
          · rintro ⟨-, hx, -⟩
            exact absurd hx (by norm_num)
          · norm_num [gdim]
            omega
        · show validate_gregorian_date (y + 8) 7 (((m - 1) * 30 + d + (y / 100 - y / 400) - 5 + 2 * 0) - 275 - 29) = none
          rw [validate_greg_none_iff]
          refine ⟨by omega, by norm_num, by norm_num, by omega, ?_, ?_⟩
          · rintro ⟨-, hx, -⟩
            exact absurd hx (by norm_num)
          · norm_num [gdim]
            omega
        · show validate_gregorian_date (y + 8) 8 (((m - 1) * 30 + d + (y / 100 - y / 400) - 5 + 2 * 0) - 306 - 29) = none
          rw [validate_greg_none_iff]
          refine ⟨by omega, by norm_num, by norm_num, by omega, ?_, ?_⟩
          · rintro ⟨-, hx, -⟩
            exact absurd hx (by norm_num)
          · norm_num [gdim]
            omega
        · show validate_gregorian_date (y + 8) 9 (((m - 1) * 30 + d + (y / 100 - y / 400) - 5 + 2 * 0) - 337 - 29) = none
          rw [validate_greg_none_iff]
          refine ⟨by omega, by norm_num, by norm_num, by omega, ?_, ?_⟩
          · rintro ⟨-, hx, -⟩
            exact absurd hx (by norm_num)
          · norm_num [gdim]
            omega
    · have hGLf : is_gregorian_leap_year (y + 7 + 1) = false := by
        simpa using hGL
      rw [hGLf]
      have hGL8 : is_gregorian_leap_year (y + 8) = false := by
        rwa [show y + 7 + 1 = y + 8 from by ring] at hGLf
      have hGLa : ¬(((y + 8) % 4 = 0 ∧ (y + 8) % 100 ≠ 0) ∨ (y + 8) % 400 = 0) :=
        fun hc => by simp [(greg_leap_iff (y + 8)).mpr hc] at hGL8
      by_cases hLp : (y - 1) % 4 = 3
      · rw [if_pos hLp]
        have hd13f : m = 13 → d ≤ 6 := fun h => hd13a h hLp
        show validate_gregorian_date (fwdSlots y ((m - 1) * 30 + d + (y / 100 - y / 400) - 5 + 2 * 1) 28).1
            (fwdSlots y ((m - 1) * 30 + d + (y / 100 - y / 400) - 5 + 2 * 1) 28).2.1 (fwdSlots y ((m - 1) * 30 + d + (y / 100 - y / 400) - 5 + 2 * 1) 28).2.2 = none
        rcases fwdSlots_cases y ((m - 1) * 30 + d + (y / 100 - y / 400) - 5 + 2 * 1) 28 (by norm_num) with
          ⟨hrB, he⟩ | ⟨hrA, hrB, he⟩ | ⟨hrA, hrB, he⟩ | ⟨hrA, hrB, he⟩ | ⟨hrA, hrB, he⟩ | ⟨hrA, hrB, he⟩ | ⟨hrA, hrB, he⟩ | ⟨hrA, hrB, he⟩ | ⟨hrA, hrB, he⟩ | ⟨hrA, hrB, he⟩ | ⟨hrA, hrB, he⟩ | ⟨hrA, hrB, he⟩ | ⟨hrA, he⟩ <;>
          rw [he]
        · show validate_gregorian_date (y + 7) 9 (((m - 1) * 30 + d + (y / 100 - y / 400) - 5 + 2 * 1)) = none
          rw [validate_greg_none_iff]
          refine ⟨by omega, by norm_num, by norm_num, by omega, ?_, ?_⟩
          · rintro ⟨-, hx, -⟩
            exact absurd hx (by norm_num)
          · norm_num [gdim]
            omega
        · show validate_gregorian_date (y + 7) 10 (((m - 1) * 30 + d + (y / 100 - y / 400) - 5 + 2 * 1) - 30) = none
          rw [validate_greg_none_iff]
          refine ⟨by omega, by norm_num, by norm_num, by omega, ?_, ?_⟩
          · rintro ⟨h1, -, h3, h4⟩
            omega
          · norm_num [gdim]
            omega
        · show validate_gregorian_date (y + 7) 11 (((m - 1) * 30 + d + (y / 100 - y / 400) - 5 + 2 * 1) - 61) = none
          rw [validate_greg_none_iff]
          refine ⟨by omega, by norm_num, by norm_num, by omega, ?_, ?_⟩
          · rintro ⟨-, hx, -⟩
            exact absurd hx (by norm_num)
          · norm_num [gdim]
            omega
        · show validate_gregorian_date (y + 7) 12 (((m - 1) * 30 + d + (y / 100 - y / 400) - 5 + 2 * 1) - 91) = none
          rw [validate_greg_none_iff]
          refine ⟨by omega, by norm_num, by norm_num, by omega, ?_, ?_⟩
          · rintro ⟨-, hx, -⟩
            exact absurd hx (by norm_num)
          · norm_num [gdim]
            omega
        · show validate_gregorian_date (y + 8) 1 (((m - 1) * 30 + d + (y / 100 - y / 400) - 5 + 2 * 1) - 122) = none
          rw [validate_greg_none_iff]
          refine ⟨by omega, by norm_num, by norm_num, by omega, ?_, ?_⟩
          · rintro ⟨-, hx, -⟩
            exact absurd hx (by norm_num)
          · norm_num [gdim]
            omega
        · show validate_gregorian_date (y + 8) 2 (((m - 1) * 30 + d + (y / 100 - y / 400) - 5 + 2 * 1) - 153) = none
          rw [validate_greg_none_iff]
          refine ⟨by omega, by norm_num, by norm_num, by omega, ?_, ?_⟩
          · rintro ⟨-, hx, -⟩
            exact absurd hx (by norm_num)
          · norm_num [gdim, hGL8]
            omega
        · show validate_gregorian_date (y + 8) 3 (((m - 1) * 30 + d + (y / 100 - y / 400) - 5 + 2 * 1) - 153 - 28) = none
          rw [validate_greg_none_iff]
          refine ⟨by omega, by norm_num, by norm_num, by omega, ?_, ?_⟩
          · rintro ⟨-, hx, -⟩
            exact absurd hx (by norm_num)
          · norm_num [gdim]
            omega
        · show validate_gregorian_date (y + 8) 4 (((m - 1) * 30 + d + (y / 100 - y / 400) - 5 + 2 * 1) - 184 - 28) = none
          rw [validate_greg_none_iff]
          refine ⟨by omega, by norm_num, by norm_num, by omega, ?_, ?_⟩
          · rintro ⟨-, hx, -⟩
            exact absurd hx (by norm_num)
          · norm_num [gdim]
            omega
        · show validate_gregorian_date (y + 8) 5 (((m - 1) * 30 + d + (y / 100 - y / 400) - 5 + 2 * 1) - 214 - 28) = none
          rw [validate_greg_none_iff]
          refine ⟨by omega, by norm_num, by norm_num, by omega, ?_, ?_⟩
          · rintro ⟨-, hx, -⟩
            exact absurd hx (by norm_num)
          · norm_num [gdim]
            omega
        · show validate_gregorian_date (y + 8) 6 (((m - 1) * 30 + d + (y / 100 - y / 400) - 5 + 2 * 1) - 245 - 28) = none
          rw [validate_greg_none_iff]
          refine ⟨by omega, by norm_num, by norm_num, by omega, ?_, ?_⟩
          · rintro ⟨-, hx, -⟩
            exact absurd hx (by norm_num)
          · norm_num [gdim]
            omega
        · show validate_gregorian_date (y + 8) 7 (((m - 1) * 30 + d + (y / 100 - y / 400) - 5 + 2 * 1) - 275 - 28) = none
          rw [validate_greg_none_iff]
          refine ⟨by omega, by norm_num, by norm_num, by omega, ?_, ?_⟩
          · rintro ⟨-, hx, -⟩
            exact absurd hx (by norm_num)
          · norm_num [gdim]
            omega
        · show validate_gregorian_date (y + 8) 8 (((m - 1) * 30 + d + (y / 100 - y / 400) - 5 + 2 * 1) - 306 - 28) = none
          rw [validate_greg_none_iff]
          refine ⟨by omega, by norm_num, by norm_num, by omega, ?_, ?_⟩
          · rintro ⟨-, hx, -⟩
            exact absurd hx (by norm_num)
          · norm_num [gdim]
            omega
        · show validate_gregorian_date (y + 8) 9 (((m - 1) * 30 + d + (y / 100 - y / 400) - 5 + 2 * 1) - 337 - 28) = none
          rw [validate_greg_none_iff]
          refine ⟨by omega, by norm_num, by norm_num, by omega, ?_, ?_⟩
          · rintro ⟨-, hx, -⟩
            exact absurd hx (by norm_num)
          · norm_num [gdim]
            omega
      · rw [if_neg hLp]
        have hd13f : m = 13 → d ≤ 5 := fun h => hd13b h hLp
        show validate_gregorian_date (fwdSlots y ((m - 1) * 30 + d + (y / 100 - y / 400) - 5 + 2 * 0) 28).1
            (fwdSlots y ((m - 1) * 30 + d + (y / 100 - y / 400) - 5 + 2 * 0) 28).2.1 (fwdSlots y ((m - 1) * 30 + d + (y / 100 - y / 400) - 5 + 2 * 0) 28).2.2 = none
        rcases fwdSlots_cases y ((m - 1) * 30 + d + (y / 100 - y / 400) - 5 + 2 * 0) 28 (by norm_num) with
          ⟨hrB, he⟩ | ⟨hrA, hrB, he⟩ | ⟨hrA, hrB, he⟩ | ⟨hrA, hrB, he⟩ | ⟨hrA, hrB, he⟩ | ⟨hrA, hrB, he⟩ | ⟨hrA, hrB, he⟩ | ⟨hrA, hrB, he⟩ | ⟨hrA, hrB, he⟩ | ⟨hrA, hrB, he⟩ | ⟨hrA, hrB, he⟩ | ⟨hrA, hrB, he⟩ | ⟨hrA, he⟩ <;>
          rw [he]
        · show validate_gregorian_date (y + 7) 9 (((m - 1) * 30 + d + (y / 100 - y / 400) - 5 + 2 * 0)) = none
          rw [validate_greg_none_iff]
          refine ⟨by omega, by norm_num, by norm_num, by omega, ?_, ?_⟩
          · rintro ⟨-, hx, -⟩
            exact absurd hx (by norm_num)
          · norm_num [gdim]
            omega
        · show validate_gregorian_date (y + 7) 10 (((m - 1) * 30 + d + (y / 100 - y / 400) - 5 + 2 * 0) - 30) = none
          rw [validate_greg_none_iff]
          refine ⟨by omega, by norm_num, by norm_num, by omega, ?_, ?_⟩
          · rintro ⟨h1, -, h3, h4⟩
            omega
          · norm_num [gdim]
            omega
        · show validate_gregorian_date (y + 7) 11 (((m - 1) * 30 + d + (y / 100 - y / 400) - 5 + 2 * 0) - 61) = none
          rw [validate_greg_none_iff]
          refine ⟨by omega, by norm_num, by norm_num, by omega, ?_, ?_⟩
          · rintro ⟨-, hx, -⟩
            exact absurd hx (by norm_num)
          · norm_num [gdim]
            omega
        · show validate_gregorian_date (y + 7) 12 (((m - 1) * 30 + d + (y / 100 - y / 400) - 5 + 2 * 0) - 91) = none
          rw [validate_greg_none_iff]
          refine ⟨by omega, by norm_num, by norm_num, by omega, ?_, ?_⟩
          · rintro ⟨-, hx, -⟩
            exact absurd hx (by norm_num)
          · norm_num [gdim]
            omega
        · show validate_gregorian_date (y + 8) 1 (((m - 1) * 30 + d + (y / 100 - y / 400) - 5 + 2 * 0) - 122) = none
          rw [validate_greg_none_iff]
          refine ⟨by omega, by norm_num, by norm_num, by omega, ?_, ?_⟩
          · rintro ⟨-, hx, -⟩
            exact absurd hx (by norm_num)
          · norm_num [gdim]
            omega
        · show validate_gregorian_date (y + 8) 2 (((m - 1) * 30 + d + (y / 100 - y / 400) - 5 + 2 * 0) - 153) = none
          rw [validate_greg_none_iff]
          refine ⟨by omega, by norm_num, by norm_num, by omega, ?_, ?_⟩
          · rintro ⟨-, hx, -⟩
            exact absurd hx (by norm_num)
          · norm_num [gdim, hGL8]
            omega
        · show validate_gregorian_date (y + 8) 3 (((m - 1) * 30 + d + (y / 100 - y / 400) - 5 + 2 * 0) - 153 - 28) = none
          rw [validate_greg_none_iff]
          refine ⟨by omega, by norm_num, by norm_num, by omega, ?_, ?_⟩
          · rintro ⟨-, hx, -⟩
            exact absurd hx (by norm_num)
          · norm_num [gdim]
            omega
        · show validate_gregorian_date (y + 8) 4 (((m - 1) * 30 + d + (y / 100 - y / 400) - 5 + 2 * 0) - 184 - 28) = none
          rw [validate_greg_none_iff]
          refine ⟨by omega, by norm_num, by norm_num, by omega, ?_, ?_⟩
          · rintro ⟨-, hx, -⟩
            exact absurd hx (by norm_num)
          · norm_num [gdim]
            omega
        · show validate_gregorian_date (y + 8) 5 (((m - 1) * 30 + d + (y / 100 - y / 400) - 5 + 2 * 0) - 214 - 28) = none
          rw [validate_greg_none_iff]
          refine ⟨by omega, by norm_num, by norm_num, by omega, ?_, ?_⟩
          · rintro ⟨-, hx, -⟩
            exact absurd hx (by norm_num)
          · norm_num [gdim]
            omega
        · show validate_gregorian_date (y + 8) 6 (((m - 1) * 30 + d + (y / 100 - y / 400) - 5 + 2 * 0) - 245 - 28) = none
          rw [validate_greg_none_iff]
          refine ⟨by omega, by norm_num, by norm_num, by omega, ?_, ?_⟩
          · rintro ⟨-, hx, -⟩
            exact absurd hx (by norm_num)
          · norm_num [gdim]
            omega
        · show validate_gregorian_date (y + 8) 7 (((m - 1) * 30 + d + (y / 100 - y / 400) - 5 + 2 * 0) - 275 - 28) = none
          rw [validate_greg_none_iff]
          refine ⟨by omega, by norm_num, by norm_num, by omega, ?_, ?_⟩
          · rintro ⟨-, hx, -⟩
            exact absurd hx (by norm_num)
          · norm_num [gdim]
            omega
        · show validate_gregorian_date (y + 8) 8 (((m - 1) * 30 + d + (y / 100 - y / 400) - 5 + 2 * 0) - 306 - 28) = none
          rw [validate_greg_none_iff]
          refine ⟨by omega, by norm_num, by norm_num, by omega, ?_, ?_⟩
          · rintro ⟨-, hx, -⟩
            exact absurd hx (by norm_num)
          · norm_num [gdim]
            omega
        · show validate_gregorian_date (y + 8) 9 (((m - 1) * 30 + d + (y / 100 - y / 400) - 5 + 2 * 0) - 337 - 28) = none
          rw [validate_greg_none_iff]
          refine ⟨by omega, by norm_num, by norm_num, by omega, ?_, ?_⟩
          · rintro ⟨-, hx, -⟩
            exact absurd hx (by norm_num)
          · norm_num [gdim]
            omega

theorem gdim_le_31 (y m : Int) : gdim y m ≤ 31 := by
  unfold gdim
  split_ifs <;> norm_num

set_option maxHeartbeats 4000000 in
theorem bwd_1582_key (m d : Int) (hm1 : 1 ≤ m) (hm12 : m ≤ 12) (hd1 : 1 ≤ d)
    (hd31 : d ≤ 31) :
    validate_gregorian_date 1582 m d = none →
      ethOutcomeValid (to_ethiopian 1582 m d) = true := by
  interval_cases m <;> interval_cases d <;> decide

theorem bwd_1582 (m d : Int) (hv : validate_gregorian_date 1582 m d = none) :
    ∃ e : Int × Int × Int, to_ethiopian 1582 m d = Except.ok e ∧
      validate_ethiopian_date e.1 e.2.1 e.2.2 = none := by
  obtain ⟨-, hm1, hm12, hd1, -, hdim⟩ := (validate_greg_none_iff 1582 m d).mp hv
  have hd31 : d ≤ 31 := le_trans hdim (gdim_le_31 1582 m)
  have hkey := bwd_1582_key m d hm1 hm12 hd1 hd31 hv
  cases hr : to_ethiopian 1582 m d with
  | error msg =>
    rw [hr] at hkey
    exact absurd hkey (by simp [ethOutcomeValid])
  | ok e =>
    rw [hr] at hkey
    exact ⟨e, rfl, by simpa [ethOutcomeValid] using hkey⟩

theorem to_gregorian_ok_shape (y m d : Int) (g : Int × Int × Int)
    (hok : to_gregorian y m d = Except.ok g) :
    g.1 = y + 7 ∨ g.1 = y + 7 + 1 := by
  cases hval : validate_ethiopian_date y m d with
  | some msg =>
    simp only [to_gregorian, hval] at hok
    exact absurd hok (by simp)
  | none =>
    simp only [to_gregorian, hval] at hok
    by_cases hgt : (ethToGreg_walk y m d).1 > 4
    · rw [if_pos hgt] at hok
      unfold datetime_date at hok
      split_ifs at hok with hc
      · simp only [Except.ok.injEq] at hok
        right
        rw [← hok]
    · rw [if_neg hgt] at hok
      unfold datetime_date at hok
      split_ifs at hok with hc
      · simp only [Except.ok.injEq] at hok
        left
        rw [← hok]

theorem to_gregorian_slot0_month (y m d : Int) (g : Int × Int × Int)
    (hw : (ethToGreg_walk y m d).1 = 0)
    (hok : to_gregorian y m d = Except.ok g) :
    g.2.1 = 8 := by
  cases hval : validate_ethiopian_date y m d with
  | some msg =>
    simp only [to_gregorian, hval] at hok
    exact absurd hok (by simp)
  | none =>
    simp only [to_gregorian, hval, hw] at hok
    rw [if_neg (by norm_num)] at hok
    rw [show gregorian_order.getD 0 0 = 8 from rfl] at hok
    unfold datetime_date at hok
    split_ifs at hok with hc
    · simp only [Except.ok.injEq] at hok
      rw [← hok]

/-- C1: amended round trip.  The conversions invert each other on the
Ethiopian years 1576–2020 whose remainder mod 4 is 2 or 3, and on the
Gregorian years 1583–2020 whose remainder mod 4 is 1 or 2; outside these
residue classes the round trip can drift (see the counterexample). -/
theorem claim_C1 :
    (∀ y m d : Int, 1576 ≤ y → y ≤ 2020 → (y % 4 = 2 ∨ y % 4 = 3) →
      validate_ethiopian_date y m d = none →
      ∃ g : Int × Int × Int, to_gregorian y m d = Except.ok g ∧
        to_ethiopian g.1 g.2.1 g.2.2 = Except.ok (y, m, d)) ∧
    (∀ y m d : Int, 1583 ≤ y → y ≤ 2020 → (y % 4 = 1 ∨ y % 4 = 2) →
      validate_gregorian_date y m d = none →
      ∃ e : Int × Int × Int, to_ethiopian y m d = Except.ok e ∧
        to_gregorian e.1 e.2.1 e.2.2 = Except.ok (y, m, d)) := by
  constructor
  · intro y m d h1 h2 h3 h4
    obtain ⟨ha, hb⟩ := rt_eth y m d h1 h2 h3 h4
    exact ⟨fwdF y m d, ha, hb⟩
  · intro y m d h1 h2 h3 h4
    obtain ⟨ha, hb⟩ := rt_greg y m d h1 h2 h3 h4
    exact ⟨bwdF y m d, ha, hb⟩

theorem claim_C1_witness :
    (∃ g : Int × Int × Int, to_gregorian 2018 1 1 = Except.ok g ∧
      to_ethiopian g.1 g.2.1 g.2.2 = Except.ok (2018, 1, 1)) ∧
    (∃ e : Int × Int × Int, to_ethiopian 2018 1 5 = Except.ok e ∧
      to_gregorian e.1 e.2.1 e.2.2 = Except.ok (2018, 1, 5)) :=
  by
  refine ⟨claim_C1.1 2018 1 1 ?_ ?_ ?_ ?_, claim_C1.2 2018 1 5 ?_ ?_ ?_ ?_⟩ <;> decide

theorem claim_C1_cex :
    validate_ethiopian_date 2020 1 1 = none ∧
    to_gregorian 2020 1 1 = Except.ok (2027, 9, 13) ∧
    to_ethiopian 2027 9 13 = Except.ok (2020, 1, 3) := by
  decide

/-- C2: amended totality of the forward conversion.  For Ethiopian years up
to 4491 every validator-accepted input converts successfully to a Gregorian
triple satisfying the Gregorian invariant; from year 4492 on the scan can
run off the month table and the date construction fails (see the
counterexample). -/
theorem claim_C2 (y m d : Int) (hy2 : y ≤ 4491)
    (hv : validate_ethiopian_date y m d = none) :
    ∃ g : Int × Int × Int, to_gregorian y m d = Except.ok g ∧
      validate_gregorian_date g.1 g.2.1 g.2.2 = none :=
  ⟨fwdF y m d, fwd_char y m d hy2 hv, fwdF_valid y m d hy2 hv⟩

theorem claim_C2_witness :
    ∃ g : Int × Int × Int, to_gregorian 2017 4 27 = Except.ok g ∧
      validate_gregorian_date g.1 g.2.1 g.2.2 = none :=
  claim_C2 2017 4 27 (by norm_num) (by decide)

theorem claim_C2_cex :
    validate_ethiopian_date 4492 13 6 = none ∧
    to_gregorian 4492 13 6 = Except.error ("datetime.date: argument out of range") := by
  decide

/-- C3: amended well-formedness of the backward conversion.  For Gregorian
years 1582–4907 every validator-accepted input converts to a triple
satisfying the Ethiopian invariant; before 1582 the pre-reform branch can
return day counts far beyond a month length (see the counterexample). -/
theorem claim_C3 (y m d : Int) (hy1 : 1582 ≤ y) (hy2 : y ≤ 4907)
    (hv : validate_gregorian_date y m d = none) :
    ∃ e : Int × Int × Int, to_ethiopian y m d = Except.ok e ∧
      validate_ethiopian_date e.1 e.2.1 e.2.2 = none := by
  by_cases h : y = 1582
  · subst h
    exact bwd_1582 m d hv
  · exact ⟨bwdF y m d, bwd_char y m d (by omega) hy2 hv, bwdF_valid y m d (by omega) hy2 hv⟩

theorem claim_C3_witness :
    ∃ e : Int × Int × Int, to_ethiopian 2025 1 5 = Except.ok e ∧
      validate_ethiopian_date e.1 e.2.1 e.2.2 = none :=
  claim_C3 2025 1 5 (by norm_num) (by norm_num) (by decide)

theorem claim_C3_cex :
    validate_gregorian_date 1581 12 31 = none ∧
    to_ethiopian 1581 12 31 = Except.ok (1574, 4, 365) ∧
    ¬(validate_ethiopian_date 1574 4 365 = none) := by
  decide

/-- C4: calendar gap rejection.  Every Gregorian input 1582-10-d with
5 ≤ d ≤ 14 is rejected with the calendar-gap message, while 1582-10-04 and
1582-10-15 convert successfully. -/
theorem claim_C4 (d : Int) (h5 : 5 ≤ d) (h14 : d ≤ 14) :
    to_ethiopian 1582 10 d =
      Except.error ("Invalid Gregorian date: October 5-14, 1582 do not exist. These dates were skipped during the adoption of the Gregorian calendar.") ∧
    to_ethiopian 1582 10 4 = Except.ok (1575, 2, 7) ∧
    to_ethiopian 1582 10 15 = Except.ok (1575, 2, 8) := by
  refine ⟨?_, by decide, by decide⟩
  interval_cases d <;> decide

theorem claim_C4_witness :
    to_ethiopian 1582 10 5 =
      Except.error ("Invalid Gregorian date: October 5-14, 1582 do not exist. These dates were skipped during the adoption of the Gregorian calendar.") ∧
    to_ethiopian 1582 10 4 = Except.ok (1575, 2, 7) ∧
    to_ethiopian 1582 10 15 = Except.ok (1575, 2, 8) :=
  claim_C4 5 (by norm_num) (by norm_num)

/-- C5: the code's actual behaviour on the literal Pagume scenario, opposite
to the claim.  The leap rule `(year − 1) mod 4 == 3` makes 2015 non-leap and
2016 leap, so (2015, 13, 6) is rejected and (2016, 13, 6) accepted. -/
theorem claim_C5 :
    to_gregorian 2015 13 6 =
      Except.error ("Invalid Ethiopian date: Pagume (month 13) has only 5 days in non-leap year 2015, but day 6 was provided.") ∧
    to_gregorian 2016 13 6 = Except.ok (2024, 9, 12) ∧
    is_ethiopian_leap_year 2015 = false ∧
    is_ethiopian_leap_year 2016 = true := by
  decide

/-- C6: the Pagume leap bound rule.  For every Ethiopian year y ≥ 1,
day 6 of month 13 is rejected with the non-leap day-out-of-range message
exactly when (y − 1) mod 4 ≠ 3, and passes validation when the remainder
is 3. -/
theorem claim_C6 (y : Int) (hy : 1 ≤ y) :
    ((y - 1) % 4 ≠ 3 →
      to_gregorian y 13 6 =
        Except.error ("Invalid Ethiopian date: Pagume (month 13) has only " ++ toString (5 : Int) ++
          " days in " ++ "non-leap year" ++ " " ++ toString y ++ ", but day " ++
          toString (6 : Int) ++ " was provided.")) ∧
    ((y - 1) % 4 = 3 → validate_ethiopian_date y 13 6 = none) := by
  have h0 : ¬(y ≤ 0) := by omega
  constructor
  · intro h
    have hL : is_ethiopian_leap_year y = false := by
      simp [is_ethiopian_leap_year, h]
    simp [to_gregorian, validate_ethiopian_date, hL, h0]
  · intro h
    have hL : is_ethiopian_leap_year y = true := by
      simp [is_ethiopian_leap_year, h]
    simp [validate_ethiopian_date, hL, h0]

theorem claim_C6_witness :
    (((2016 : Int) - 1) % 4 ≠ 3 →
      to_gregorian 2016 13 6 =
        Except.error ("Invalid Ethiopian date: Pagume (month 13) has only " ++ toString (5 : Int) ++
          " days in " ++ "non-leap year" ++ " " ++ toString (2016 : Int) ++ ", but day " ++
          toString (6 : Int) ++ " was provided.")) ∧
    (((2016 : Int) - 1) % 4 = 3 → validate_ethiopian_date 2016 13 6 = none) :=
  claim_C6 2016 (by norm_num)

/-- C7: forward elapsed-day arithmetic.  The day counter of `to_gregorian`
equals the elapsed Ethiopian days plus 28 on the historical branch
(elapsed ≤ 37 and year ≤ 1575) and plus the spec's new-year offset minus 1
otherwise, plus one more day exactly in an Ethiopian leap year; and the
first rotated-month slot is widened to 31 exactly on the historical
branch. -/
theorem claim_C7 (y m d : Int) :
    ethToGreg_until y m d =
      (m - 1) * 30 + d
        + (if (m - 1) * 30 + d ≤ 37 ∧ y ≤ 1575 then 28 else spec_new_year_offset y - 1)
        + (if (y - 1) % 4 = 3 then 1 else 0) ∧
    ((ethToGreg_months y m d).getD 0 0 = 31 ↔ ((m - 1) * 30 + d ≤ 37 ∧ y ≤ 1575)) := by
  constructor
  · simp only [ethToGreg_until, start_day_of_ethiopian, spec_new_year_offset]
    split_ifs <;> omega
  · simp only [ethToGreg_months]
    split_ifs <;> simp_all

/-- C8: amended forward rotation table.  Slot 0 of the rotation table maps
to August (month 8), not September; every successful conversion whose walk
resolves to slot 0 returns Gregorian month 8. -/
theorem claim_C8 :
    gregorian_order.getD 0 0 = 8 ∧
    ∀ (y m d : Int) (g : Int × Int × Int),
      (ethToGreg_walk y m d).1 = 0 → to_gregorian y m d = Except.ok g →
        g.2.1 = 8 :=
  ⟨by decide, fun y m d g hw hok => to_gregorian_slot0_month y m d g hw hok⟩

theorem claim_C8_witness :
    ((8 : Int), (8 : Int), (29 : Int)).2.1 = 8 :=
  claim_C8.2 1 1 1 ((8 : Int), (8 : Int), (29 : Int)) (by decide) (by decide)

theorem claim_C8_cex :
    gregorian_order.getD 0 0 ≠ 9 ∧
    (ethToGreg_walk 1 1 1).1 = 0 ∧
    to_gregorian 1 1 1 = Except.ok (8, 8, 29) := by
  decide

/-- C9: known fixed points.  Ethiopian 2017-04-27 converts to Gregorian
2025-01-05 and back. -/
theorem claim_C9 :
    to_gregorian 2017 4 27 = Except.ok (2025, 1, 5) ∧
    to_ethiopian 2025 1 5 = Except.ok (2017, 4, 27) := by
  decide

/-- C10: the forward conversion never lands in the skipped range
1582-10-05..14, and the walk jumps from Ethiopian 1575-02-07 (Gregorian
1582-10-04) directly to 1575-02-08 (Gregorian 1582-10-15). -/
theorem claim_C10 (y m d : Int) (g : Int × Int × Int)
    (hv : validate_ethiopian_date y m d = none)
    (hok : to_gregorian y m d = Except.ok g) :
    ¬(g.1 = 1582 ∧ g.2.1 = 10 ∧ 5 ≤ g.2.2 ∧ g.2.2 ≤ 14) ∧
    to_gregorian 1575 2 7 = Except.ok (1582, 10, 4) ∧
    to_gregorian 1575 2 8 = Except.ok (1582, 10, 15) := by
  refine ⟨?_, by decide, by decide⟩
  rintro ⟨h1582, hmo, hd5, hd14⟩
  have hy : y + 7 = 1582 ∨ y + 7 + 1 = 1582 := by
    rcases to_gregorian_ok_shape y m d g hok with h | h
    · left
      omega
    · right
      omega
  have hy2 : y ≤ 4491 := by omega
  have hchar := fwd_char y m d hy2 hv
  rw [hchar] at hok
  have hg : fwdF y m d = g := by simpa using hok
  have hval := fwdF_valid y m d hy2 hv
  rw [hg] at hval
  obtain ⟨-, -, -, -, hgap, -⟩ := (validate_greg_none_iff g.1 g.2.1 g.2.2).mp hval
  exact hgap ⟨h1582, hmo, hd5, hd14⟩

theorem claim_C10_witness :
    ¬(((1582 : Int), (10 : Int), (4 : Int)).1 = 1582 ∧
        ((1582 : Int), (10 : Int), (4 : Int)).2.1 = 10 ∧
        5 ≤ ((1582 : Int), (10 : Int), (4 : Int)).2.2 ∧
        ((1582 : Int), (10 : Int), (4 : Int)).2.2 ≤ 14) ∧
    to_gregorian 1575 2 7 = Except.ok (1582, 10, 4) ∧
    to_gregorian 1575 2 8 = Except.ok (1582, 10, 15) :=
  claim_C10 1575 2 7 ((1582 : Int), (10 : Int), (4 : Int)) (by decide) (by decide)
